import Mathlib

/-!
# QualtyAI: the enquiry-creation workflow

A shallow embedding of `server/Controllers/RaiseenquiryController.js`
(`createRaiseEnquiry`) together with the wiring of `server/models/index.js`.

Conventions of the embedding:

* request bodies are untyped JSON, so every field is a `JVal`;
* a JavaScript number is given by its value, a rational, or is one of the two
  infinities or NaN; `-0` and `0` are one value (no test of the program tells them
  apart); a number read from a text by `parseFloat` is the double nearest to the
  decimal value, ties to even;
* `toLowerCase` maps `A`-`Z`, and the Kelvin sign to `k`, and leaves every other
  character alone: the lower-cased strings are only ever compared with the ASCII
  constants of the controller, and no other character has an ASCII lower case;
* the ORM is an oracle (`Store`): what `findByPk` and `create` return or throw;
* `transaction()`, `commit()` and `rollback()` themselves do not throw;
* every database operation of a request is recorded, in order, in a log, and the
  rows a request leaves behind are read off that log (`persisted`).
-/

namespace QualtyAI

/-! ## JavaScript values -/

/-- A JavaScript value as the controller can meet it.  `obj` stands for any array or
object; the only thing the program can observe of one is its string conversion. -/
inductive JVal where
  | undefined
  | null
  | bool (b : Bool)
  | num (q : ℚ)
  | inf (negative : Bool)
  | nan
  | str (s : String)
  | obj (asString : String)
  deriving DecidableEq

namespace JVal

/-- ToBoolean: the truthiness test of `if (v)`, `!v`, `v ? a : b`, `a || b`. -/
def truthy : JVal → Bool
  | undefined => false
  | null => false
  | bool b => b
  | num q => decide (q ≠ 0)
  | inf _ => true
  | nan => false
  | str s => decide (s.data ≠ [])
  | obj _ => true

/-- The test `v === undefined || v === null`. -/
def isNullish : JVal → Bool
  | undefined => true
  | null => true
  | _ => false

/-- The test `typeof v === "number"`. -/
def isNumber : JVal → Bool
  | num _ => true
  | inf _ => true
  | nan => true
  | _ => false

/-- The comparison `v < 0` for a value `v` with `typeof v === "number"`. -/
def ltZero : JVal → Bool
  | num q => decide (q < 0)
  | inf negative => negative
  | _ => false

/-- The comparison `v > 100` for a value `v` with `typeof v === "number"`. -/
def gtHundred : JVal → Bool
  | num q => decide (100 < q)
  | inf negative => !negative
  | _ => false

end JVal

/-! ## Strings -/

/-- The lower case of one character, as far as it can meet an ASCII constant: `A`-`Z`
go to `a`-`z` and the Kelvin sign (U+212A) goes to `k`. -/
def lowerChar (c : Char) : Char :=
  if c.toNat = 0x212A then 'k' else c.toLower

/-- The method `String.prototype.toLowerCase`. -/
def toLowerCase (s : String) : String :=
  String.mk (s.data.map lowerChar)

/-- The method `Array.prototype.join`. -/
def join (sep : String) : List String → String
  | [] => ""
  | [x] => x
  | x :: y :: rest => x ++ sep ++ join sep (y :: rest)

/-- The method `Array.prototype.includes` on an array of strings. -/
def includes (xs : List String) (x : String) : Bool :=
  decide (x ∈ xs)

/-- White space and line terminators, the characters that `trim` and `parseFloat` skip. -/
def isWhiteSpace (c : Char) : Bool :=
  let n := c.toNat
  n = 9 || n = 10 || n = 11 || n = 12 || n = 13 || n = 32 || n = 0xA0 || n = 0x1680
    || (0x2000 ≤ n && n ≤ 0x200A)
    || n = 0x2028 || n = 0x2029 || n = 0x202F || n = 0x205F || n = 0x3000 || n = 0xFEFF

/-- The test `s.trim() === ""`. -/
def trimIsEmpty (s : String) : Bool :=
  s.data.all isWhiteSpace

/-- An error object as the `catch` block inspects it: `error.name`, `error.message`,
the messages of `error.errors`, and `error.original.code` when `error.original` is set. -/
structure JsError where
  name : String
  message : String
  errors : List String
  originalCode : Option String
  deriving DecidableEq

/-- The TypeError raised by calling a method the receiver does not have. -/
def typeError (what : String) : JsError :=
  { name := "TypeError", message := what, errors := [], originalCode := none }

/-- The expression `v ? v.toLowerCase() : ""`: only strings have the method. -/
def lowerOrEmpty (v : JVal) : Except JsError String :=
  if v.truthy then
    match v with
    | JVal.str s => Except.ok (toLowerCase s)
    | _ => Except.error (typeError "toLowerCase is not a function")
  else Except.ok ""

/-- The expression `!v || v.trim() === ""`: only strings have the method. -/
def missingOrBlank (v : JVal) : Except JsError Bool :=
  if !v.truthy then Except.ok true
  else
    match v with
    | JVal.str s => Except.ok (trimIsEmpty s)
    | _ => Except.error (typeError "trim is not a function")

/-! ## parseFloat -/

/-- The longest run of decimal digits at the head of the input, and what follows it. -/
def spanDigits : List Char → List Char × List Char
  | [] => ([], [])
  | c :: cs =>
    if c.isDigit then ((spanDigits cs).1.cons c, (spanDigits cs).2) else ([], c :: cs)

/-- The value of a run of decimal digits. -/
def digitsValue (ds : List Char) : Nat :=
  ds.foldl (fun n c => 10 * n + (c.toNat - 48)) 0

/-- The value of the ExponentPart at the head of the input, 0 when there is none:
`e` or `E`, an optional sign, and at least one digit. -/
def exponentValue : List Char → Int
  | [] => 0
  | c :: cs =>
    if c = 'e' || c = 'E' then
      match cs with
      | '+' :: ds => Int.ofNat (digitsValue (spanDigits ds).1)
      | '-' :: ds => - Int.ofNat (digitsValue (spanDigits ds).1)
      | ds => Int.ofNat (digitsValue (spanDigits ds).1)
    else 0

/-- The mathematical value of a decimal literal, before it is rounded to a Number:
`mantissa / 10 ^ fracDigits * 10 ^ exponent`, exactly. -/
def scaleDecimal (mantissa fracDigits : Nat) (exponent : Int) : ℚ :=
  match exponent with
  | Int.ofNat e => mkRat (Int.ofNat (mantissa * 10 ^ e)) (10 ^ fracDigits)
  | Int.negSucc e => mkRat (Int.ofNat mantissa) (10 ^ (fracDigits + (e + 1)))

/-- The longest StrUnsignedDecimalLiteral at the head of the input, by its mathematical
value: `Infinity`, digits with an optional fraction and exponent, or a fraction
alone. -/
def parseUnsigned (cs : List Char) : Option (Option ℚ) :=
  if "Infinity".data.isPrefixOf cs then some none
  else
    let whole := (spanDigits cs).1
    match (spanDigits cs).2 with
    | '.' :: rest =>
      let frac := (spanDigits rest).1
      if whole.isEmpty && frac.isEmpty then none
      else some (some (scaleDecimal (digitsValue (whole ++ frac)) frac.length
        (exponentValue (spanDigits rest).2)))
    | rest =>
      if whole.isEmpty then none
      else some (some (scaleDecimal (digitsValue whole) 0 (exponentValue rest)))

/-- The quotient `n / d` times `2 ^ k`, as a quotient of naturals. -/
def shiftFraction (n d : Nat) (k : Int) : Nat × Nat :=
  match k with
  | Int.ofNat k => (n * 2 ^ k, d)
  | Int.negSucc k => (n, d * 2 ^ (k + 1))

/-- The number of binary digits of `n`, counted in at most `fuel` halvings. -/
def bitLength : Nat → Nat → Nat
  | 0, _ => 0
  | fuel + 1, n => if n = 0 then 0 else bitLength fuel (n / 2) + 1

/-- The position of the highest binary digit of a positive `n`: the `k` with
`2 ^ k ≤ n < 2 ^ (k + 1)`. -/
def highestBit (n : Nat) : Nat :=
  bitLength n n - 1

/-- The exponent of the binade of `n / d`, for positive `n` and `d`: the `e` with
`2 ^ e ≤ n / d < 2 ^ (e + 1)`; the difference of the highest bits is that `e` or one
more. -/
def floorLog2 (n d : Nat) : Int :=
  let e : Int := Int.ofNat (highestBit n) - Int.ofNat (highestBit d)
  if (shiftFraction n d (-e)).1 < (shiftFraction n d (-e)).2 then e - 1 else e

/-- The integer nearest to `n / d`, the even one of two that are equally near. -/
def roundHalfEven (n d : Nat) : Nat :=
  if 2 * (n % d) < d then n / d
  else if d < 2 * (n % d) then n / d + 1
  else if (n / d) % 2 = 0 then n / d
  else n / d + 1

/-- The number `m * 2 ^ k`, negated when `negative` is set. -/
def signedBinary (negative : Bool) (m : Nat) (k : Int) : ℚ :=
  match k with
  | Int.ofNat k =>
    mkRat (if negative then - Int.ofNat (m * 2 ^ k) else Int.ofNat (m * 2 ^ k)) 1
  | Int.negSucc k => mkRat (if negative then - Int.ofNat m else Int.ofNat m) (2 ^ (k + 1))

/-- The Number value of a non-negative real `q`, negated when `negative` is set: the
IEEE 754 double nearest to it, the one with the even significand of two that are
equally near (53 bits of significand, exponents from -1022 to 1023, subnormals below);
beyond the largest double it is an infinity, and what rounds to nothing is 0 (-0 and 0
are the one number 0 here: both are falsy and both compare as 0). -/
def toDouble (negative : Bool) (q : ℚ) : JVal :=
  if q.num.natAbs = 0 then JVal.num 0
  else if 1023 < floorLog2 q.num.natAbs q.den then JVal.inf negative
  else
    let exponent := max (floorLog2 q.num.natAbs q.den) (-1022)
    let scaled := shiftFraction q.num.natAbs q.den (52 - exponent)
    let significand := roundHalfEven scaled.1 scaled.2
    if exponent = 1023 ∧ significand = 2 ^ 53 then JVal.inf negative
    else JVal.num (signedBinary negative significand (exponent - 52))

/-- The function `parseFloat` on a string: leading white space is skipped, then the
longest numeric literal at the head is read and rounded to a Number; NaN when there is
none. -/
def parseFloatString (s : String) : JVal :=
  match s.data.dropWhile isWhiteSpace with
  | '-' :: cs =>
    match parseUnsigned cs with
    | none => JVal.nan
    | some none => JVal.inf true
    | some (some q) => toDouble true q
  | '+' :: cs =>
    match parseUnsigned cs with
    | none => JVal.nan
    | some none => JVal.inf false
    | some (some q) => toDouble false q
  | cs =>
    match parseUnsigned cs with
    | none => JVal.nan
    | some none => JVal.inf false
    | some (some q) => toDouble false q

/-- The function `parseFloat`: the argument is first converted to a string.  A number
converts to a string that reads back as the same number. -/
def parseFloat : JVal → JVal
  | JVal.str s => parseFloatString s
  | JVal.obj asString => parseFloatString asString
  | JVal.num q => JVal.num q
  | JVal.inf negative => JVal.inf negative
  | _ => JVal.nan

/-- The expression `a || b`. -/
def orElse (a b : JVal) : JVal :=
  if a.truthy then a else b

/-! ## Response messages -/

/-- One piece of a template literal: literal text, or an interpolated value. -/
inductive Part where
  | lit (s : String)
  | val (v : JVal)
  deriving DecidableEq

/-- The `message` of a response body, as the pieces of its template literal. -/
abbrev Msg := List Part

/-- The expression `key.replace(/([A-Z])/g, " $1")`. -/
def spaceBeforeCapitals (s : String) : String :=
  String.mk (s.data.flatMap (fun c => if c.isUpper then [' ', c] else [c]))

/-- The expression `key.replace(/([A-Z])/g, " $1").toLowerCase()`. -/
def readableKey (key : String) : String :=
  toLowerCase (spaceBeforeCapitals key)

/-! ## Data model -/

/-- The fields that `createRaiseEnquiry` destructures from `req.body`. -/
structure Body where
  inspectionLocation : JVal
  country : JVal
  urgencyLevel : JVal
  commodityCategory : JVal
  subCommodity : JVal
  riceType : JVal
  volume : JVal
  siUnits : JVal
  expectedBudgetUSD : JVal
  inspectionType : JVal
  singleDayInspectionDate : JVal
  multiDayInspectionStartDate : JVal
  multiDayInspectionEndDate : JVal
  physicalInspection : JVal
  chemicalTesting : JVal
  certificates : JVal
  companyName : JVal
  contactPersonName : JVal
  emailAddress : JVal
  phoneNumber : JVal
  specialRequirements : JVal
  selectedPhyParamId : JVal
  selectedChemParamId : JVal
  deriving DecidableEq

/-- A physical-inspection parameter record, as `Phyinspectionparam.findByPk` returns it:
the ten attributes that the controller reads. -/
structure PhyRecord where
  broken : JVal
  purity : JVal
  yellowKernel : JVal
  damageKernel : JVal
  redKernel : JVal
  paddyKernel : JVal
  chalkyRice : JVal
  liveInsects : JVal
  millingDegree : JVal
  averageGrainLength : JVal
  deriving DecidableEq

/-- A chemical-inspection parameter record: the attribute that the controller reads. -/
structure ChemRecord where
  parameter_name : JVal
  deriving DecidableEq

/-- The attribute values that the controller hands to `Raiseenquiry.create`: one
enquiry row. -/
structure Enquiry where
  inspectionLocation : JVal
  country : JVal
  urgencyLevel : JVal
  commodityCategory : JVal
  subCommodity : JVal
  riceType : JVal
  volume : JVal
  siUnits : JVal
  expectedBudgetUSD : JVal
  inspectionType : JVal
  singleDayInspectionDate : JVal
  multiDayInspectionStartDate : JVal
  multiDayInspectionEndDate : JVal
  physicalInspection : JVal
  chemicalTesting : JVal
  certificates : JVal
  companyName : JVal
  contactPersonName : JVal
  emailAddress : JVal
  phoneNumber : JVal
  specialRequirements : JVal
  broken : JVal
  purity : JVal
  yellowKernel : JVal
  damageKernel : JVal
  redKernel : JVal
  paddyKernel : JVal
  chalkyRice : JVal
  liveInsects : JVal
  millingDegree : JVal
  averageGrainLength : JVal
  chemicalParameters : JVal
  deriving DecidableEq

/-- The static method `findByPk` of a model: the record, `none` for `null`, or a thrown
error. -/
abbrev FindByPk (Record : Type) := JVal → Except JsError (Option Record)

/-- The static method `create` of the enquiry model: the error it throws (a
SequelizeValidationError from the validators of `models/Raiseenquiry.js`, a database
error), or `none` when the row is inserted. -/
abbrev Create := Enquiry → Option JsError

/-- The database behind the ORM, as far as this controller uses it. -/
structure Store where
  phyFindByPk : FindByPk PhyRecord
  chemFindByPk : FindByPk ChemRecord
  enquiryCreate : Create

/-- The properties of the object exported by `models/index.js` that the controller
reads; a property that was never assigned reads as `undefined`, here `none`. -/
structure Db where
  Raiseenquiry : Option Create
  Phyinspectionparam : Option (FindByPk PhyRecord)
  CheminsParam : Option (FindByPk ChemRecord)
  Chemicalinsparameter : Option (FindByPk ChemRecord)

/-- The object built by `models/index.js`: the chemical-parameter model is registered as
`db.Chemicalinsparameter`, and `db.CheminsParam` is never assigned. -/
def modelsIndex (store : Store) : Db :=
  { Raiseenquiry := some store.enquiryCreate
    Phyinspectionparam := some store.phyFindByPk
    CheminsParam := none
    Chemicalinsparameter := some store.chemFindByPk }

/-! ## Transactions -/

/-- One database operation of a request. `create row true` is an insert that went
through, `create row false` one that threw. -/
inductive DbOp where
  | begin
  | phyFindByPk (id : JVal)
  | chemFindByPk (id : JVal)
  | create (row : Enquiry) (inserted : Bool)
  | commit
  | rollback
  deriving DecidableEq

/-- The rows of a transaction: those written and not yet committed, and those committed. -/
structure TxState where
  pending : List Enquiry
  committed : List Enquiry
  deriving DecidableEq

/-- The effect of one operation on the rows of the transaction. -/
def TxState.step (st : TxState) : DbOp → TxState
  | DbOp.create row true => { st with pending := st.pending ++ [row] }
  | DbOp.commit => { pending := [], committed := st.committed ++ st.pending }
  | DbOp.rollback => { st with pending := [] }
  | _ => st

/-- The rows that a log of operations leaves in the table. -/
def persistedRows (log : List DbOp) : List Enquiry :=
  (log.foldl TxState.step { pending := [], committed := [] }).committed

/-- The HTTP response: status, `message`, and the other keys of the JSON body. -/
structure Response where
  status : Nat
  message : Msg
  errors : Option (List String)
  error : Option String
  enquiry : Option Enquiry
  deriving DecidableEq

/-- What one call of the controller does: its response and its database operations. -/
structure Outcome where
  response : Response
  log : List DbOp
  deriving DecidableEq

/-- The rows that the call leaves in the enquiry table. -/
def Outcome.persisted (o : Outcome) : List Enquiry :=
  persistedRows o.log

/-- The status code of the response. -/
def Outcome.status (o : Outcome) : Nat :=
  o.response.status

/-! ## Control flow of the controller -/

/-- How a stretch of the controller ends: control falls through with a value, the
controller rolls back and returns `res.status(status).json(...)` with a message, or
an exception is thrown towards the `catch` block. -/
inductive Step (α : Type) where
  | next (a : α)
  | reply (status : Nat) (message : Msg)
  | throw (e : JsError)
  deriving DecidableEq

/-- A stretch of the controller together with the database operations it performed. -/
abbrev Flow (α : Type) := Step α × List DbOp

/-- A stretch that performs no database operation. -/
def Flow.lift {α : Type} (s : Step α) : Flow α := (s, [])

/-- Sequencing: the second stretch runs only when the first falls through. -/
def Flow.andThen {α β : Type} (x : Flow α) (f : α → Flow β) : Flow β :=
  match x with
  | (Step.next a, ops) => ((f a).1, ops ++ (f a).2)
  | (Step.reply status message, ops) => (Step.reply status message, ops)
  | (Step.throw e, ops) => (Step.throw e, ops)

/-! ## The constants of `createRaiseEnquiry` -/

/-- The constant `validCommodityCategories`. -/
def validCommodityCategories : List String :=
  [ "food & beverages",
    "textiles & garments",
    "electronics & electrical",
    "pharmaceuticals",
    "chemicals",
    "automotive",
    "other" ].map toLowerCase

/-- The constant `validSubCommoditiesMap`, as its entries in insertion order. -/
def validSubCommoditiesMap : List (String × List String) :=
  [ ("food & beverages",
      ["rice", "wheat", "pulses", "spices", "tea&coffee", "oil and seeds"].map toLowerCase),
    ("textiles & garments", ["cotton", "silk", "wool", "synthetic"].map toLowerCase),
    ("electronics & electrical", ["components", "devices", "home appliances"].map toLowerCase),
    ("pharmaceuticals", ["apis", "finished products", "medical devices"].map toLowerCase),
    ("chemicals", ["industrial", "organic", "specialty"].map toLowerCase),
    ("automotive", ["parts", "accessories"].map toLowerCase) ]

/-- The constant `validRiceTypes`. -/
def validRiceTypes : List String :=
  [ "basmati rice",
    "jasmine rice",
    "brown rice",
    "white rice",
    "wild rice",
    "arborio rice",
    "black rice",
    "red rice",
    "sticky rice",
    "parboiled rice",
    "long grain rice",
    "medium grain rice",
    "short grain rice",
    "organic rice",
    "non-gmo rice",
    "broken rice",
    "rice bran",
    "rice flour" ].map toLowerCase

/-- The constant `validInspectionTypes`. -/
def validInspectionTypes : List String :=
  ["single_day", "multi_day"].map toLowerCase

/-- The expression `Object.keys(validSubCommoditiesMap)`. -/
def subCommodityKeys : List String :=
  validSubCommoditiesMap.map Prod.fst

/-- The expression `validSubCommoditiesMap[key]`, for a key among `Object.keys`. -/
def allowedSubCommodities (key : String) : Option (List String) :=
  (validSubCommoditiesMap.find? (fun entry => decide (entry.1 = key))).map Prod.snd

/-- The four inputs normalised for comparison: `lowerCaseCommodityCategory`,
`lowerCaseSubCommodity`, `lowerCaseRiceType`, `lowerCaseInspectionType`. -/
structure Lowered where
  commodityCategory : String
  subCommodity : String
  riceType : String
  inspectionType : String
  deriving DecidableEq

/-- Lines 125-134: the four `x ? x.toLowerCase() : ""` expressions, in order. -/
def normalize (body : Body) : Step Lowered :=
  match lowerOrEmpty body.commodityCategory with
  | Except.error e => Step.throw e
  | Except.ok c =>
    match lowerOrEmpty body.subCommodity with
    | Except.error e => Step.throw e
    | Except.ok s =>
      match lowerOrEmpty body.riceType with
      | Except.error e => Step.throw e
      | Except.ok r =>
        match lowerOrEmpty body.inspectionType with
        | Except.error e => Step.throw e
        | Except.ok t =>
          Step.next { commodityCategory := c, subCommodity := s, riceType := r,
                      inspectionType := t }

/-- The flag `isFoodBeverages`. -/
def isFoodBeverages (lc : Lowered) : Bool :=
  decide (lc.commodityCategory = "food & beverages")

/-- The flag `isRiceSubCommodity`. -/
def isRiceSubCommodity (lc : Lowered) : Bool :=
  isFoodBeverages lc && decide (lc.subCommodity = "rice")

/-- The flag `isSpecificRiceTypeSelected`. -/
def isSpecificRiceTypeSelected (lc : Lowered) : Bool :=
  isRiceSubCommodity lc && includes validRiceTypes lc.riceType

/-- The flag `isOtherCommodityCategory`. -/
def isOtherCommodityCategory (lc : Lowered) : Bool :=
  decide (lc.commodityCategory = "other")

/-- The flag `expectsPredefinedSubCommodity`. -/
def expectsPredefinedSubCommodity (lc : Lowered) : Bool :=
  includes subCommodityKeys lc.commodityCategory

/-- The message of the category check. -/
def invalidCategoryMessage : Msg :=
  [ Part.lit "Invalid commodity category. Allowed: ",
    Part.val (JVal.str (join ", " validCommodityCategories)),
    Part.lit "." ]

/-- Lines 136-144: the commodity category must be one of the allowed ones. -/
def checkCategory (lc : Lowered) : Step Unit :=
  if !includes validCommodityCategories lc.commodityCategory then
    Step.reply 400 invalidCategoryMessage
  else Step.next ()

/-- Lines 154-195: the sub-commodity check. -/
def checkSubCommodity (body : Body) (lc : Lowered) : Step Unit :=
  if expectsPredefinedSubCommodity lc then
    if !body.subCommodity.truthy then
      Step.reply 400
        [Part.lit "Sub-commodity is required for ", Part.val body.commodityCategory,
         Part.lit "."]
    else
      match allowedSubCommodities lc.commodityCategory with
      | some allowed =>
        if !includes allowed lc.subCommodity then
          Step.reply 400
            [ Part.lit "Invalid sub-commodity '", Part.val body.subCommodity,
              Part.lit "'. Allowed for ", Part.val body.commodityCategory, Part.lit ": ",
              Part.val (JVal.str (join ", " allowed)), Part.lit "." ]
        else Step.next ()
      | none => Step.next ()
  else if isOtherCommodityCategory lc then
    match missingOrBlank body.subCommodity with
    | Except.error e => Step.throw e
    | Except.ok true =>
      Step.reply 400
        [Part.lit
          "Sub-commodity is required when 'Other' is selected as commodity category."]
    | Except.ok false => Step.next ()
  else
    if body.subCommodity.truthy then
      Step.reply 400
        [Part.lit "Sub-commodity should only be provided for specific commodity categories that require it (e.g., Food & Beverages, Textiles & Garments, etc.) or if 'Other' is selected."]
    else Step.next ()

/-- Lines 197-222: the rice-type check. -/
def checkRiceType (body : Body) (lc : Lowered) : Step Unit :=
  if isRiceSubCommodity lc then
    if !body.riceType.truthy then
      Step.reply 400
        [Part.lit "Rice Type is required when 'Rice' is selected as sub-commodity."]
    else if !includes validRiceTypes lc.riceType then
      Step.reply 400
        [ Part.lit "Invalid Rice Type '", Part.val body.riceType,
          Part.lit "'. Allowed for Rice sub-commodity: ",
          Part.val (JVal.str (join ", " validRiceTypes)), Part.lit "." ]
    else Step.next ()
  else
    if body.riceType.truthy then
      Step.reply 400
        [Part.lit "Rice Type should only be provided when 'Food & Beverages' -> 'Rice' is selected as sub-commodity."]
    else Step.next ()

/-- The ten `let` variables that hold the rice physical parameters. -/
structure RiceVars where
  broken : JVal
  purity : JVal
  yellowKernel : JVal
  damageKernel : JVal
  redKernel : JVal
  paddyKernel : JVal
  chalkyRice : JVal
  liveInsects : JVal
  millingDegree : JVal
  averageGrainLength : JVal
  deriving DecidableEq

/-- Lines 46-55: the variables are declared as `null`. -/
def RiceVars.initial : RiceVars :=
  { broken := JVal.null, purity := JVal.null, yellowKernel := JVal.null,
    damageKernel := JVal.null, redKernel := JVal.null, paddyKernel := JVal.null,
    chalkyRice := JVal.null, liveInsects := JVal.null, millingDegree := JVal.null,
    averageGrainLength := JVal.null }

/-- Lines 245-256: the variables are assigned from the fetched record. -/
def RiceVars.ofRecord (phyParam : PhyRecord) : RiceVars :=
  { broken := phyParam.broken
    purity := phyParam.purity
    yellowKernel := phyParam.yellowKernel
    damageKernel := phyParam.damageKernel
    redKernel := phyParam.redKernel
    paddyKernel := phyParam.paddyKernel
    chalkyRice := phyParam.chalkyRice
    liveInsects := phyParam.liveInsects
    millingDegree := orElse (parseFloat phyParam.millingDegree) (JVal.num 0)
    averageGrainLength := phyParam.averageGrainLength }

/-- Lines 226-257: the physical-parameter record is fetched when `physicalInspection`
is truthy. -/
def fetchPhysical (db : Db) (body : Body) : Flow RiceVars :=
  if body.physicalInspection.truthy then
    if !body.selectedPhyParamId.truthy then
      (Step.reply 400
        [Part.lit
          "Physical Inspection is selected but no Physical Parameter ID was provided."],
       [])
    else
      match db.Phyinspectionparam with
      | none => (Step.throw (typeError "Cannot read properties of undefined"), [])
      | some findByPk =>
        match findByPk body.selectedPhyParamId with
        | Except.error e => (Step.throw e, [DbOp.phyFindByPk body.selectedPhyParamId])
        | Except.ok none =>
          (Step.reply 404
            [ Part.lit "Physical Inspection Parameter with ID ",
              Part.val body.selectedPhyParamId, Part.lit " not found." ],
           [DbOp.phyFindByPk body.selectedPhyParamId])
        | Except.ok (some phyParam) =>
          (Step.next (RiceVars.ofRecord phyParam),
           [DbOp.phyFindByPk body.selectedPhyParamId])
  else (Step.next RiceVars.initial, [])

/-- Lines 259-278: the chemical-parameter record is fetched when `chemicalTesting` is
truthy; the value that falls through is the variable `chemicalParameters`. -/
def fetchChemical (db : Db) (body : Body) : Flow JVal :=
  if body.chemicalTesting.truthy then
    if !body.selectedChemParamId.truthy then
      (Step.reply 400
        [Part.lit
          "Chemical Testing is selected but no Chemical Parameter ID was provided."],
       [])
    else
      match db.CheminsParam with
      | none => (Step.throw (typeError "Cannot read properties of undefined"), [])
      | some findByPk =>
        match findByPk body.selectedChemParamId with
        | Except.error e => (Step.throw e, [DbOp.chemFindByPk body.selectedChemParamId])
        | Except.ok none =>
          (Step.reply 404
            [ Part.lit "Chemical Inspection Parameter with ID ",
              Part.val body.selectedChemParamId, Part.lit " not found." ],
           [DbOp.chemFindByPk body.selectedChemParamId])
        | Except.ok (some chemParam) =>
          (Step.next chemParam.parameter_name,
           [DbOp.chemFindByPk body.selectedChemParamId])
  else (Step.next JVal.null, [])

/-- The flag `shouldValidateDetailedRicePhysicalParams`, as `if` and `? :` read it. -/
def shouldValidateDetailedRicePhysicalParams (body : Body) (lc : Lowered) : Bool :=
  body.physicalInspection.truthy && isSpecificRiceTypeSelected lc

/-- Assignment of one property of an object: a key that is already there keeps its
position and takes the new value, a new key goes last. -/
def setProperty : List (String × JVal) → String → JVal → List (String × JVal)
  | [], key, value => [(key, value)]
  | (k, v) :: rest, key, value =>
    if k = key then (k, value) :: rest else (k, v) :: setProperty rest key value

/-- An object literal: its properties are assigned from left to right. -/
def objectLiteral (properties : List (String × JVal)) : List (String × JVal) :=
  properties.foldl (fun object entry => setProperty object entry.1 entry.2) []

/-- Lines 286-299: `Object.entries(ricePhysicalParams)`. -/
def ricePhysicalParams (vars : RiceVars) : List (String × JVal) :=
  objectLiteral
    [ ("broken", vars.broken),
      ("purity", vars.purity),
      ("yellowKernel", vars.yellowKernel),
      ("damageKernel", vars.damageKernel),
      ("redKernel", vars.redKernel),
      ("purity", vars.purity),
      ("paddyKernel", vars.paddyKernel),
      ("chalkyRice", vars.chalkyRice),
      ("liveInsects", vars.liveInsects),
      ("millingDegree", vars.millingDegree),
      ("averageGrainLength", vars.averageGrainLength) ]

/-- The keys validated as percentages (lines 314-323). -/
def percentageKeys : List String :=
  [ "broken", "purity", "yellowKernel", "damageKernel", "redKernel", "paddyKernel",
    "chalkyRice", "millingDegree" ]

/-- The keys validated as non-negative numbers (line 333). -/
def nonNegativeKeys : List String :=
  ["liveInsects", "averageGrainLength"]

/-- The message for a rice parameter that is `null` or `undefined`. -/
def requiredMessage (key : String) : Msg :=
  [ Part.val (JVal.str (readableKey key)),
    Part.lit " is required for rice physical inspection when a specific rice type is selected, but was not found in the selected physical parameter record (",
    Part.val (JVal.str key), Part.lit ")." ]

/-- The message for a percentage outside 0..100. -/
def percentageMessage (key : String) : Msg :=
  [Part.val (JVal.str (readableKey key)), Part.lit " must be a number between 0 and 100%."]

/-- The message for a negative count or length. -/
def nonNegativeMessage (key : String) : Msg :=
  [Part.val (JVal.str (readableKey key)), Part.lit " must be a non-negative number."]

/-- Lines 301-341: the loop over the entries; the message of the first entry that
fails, or `none` when the loop runs to its end. -/
def firstRiceParamError : List (String × JVal) → Option Msg
  | [] => none
  | (key, value) :: rest =>
    if value.isNullish then some (requiredMessage key)
    else if includes percentageKeys key then
      if !value.isNumber || value.ltZero || value.gtHundred then
        some (percentageMessage key)
      else firstRiceParamError rest
    else if includes nonNegativeKeys key then
      if !value.isNumber || value.ltZero then some (nonNegativeMessage key)
      else firstRiceParamError rest
    else firstRiceParamError rest

/-- Lines 346-357: the array `ricePhysicalParamValues`. -/
def ricePhysicalParamValues (vars : RiceVars) : List JVal :=
  [ vars.broken, vars.purity, vars.yellowKernel, vars.damageKernel, vars.redKernel,
    vars.paddyKernel, vars.chalkyRice, vars.liveInsects, vars.millingDegree,
    vars.averageGrainLength ]

/-- The message of the defensive check of lines 358-368. -/
def riceOnlyMessage : Msg :=
  [Part.lit "Rice-specific physical inspection parameters should only be provided when 'Food & Beverages' -> 'Rice' and a specific Rice Type are selected for physical inspection."]

/-- Lines 280-369: the validation of the rice physical parameters. -/
def checkRicePhysical (body : Body) (lc : Lowered) (vars : RiceVars) : Step Unit :=
  if shouldValidateDetailedRicePhysicalParams body lc then
    match firstRiceParamError (ricePhysicalParams vars) with
    | some message => Step.reply 400 message
    | none => Step.next ()
  else if body.physicalInspection.truthy then
    if (ricePhysicalParamValues vars).any (fun param => !param.isNullish) then
      Step.reply 400 riceOnlyMessage
    else Step.next ()
  else Step.next ()

/-- Lines 371-385: the validation of `chemicalParameters`; the value that falls
through is the variable after the block. -/
def checkChemical (body : Body) (chemicalParameters : JVal) : Step JVal :=
  if body.chemicalTesting.truthy then
    match missingOrBlank chemicalParameters with
    | Except.error e => Step.throw e
    | Except.ok true =>
      Step.reply 400
        [Part.lit "Chemical parameters (text format) are required if chemical testing is selected, but were not found in the selected chemical parameter record."]
    | Except.ok false => Step.next chemicalParameters
  else Step.next JVal.null

/-- Lines 387-440: the validation of the inspection type and dates. -/
def checkInspectionDates (body : Body) (lc : Lowered) : Step Unit :=
  if !includes validInspectionTypes lc.inspectionType then
    Step.reply 400
      [ Part.lit "Invalid inspection type. Allowed: ",
        Part.val (JVal.str (join ", " validInspectionTypes)), Part.lit "." ]
  else if lc.inspectionType = "single_day" then
    if !body.singleDayInspectionDate.truthy then
      Step.reply 400
        [Part.lit "Single day inspection date is required for 'Single Day' inspection type."]
    else if body.multiDayInspectionStartDate.truthy
        || body.multiDayInspectionEndDate.truthy then
      Step.reply 400
        [Part.lit "Multi-day inspection dates should not be provided for 'Single Day' inspection type."]
    else Step.next ()
  else if lc.inspectionType = "multi_day" then
    if !body.multiDayInspectionStartDate.truthy
        || !body.multiDayInspectionEndDate.truthy then
      Step.reply 400
        [Part.lit "Multi-day inspection start and end dates are required for 'Multi Day' inspection type."]
    else if body.singleDayInspectionDate.truthy then
      Step.reply 400
        [Part.lit "Single day inspection date should not be provided for 'Multi Day' inspection type."]
    else Step.next ()
  else Step.next ()

/-- Lines 443-509: the attribute values handed to `Raiseenquiry.create`. -/
def buildRow (body : Body) (lc : Lowered) (vars : RiceVars) (chemicalParameters : JVal) :
    Enquiry :=
  { inspectionLocation := body.inspectionLocation
    country := body.country
    urgencyLevel := body.urgencyLevel
    commodityCategory := body.commodityCategory
    subCommodity :=
      if expectsPredefinedSubCommodity lc || isOtherCommodityCategory lc then
        body.subCommodity
      else JVal.null
    riceType := if isRiceSubCommodity lc then body.riceType else JVal.null
    volume := body.volume
    siUnits := body.siUnits
    expectedBudgetUSD := body.expectedBudgetUSD
    inspectionType := body.inspectionType
    singleDayInspectionDate :=
      if lc.inspectionType = "single_day" then body.singleDayInspectionDate else JVal.null
    multiDayInspectionStartDate :=
      if lc.inspectionType = "multi_day" then body.multiDayInspectionStartDate
      else JVal.null
    multiDayInspectionEndDate :=
      if lc.inspectionType = "multi_day" then body.multiDayInspectionEndDate else JVal.null
    physicalInspection := body.physicalInspection
    chemicalTesting := body.chemicalTesting
    certificates := body.certificates
    companyName := body.companyName
    contactPersonName := body.contactPersonName
    emailAddress := body.emailAddress
    phoneNumber := body.phoneNumber
    specialRequirements := body.specialRequirements
    broken :=
      if shouldValidateDetailedRicePhysicalParams body lc then vars.broken else JVal.null
    purity :=
      if shouldValidateDetailedRicePhysicalParams body lc then vars.purity else JVal.null
    yellowKernel :=
      if shouldValidateDetailedRicePhysicalParams body lc then vars.yellowKernel
      else JVal.null
    damageKernel :=
      if shouldValidateDetailedRicePhysicalParams body lc then vars.damageKernel
      else JVal.null
    redKernel :=
      if shouldValidateDetailedRicePhysicalParams body lc then vars.redKernel else JVal.null
    paddyKernel :=
      if shouldValidateDetailedRicePhysicalParams body lc then vars.paddyKernel
      else JVal.null
    chalkyRice :=
      if shouldValidateDetailedRicePhysicalParams body lc then vars.chalkyRice
      else JVal.null
    liveInsects :=
      if shouldValidateDetailedRicePhysicalParams body lc then vars.liveInsects
      else JVal.null
    millingDegree :=
      if shouldValidateDetailedRicePhysicalParams body lc then vars.millingDegree
      else JVal.null
    averageGrainLength :=
      if shouldValidateDetailedRicePhysicalParams body lc then vars.averageGrainLength
      else JVal.null
    chemicalParameters :=
      if body.chemicalTesting.truthy then chemicalParameters else JVal.null }

/-- Lines 125-440: everything between the start of the transaction and the insert.
It falls through with the row to insert. -/
def validate (db : Db) (body : Body) : Flow Enquiry :=
  Flow.andThen (Flow.lift (normalize body)) fun lc =>
  Flow.andThen (Flow.lift (checkCategory lc)) fun _ =>
  Flow.andThen (Flow.lift (checkSubCommodity body lc)) fun _ =>
  Flow.andThen (Flow.lift (checkRiceType body lc)) fun _ =>
  Flow.andThen (fetchPhysical db body) fun vars =>
  Flow.andThen (fetchChemical db body) fun fetched =>
  Flow.andThen (Flow.lift (checkRicePhysical body lc vars)) fun _ =>
  Flow.andThen (Flow.lift (checkChemical body fetched)) fun chemicalParameters =>
  Flow.andThen (Flow.lift (checkInspectionDates body lc)) fun _ =>
  (Step.next (buildRow body lc vars chemicalParameters), [])

/-- An early exit: `await transaction.rollback()`, then
`return res.status(status).json(...)` with the message. -/
def reject (log : List DbOp) (status : Nat) (message : Msg) : Outcome :=
  { response :=
      { status := status, message := message, errors := none, error := none,
        enquiry := none }
    log := log ++ [DbOp.rollback] }

/-- Lines 519-538: the `catch` block. The transaction exists, so it is rolled back;
the status depends on the error. -/
def catchBlock (log : List DbOp) (error : JsError) : Outcome :=
  { response :=
      if error.name = "SequelizeValidationError" then
        { status := 400, message := [Part.lit "Validation error"],
          errors := some error.errors, error := none, enquiry := none }
      else if error.originalCode = some "23505" then
        { status := 409,
          message := [Part.lit "A record with this unique identifier already exists."],
          errors := none, error := none, enquiry := none }
      else
        { status := 500, message := [Part.lit "Failed to create enquiry"],
          errors := none, error := some error.message, enquiry := none }
    log := log ++ [DbOp.rollback] }

/-- Lines 442-518: the insert, the commit and the 201 response. -/
def insertAndCommit (db : Db) (log : List DbOp) (row : Enquiry) : Outcome :=
  match db.Raiseenquiry with
  | none => catchBlock log (typeError "Cannot read properties of undefined")
  | some create =>
    match create row with
    | some error => catchBlock (log ++ [DbOp.create row false]) error
    | none =>
      { response :=
          { status := 201, message := [Part.lit "Enquiry created successfully!"],
            errors := none, error := none, enquiry := some row }
        log := log ++ [DbOp.create row true, DbOp.commit] }

/-- The controller `createRaiseEnquiry`: the transaction is started, the request is
validated, and the row is inserted and committed. -/
def createRaiseEnquiry (db : Db) (body : Body) : Outcome :=
  match validate db body with
  | (Step.next row, ops) => insertAndCommit db (DbOp.begin :: ops) row
  | (Step.reply status message, ops) => reject (DbOp.begin :: ops) status message
  | (Step.throw error, ops) => catchBlock (DbOp.begin :: ops) error

/-! ## Vocabulary of the statements -/

/-- The two `findByPk` operations: the reads. -/
def DbOp.isRead : DbOp → Bool
  | DbOp.phyFindByPk _ => true
  | DbOp.chemFindByPk _ => true
  | _ => false

/-- What every stretch of the validation satisfies: it only reads, and it replies with
400 or 404 only. -/
def Flow.Tame {α : Type} (x : Flow α) : Prop :=
  (∀ op ∈ x.2, DbOp.isRead op = true) ∧
    ∀ status message, x.1 = Step.reply status message → status = 400 ∨ status = 404

/-- A request field that is absent (or falsy in another way) or a string: the values
on which `v ? v.toLowerCase() : ""` does not throw. -/
def JVal.TextOrAbsent (v : JVal) : Prop :=
  v.truthy = false ∨ ∃ s, v = JVal.str s

/-- The text of a field compared case-insensitively; an absent field has the empty text. -/
def JVal.lowerText : JVal → String
  | JVal.str s => toLowerCase s
  | _ => ""

/-- The four compared fields of a request, each taken case-insensitively. -/
def Body.lowered (body : Body) : Lowered :=
  { commodityCategory := body.commodityCategory.lowerText
    subCommodity := body.subCommodity.lowerText
    riceType := body.riceType.lowerText
    inspectionType := body.inspectionType.lowerText }

/-- The four compared fields are each absent or a string. -/
def Body.TextFields (body : Body) : Prop :=
  body.commodityCategory.TextOrAbsent ∧ body.subCommodity.TextOrAbsent ∧
    body.riceType.TextOrAbsent ∧ body.inspectionType.TextOrAbsent

/-- A field that is absent, or a string that is empty after trimming. -/
def JVal.AbsentOrBlank (v : JVal) : Prop :=
  v.truthy = false ∨ ∃ s, v = JVal.str s ∧ trimIsEmpty s = true

/-- A number between 0 and 100. -/
def JVal.isPercentage : JVal → Bool
  | JVal.num q => decide (0 ≤ q ∧ q ≤ 100)
  | _ => false

/-- A number that is at least 0. -/
def JVal.isNonNegative : JVal → Bool
  | JVal.num q => decide (0 ≤ q)
  | JVal.inf negative => !negative
  | _ => false

/-- The milling degrees of the physical-parameter catalog
(`PhyinspectionparamController.js`, line 43). -/
def millingDegrees : List String :=
  ["Under Milled", "Well Milled", "Over Milled"]

/-- A stored record as the catalog accepts it: the seven percentages are between 0 and
100, the count and the length are at least 0, the milling degree is one of the three
strings. -/
def PhyRecord.WellFormed (r : PhyRecord) : Prop :=
  r.broken.isPercentage = true ∧ r.purity.isPercentage = true ∧
    r.yellowKernel.isPercentage = true ∧ r.damageKernel.isPercentage = true ∧
    r.redKernel.isPercentage = true ∧ r.paddyKernel.isPercentage = true ∧
    r.chalkyRice.isPercentage = true ∧ r.liveInsects.isNonNegative = true ∧
    r.averageGrainLength.isNonNegative = true ∧
    ∃ m, r.millingDegree = JVal.str m ∧ m ∈ millingDegrees

/-- One rice physical field as the specification speaks of it: its name in lower-case
words, whether it is a percentage, and the value copied into the draft. -/
structure RiceField where
  words : String
  percentage : Bool
  value : JVal
  deriving DecidableEq

/-- The ten rice physical fields in the order of the specification. -/
def riceFields (vars : RiceVars) : List RiceField :=
  [ { words := "broken", percentage := true, value := vars.broken },
    { words := "purity", percentage := true, value := vars.purity },
    { words := "yellow kernel", percentage := true, value := vars.yellowKernel },
    { words := "damage kernel", percentage := true, value := vars.damageKernel },
    { words := "red kernel", percentage := true, value := vars.redKernel },
    { words := "paddy kernel", percentage := true, value := vars.paddyKernel },
    { words := "chalky rice", percentage := true, value := vars.chalkyRice },
    { words := "live insects", percentage := false, value := vars.liveInsects },
    { words := "milling degree", percentage := true, value := vars.millingDegree },
    { words := "average grain length", percentage := false,
      value := vars.averageGrainLength } ]

/-- An offending field: the value is `null` or `undefined`, or a percentage is not a
number between 0 and 100, or a count or length is not a number that is at least 0;
NaN offends in neither way. -/
def RiceField.offends (f : RiceField) : Bool :=
  f.value.isNullish ||
    (if f.percentage then !(f.value.isPercentage || decide (f.value = JVal.nan))
     else !(f.value.isNonNegative || decide (f.value = JVal.nan)))

/-- An entry of `ricePhysicalParams` and a field of the specification that speak of
the same thing: same value, the key readable as the words, the same kind of check. -/
def Matches (e : String × JVal) (f : RiceField) : Prop :=
  e.2 = f.value ∧ readableKey e.1 = f.words ∧
    includes percentageKeys e.1 = f.percentage ∧
    (f.percentage = false → includes nonNegativeKeys e.1 = true)

/-- The ten rice physical fields of an enquiry row. -/
def Enquiry.riceValues (row : Enquiry) : List JVal :=
  [ row.broken, row.purity, row.yellowKernel, row.damageKernel, row.redKernel,
    row.paddyKernel, row.chalkyRice, row.liveInsects, row.millingDegree,
    row.averageGrainLength ]

/-- The first offending field in the order of the specification. -/
def firstOffence (vars : RiceVars) : Option RiceField :=
  (riceFields vars).find? RiceField.offends

/-! ## Sample data -/

/-- The empty request body: every field is absent. -/
def Body.blank : Body :=
  { inspectionLocation := JVal.undefined, country := JVal.undefined,
    urgencyLevel := JVal.undefined, commodityCategory := JVal.undefined,
    subCommodity := JVal.undefined, riceType := JVal.undefined, volume := JVal.undefined,
    siUnits := JVal.undefined, expectedBudgetUSD := JVal.undefined,
    inspectionType := JVal.undefined, singleDayInspectionDate := JVal.undefined,
    multiDayInspectionStartDate := JVal.undefined,
    multiDayInspectionEndDate := JVal.undefined, physicalInspection := JVal.undefined,
    chemicalTesting := JVal.undefined, certificates := JVal.undefined,
    companyName := JVal.undefined, contactPersonName := JVal.undefined,
    emailAddress := JVal.undefined, phoneNumber := JVal.undefined,
    specialRequirements := JVal.undefined, selectedPhyParamId := JVal.undefined,
    selectedChemParamId := JVal.undefined }

/-- A stored physical-parameter record: purity 95, broken 3, milling degree
"Well Milled". -/
def sampleRecord : PhyRecord :=
  { broken := JVal.num 3, purity := JVal.num 95, yellowKernel := JVal.num 1,
    damageKernel := JVal.num 1, redKernel := JVal.num 0, paddyKernel := JVal.num 0,
    chalkyRice := JVal.num 2, liveInsects := JVal.num 0,
    millingDegree := JVal.str "Well Milled", averageGrainLength := JVal.num 7 }

/-- A database with one physical-parameter record and one chemical-parameter record,
both with id 1, that accepts every insert. -/
def sampleStore : Store :=
  { phyFindByPk := fun id =>
      if id = JVal.num 1 then Except.ok (some sampleRecord) else Except.ok none
    chemFindByPk := fun id =>
      if id = JVal.num 1 then Except.ok (some { parameter_name := JVal.str "Moisture" })
      else Except.ok none
    enquiryCreate := fun _ => none }

/-- A request for the physical inspection of basmati rice on one day, with the stored
parameter record selected. -/
def riceBody : Body :=
  { Body.blank with
    commodityCategory := JVal.str "Food & Beverages"
    subCommodity := JVal.str "rice"
    riceType := JVal.str "basmati rice"
    physicalInspection := JVal.bool true
    selectedPhyParamId := JVal.num 1
    inspectionType := JVal.str "single_day"
    singleDayInspectionDate := JVal.str "2025-01-01" }

/-- A request for organic chemicals on one day, without inspection services. -/
def chemicalsBody : Body :=
  { Body.blank with
    commodityCategory := JVal.str "Chemicals"
    subCommodity := JVal.str "Organic"
    inspectionType := JVal.str "single_day"
    singleDayInspectionDate := JVal.str "2025-01-01" }

/-- A database whose chemical-parameter record 1 has a name of two spaces. -/
def blankNameStore : Store :=
  { sampleStore with
    chemFindByPk := fun id =>
      if id = JVal.num 1 then Except.ok (some { parameter_name := JVal.str "  " })
      else Except.ok none }

/-- Whether a text begins with an unsigned number: a digit, a dot and a digit, or
`Infinity`. -/
def headIsNumber : List Char → Bool
  | [] => false
  | c :: rest =>
    c.isDigit
      || (decide (c = '.') && (match rest with
          | d :: _ => d.isDigit
          | [] => false))
      || "Infinity".data.isPrefixOf (c :: rest)

/-- Whether a string starts with a number: white space aside, an optional sign and
then an unsigned number. -/
def startsWithNumber (s : String) : Bool :=
  match s.data.dropWhile isWhiteSpace with
  | '-' :: cs => headIsNumber cs
  | '+' :: cs => headIsNumber cs
  | cs => headIsNumber cs

/-! ## The physical-parameter catalog: `savePhyInspectionParam` -/

/-- The test `typeof v === "string"`. -/
def JVal.isString : JVal → Bool
  | JVal.str _ => true
  | _ => false

/-- The expression `["Under Milled", "Well Milled", "Over Milled"].includes(v)`:
only a string is strictly equal to a string. -/
def isMillingDegree : JVal → Bool
  | JVal.str s => includes millingDegrees s
  | _ => false

/-- The static method `create` of the physical-parameter model: the error it throws, or
`none` when the record is inserted. -/
abbrev PhyCreate := PhyRecord → Option JsError

/-- What one call of `savePhyInspectionParam` does: the status and the keys of the JSON
body, and the records it left in the table. -/
structure PhyOutcome where
  status : Nat
  message : Msg
  errors : Option (List String)
  error : Option String
  data : Option PhyRecord
  inserted : List PhyRecord
  deriving DecidableEq

/-- Lines 24-46 of `PhyinspectionparamController.js`: the condition of the `if`. -/
def phyInputInvalid (body : PhyRecord) : Bool :=
  !body.broken.isNumber ||
    body.broken.ltZero ||
    !body.purity.isNumber ||
    body.purity.ltZero ||
    body.purity.gtHundred ||
    !body.yellowKernel.isNumber ||
    body.yellowKernel.ltZero ||
    !body.damageKernel.isNumber ||
    body.damageKernel.ltZero ||
    !body.redKernel.isNumber ||
    body.redKernel.ltZero ||
    !body.paddyKernel.isNumber ||
    body.paddyKernel.ltZero ||
    !body.chalkyRice.isNumber ||
    body.chalkyRice.ltZero ||
    !body.liveInsects.isNumber ||
    body.liveInsects.ltZero ||
    !body.millingDegree.isString ||
    !isMillingDegree body.millingDegree ||
    !body.averageGrainLength.isNumber ||
    body.averageGrainLength.ltZero

/-- The message of lines 47-50, the same for every invalid input. -/
def phyInvalidMessage : Msg :=
  [Part.lit "Invalid input data. Please check all fields and ensure they are valid numbers, and 'millingDegree' is one of 'Under Milled', 'Well Milled', 'Over Milled'."]

/-- Lines 72-84: the `catch` block of `savePhyInspectionParam`. -/
def savePhyCatch (error : JsError) : PhyOutcome :=
  if error.name = "SequelizeValidationError" then
    { status := 400, message := [Part.lit "Validation error"], errors := some error.errors,
      error := none, data := none, inserted := [] }
  else
    { status := 500, message := [Part.lit "Error saving physical inspection parameter"],
      errors := none, error := some error.message, data := none, inserted := [] }

/-- The controller `savePhyInspectionParam`; `Phyinspectionparam` is the module constant
`db.Phyinspectionparam`, by its method `create` (`none` when the property is not
assigned), and the body is the ten fields destructured from `req.body`. -/
def savePhyInspectionParam (Phyinspectionparam : Option PhyCreate) (body : PhyRecord) :
    PhyOutcome :=
  if phyInputInvalid body then
    { status := 400, message := phyInvalidMessage, errors := none, error := none,
      data := none, inserted := [] }
  else
    match Phyinspectionparam with
    | none => savePhyCatch (typeError "Cannot read properties of undefined")
    | some create =>
      match create body with
      | some error => savePhyCatch error
      | none =>
        { status := 201,
          message := [Part.lit "Physical inspection parameter saved successfully!"],
          errors := none, error := none, data := some body, inserted := [body] }

/-! ## The chemical-parameter catalog: `CheminsparamController.js` -/

/-- One element of the array in `req.body`: `null`, of which no property can be read,
or any other value, given by what `param.parameter_name` reads on it (`undefined` for
a primitive and for an object without the key). -/
inductive ChemItem where
  | null
  | value (parameter_name : JVal)
  deriving DecidableEq

/-- The body of a request to `saveChemicalParameters`: an array, or anything else. -/
inductive ChemRequest where
  | notArray (body : JVal)
  | array (items : List ChemItem)
  deriving DecidableEq

/-- The chemical-parameter model, by the two static methods the controller calls, as
functions of the rows of the table: `create` gives the table with the new row, or
throws; `findAll` with `order: [["parameter_name", "ASC"]]` gives the rows found, or
throws. -/
structure ChemModel where
  create : List ChemRecord → ChemRecord → Except JsError (List ChemRecord)
  findAll : List ChemRecord → Except JsError (List ChemRecord)

/-- The property `db.CheminsParam` as `models/index.js` leaves it: never assigned. -/
def indexCheminsParam : Option ChemModel := none

/-- What one call of a controller of the catalog does: the status and the keys of the
JSON body, and the rows of the table after the call. -/
structure ChemOutcome where
  status : Nat
  message : Msg
  data : Option (List ChemRecord)
  catalog : List ChemRecord
  deriving DecidableEq

/-- The global error handler of `server.js` (lines 72-78), reached by `next(error)`:
the status is `err.status || 500`, and none of the errors thrown here has a `status`. -/
def chemNext (error : JsError) (catalog : List ChemRecord) : ChemOutcome :=
  { status := 500, message := [Part.lit error.message], data := none, catalog := catalog }

/-- Lines 46-56: the `catch` block of `saveChemicalParameters`. -/
def saveChemicalCatch (error : JsError) (catalog : List ChemRecord) : ChemOutcome :=
  if error.name = "SequelizeUniqueConstraintError" then
    { status := 409,
      message := [Part.lit "A chemical parameter with this name already exists."],
      data := none, catalog := catalog }
  else chemNext error catalog

/-- Lines 30-45: the loop over the elements, and the 201 response after it. The rows
inserted so far stay in the table whatever happens next: there is no transaction. -/
def saveChemicalLoop (CheminsParam : Option ChemModel) :
    List ChemItem → List ChemRecord → List ChemRecord → ChemOutcome
  | [], catalog, savedParameters =>
    { status := 201, message := [Part.lit "Chemical parameter(s) saved successfully."],
      data := some savedParameters, catalog := catalog }
  | ChemItem.null :: _, catalog, _ =>
    saveChemicalCatch (typeError "Cannot read properties of null") catalog
  | ChemItem.value parameter_name :: rest, catalog, savedParameters =>
    if !parameter_name.truthy then
      { status := 400,
        message := [Part.lit "Each chemical parameter must have a parameter_name."],
        data := none, catalog := catalog }
    else
      match CheminsParam with
      | none => saveChemicalCatch (typeError "Cannot read properties of undefined") catalog
      | some model =>
        match model.create catalog { parameter_name := parameter_name } with
        | Except.error error => saveChemicalCatch error catalog
        | Except.ok inserted =>
          saveChemicalLoop (some model) rest inserted
            (savedParameters ++ [{ parameter_name := parameter_name }])

/-- The controller `saveChemicalParameters`; `CheminsParam` is the module constant
`db.CheminsParam`, and `catalog` the rows of the table before the call. -/
def saveChemicalParameters (CheminsParam : Option ChemModel) (catalog : List ChemRecord) :
    ChemRequest → ChemOutcome
  | ChemRequest.notArray _ =>
    { status := 400,
      message := [Part.lit "No chemical parameters provided. Please send an array of chemical parameter objects."],
      data := none, catalog := catalog }
  | ChemRequest.array [] =>
    { status := 400,
      message := [Part.lit "No chemical parameters provided. Please send an array of chemical parameter objects."],
      data := none, catalog := catalog }
  | ChemRequest.array (item :: items) =>
    saveChemicalLoop CheminsParam (item :: items) catalog []

/-- The controller `getAllChemicalParameters`. -/
def getAllChemicalParameters (CheminsParam : Option ChemModel) (catalog : List ChemRecord) :
    ChemOutcome :=
  match CheminsParam with
  | none => chemNext (typeError "Cannot read properties of undefined") catalog
  | some model =>
    match model.findAll catalog with
    | Except.error error => chemNext error catalog
    | Except.ok parameters =>
      { status := 200, message := [Part.lit "Chemical parameters retrieved successfully."],
        data := some parameters, catalog := catalog }

/-- The name of a stored chemical parameter as a text. -/
def chemNameText (row : ChemRecord) : String :=
  match row.parameter_name with
  | JVal.str s => s
  | _ => ""

/-- Modelled from the spec: the chemical-parameter model, whose declaration
(`models/Cheminsparam.js`) is not among the sources. The store of section 1, with a
unique constraint on the name: `create` appends the row, or throws a
SequelizeUniqueConstraintError when the name is stored already; `findAll` gives the
rows sorted by name. -/
def sampleChemModel : ChemModel :=
  { create := fun catalog row =>
      if row ∈ catalog then
        Except.error
          { name := "SequelizeUniqueConstraintError", message := "Validation error",
            errors := ["parameter_name must be unique"], originalCode := some "23505" }
      else Except.ok (catalog ++ [row])
    findAll := fun catalog =>
      Except.ok (catalog.insertionSort fun a b => chemNameText a ≤ chemNameText b) }

/-! ## Authentication: `auth-controller.js` -/

/-- A row of the user table, by the attributes the controller reads or writes. -/
structure UserRow where
  id : JVal
  email : JVal
  password : JVal
  role : JVal
  firstName : JVal
  lastName : JVal
  deriving DecidableEq

/-- The attribute values that `register` hands to `User.create`. -/
structure NewUser where
  email : JVal
  password : JVal
  firstName : JVal
  lastName : JVal
  role : JVal
  deriving DecidableEq

/-- The user model, by the two static methods the controller calls, as functions of the
rows of the table: `findOne`, with the email in its `where`, gives a row, `none` for `null`,
or throws; `create` gives the new instance and the table with it, or throws. -/
structure UserModel where
  findOne : List UserRow → JVal → Except JsError (Option UserRow)
  create : List UserRow → NewUser → Except JsError (UserRow × List UserRow)

/-- The property `db.users` as `models/index.js` leaves it: never assigned. -/
def indexUsers : Option UserModel := none

/-- The two functions of `bcrypt` that the controller calls: `compare(data, hash)` and
`hash(data, 10)`, each of which can throw. -/
structure Bcrypt where
  compare : JVal → JVal → Except JsError Bool
  hash : JVal → Except JsError JVal

/-- A token, by what `jwt.sign(tokenPayload, JWT_SECRET, ...)` puts under the signature:
the three keys of the payload and the option `expiresIn`. -/
structure Token where
  userId : JVal
  email : JVal
  role : JVal
  expiresIn : String
  deriving DecidableEq

/-- The HTTP response of `login` and `register`: the status and the keys of the JSON
body. -/
structure AuthResponse where
  status : Nat
  message : Msg
  token : Option Token
  userId : JVal
  email : JVal
  role : JVal
  firstName : JVal
  lastName : JVal
  deriving DecidableEq

/-- A response whose body has the key `message` only. -/
def AuthResponse.plain (status : Nat) (message : String) : AuthResponse :=
  { status := status, message := [Part.lit message], token := none,
    userId := JVal.undefined, email := JVal.undefined, role := JVal.undefined,
    firstName := JVal.undefined, lastName := JVal.undefined }

/-- The global error handler of `server.js`, reached by `next(error)`: status
`err.status || 500`, where none of the errors thrown here has a `status`, and the
message of the error. -/
def authNext (error : JsError) : AuthResponse :=
  AuthResponse.plain 500 error.message

/-- The signed token of both controllers: the payload of the user, expiring in "12h". -/
def signFor (user : UserRow) : Token :=
  { userId := user.id, email := user.email, role := user.role, expiresIn := "12h" }

/-- The body of a successful `login` or `register`. -/
def authSuccess (status : Nat) (message : String) (user : UserRow) : AuthResponse :=
  { status := status, message := [Part.lit message], token := some (signFor user),
    userId := user.id, email := user.email, role := user.role,
    firstName := user.firstName, lastName := user.lastName }

/-- The controller `login`; `User` is the module constant `db.users`, and `table` the
rows of the user table. -/
def login (User : Option UserModel) (bcrypt : Bcrypt) (table : List UserRow)
    (email password : JVal) : AuthResponse :=
  if !email.truthy || !password.truthy then
    AuthResponse.plain 400 "Email and password are required."
  else
    match User with
    | none => authNext (typeError "Cannot read properties of undefined")
    | some model =>
      match model.findOne table email with
      | Except.error error => authNext error
      | Except.ok none => AuthResponse.plain 401 "Invalid credentials."
      | Except.ok (some user) =>
        match bcrypt.compare password user.password with
        | Except.error error => authNext error
        | Except.ok false => AuthResponse.plain 401 "Invalid credentials."
        | Except.ok true => authSuccess 200 "Login successful!" user

/-- The fields that `register` destructures from `req.body`; any other key of the body,
a `role` for one, is never read. -/
structure RegisterBody where
  email : JVal
  password : JVal
  firstName : JVal
  lastName : JVal
  deriving DecidableEq

/-- What one call of `register` does: its response and the user table after it. -/
structure RegisterOutcome where
  response : AuthResponse
  table : List UserRow
  deriving DecidableEq

/-- The controller `register`. -/
def register (User : Option UserModel) (bcrypt : Bcrypt) (table : List UserRow)
    (body : RegisterBody) : RegisterOutcome :=
  if !body.email.truthy || !body.password.truthy || !body.firstName.truthy
      || !body.lastName.truthy then
    { response := AuthResponse.plain 400 "All fields are required for registration.",
      table := table }
  else
    match User with
    | none =>
      { response := authNext (typeError "Cannot read properties of undefined"),
        table := table }
    | some model =>
      match model.findOne table body.email with
      | Except.error error => { response := authNext error, table := table }
      | Except.ok (some _) =>
        { response := AuthResponse.plain 409 "Email already registered.", table := table }
      | Except.ok none =>
        match bcrypt.hash body.password with
        | Except.error error => { response := authNext error, table := table }
        | Except.ok hashedPassword =>
          match model.create table
              { email := body.email, password := hashedPassword,
                firstName := body.firstName, lastName := body.lastName,
                role := JVal.str "customer" } with
          | Except.error error => { response := authNext error, table := table }
          | Except.ok (newUser, inserted) =>
            { response := authSuccess 201 "User registered successfully!" newUser,
              table := inserted }

/-- Modelled from the spec: a user model, whose declaration is not among the sources.
The store of section 1: `findOne` gives the first row with the email, `create` appends
a row whose id is the next number. -/
def sampleUserModel : UserModel :=
  { findOne := fun table email => Except.ok (table.find? fun row => decide (row.email = email))
    create := fun table draft =>
      Except.ok
        ({ id := JVal.num ((table.length + 1 : Nat) : ℚ), email := draft.email,
           password := draft.password, role := draft.role, firstName := draft.firstName,
           lastName := draft.lastName },
         table ++
          [{ id := JVal.num ((table.length + 1 : Nat) : ℚ), email := draft.email,
             password := draft.password, role := draft.role,
             firstName := draft.firstName, lastName := draft.lastName }]) }

/-- A sample of the password library: `hash` and `compare` on strings; a value that is
not a string makes either throw. -/
def sampleBcrypt : Bcrypt :=
  { hash := fun data =>
      match data with
      | JVal.str s => Except.ok (JVal.str ("$2b$10$" ++ s))
      | _ => Except.error (typeError "data must be a string")
    compare := fun data hash =>
      match data with
      | JVal.str s => Except.ok (decide (hash = JVal.str ("$2b$10$" ++ s)))
      | _ => Except.error (typeError "data must be a string") }

/-- A user table with one customer, whose password is "secret". -/
def sampleUsers : List UserRow :=
  [{ id := JVal.num 1, email := JVal.str "ann@example.com",
     password := JVal.str "$2b$10$secret", role := JVal.str "customer",
     firstName := JVal.str "Ann", lastName := JVal.str "Lee" }]

/-! ## Customers: `CustomerController.js` and `routes/customer-routes.js` -/

/-- The comparison `a === b` of a value read from a row with a value of the request:
`NaN` equals nothing, and two objects of different origin are never the same object. -/
def strictEquals : JVal → JVal → Bool
  | JVal.nan, _ => false
  | JVal.obj _, _ => false
  | a, b => decide (a = b)

/-- What `JSON.stringify` keeps of an object literal: the keys whose value is not
`undefined`. -/
def jsonObject (entries : List (String × JVal)) : List (String × JVal) :=
  entries.filter fun entry => decide (entry.2 ≠ JVal.undefined)

/-- A row of the table "customers": the attributes of `models/customer.js`, and the two
columns that `timestamps: true` adds. -/
structure CustomerRow where
  customer_id : JVal
  country_code : JVal
  full_name : JVal
  email_address : JVal
  mobile_number : JVal
  password : JVal
  trade_license_or_legal_document_photo_url : JVal
  certificate_photo_url : JVal
  createdAt : JVal
  updatedAt : JVal
  deriving DecidableEq

/-- The JSON of a model instance: `models/customer.js` defines no `toJSON`, no scope
and no getter, so every attribute of the row is a key. -/
def CustomerRow.toJSON (row : CustomerRow) : List (String × JVal) :=
  jsonObject
    [("customer_id", row.customer_id), ("country_code", row.country_code),
     ("full_name", row.full_name), ("email_address", row.email_address),
     ("mobile_number", row.mobile_number), ("password", row.password),
     ("trade_license_or_legal_document_photo_url",
        row.trade_license_or_legal_document_photo_url),
     ("certificate_photo_url", row.certificate_photo_url),
     ("createdAt", row.createdAt), ("updatedAt", row.updatedAt)]

/-- The values that `createCustomer` hands to `Customer.create`. -/
structure CustomerValues where
  country_code : JVal
  full_name : JVal
  email_address : JVal
  mobile_number : JVal
  password : JVal
  trade_license_or_legal_document_photo_url : JVal
  certificate_photo_url : JVal
  deriving DecidableEq

/-- An error as the `catch` block of `createCustomer` inspects it: the fields of
`JsError`, with the messages of `error.errors`, and `error.errors[0]?.path`. -/
structure CustomerError extends JsError where
  path : Option String
  deriving DecidableEq

/-- The model `Customer` as the controller and the route call it, over the rows of the
table: `findOne` with the email address and the mobile number of the `Op.or`, `create`
giving the new instance and the rows after it, and `findByPk`. -/
structure CustomerModel where
  findOne : List CustomerRow → JVal → JVal → Except CustomerError (Option CustomerRow)
  create : List CustomerRow → CustomerValues →
    Except CustomerError (CustomerRow × List CustomerRow)
  findByPk : List CustomerRow → JVal → Except CustomerError (Option CustomerRow)

/-- The fields that `createCustomer` destructures from `req.body`. -/
structure CustomerBody where
  country_code : JVal
  full_name : JVal
  email_address : JVal
  mobile_number : JVal
  password : JVal
  trade_license_or_legal_document_photo_url : JVal
  certificate_photo_url : JVal
  deriving DecidableEq

/-- How the transaction of a request ended. -/
inductive TxEnd where
  | committed
  | rolledBack
  deriving DecidableEq

/-- What one call of `createCustomer` does: the HTTP status, the keys of the body
(`success` is its key `status`), the rows of the table after the request, and the end
of the transaction. -/
structure CustomerOutcome where
  status : Nat
  success : Bool
  message : String
  customer : Option (List (String × JVal))
  error : Option String
  table : List CustomerRow
  transaction : TxEnd
  deriving DecidableEq

/-- The `catch` block of `createCustomer`: the transaction is rolled back, so the table
is the one before the request. -/
def createCustomerCatch (table : List CustomerRow) (error : CustomerError) :
    CustomerOutcome :=
  if error.name = "SequelizeUniqueConstraintError" then
    { status := 409, success := false,
      message :=
        if error.path = some "email_address" then
          "A customer with this email address already exists."
        else if error.path = some "mobile_number" then
          "A customer with this mobile number already exists."
        else "A customer with the provided details already exists."
      customer := none, error := some error.message, table := table,
      transaction := TxEnd.rolledBack }
  else if error.name = "SequelizeValidationError" then
    { status := 400, success := false,
      message :=
        match error.errors.head? with
        | some message =>
          if message.data ≠ [] then message else "Validation error while creating customer."
        | none => "Validation error while creating customer."
      customer := none, error := some error.message, table := table,
      transaction := TxEnd.rolledBack }
  else
    { status := 500, success := false,
      message := "Failed to create customer. Please try again later.",
      customer := none, error := some error.message, table := table,
      transaction := TxEnd.rolledBack }

/-- The controller `createCustomer`, once its transaction is open; `table` holds the
committed rows, which a rollback leaves as they are. -/
def createCustomer (Customer : CustomerModel) (bcrypt : Bcrypt) (table : List CustomerRow)
    (body : CustomerBody) : CustomerOutcome :=
  if !body.country_code.truthy || !body.full_name.truthy || !body.email_address.truthy
      || !body.mobile_number.truthy || !body.password.truthy then
    { status := 400, success := false,
      message :=
        "Country Code, Full Name, Email Address, Mobile Number, and Password are required."
      customer := none, error := none, table := table, transaction := TxEnd.rolledBack }
  else
    match Customer.findOne table body.email_address body.mobile_number with
    | Except.error error => createCustomerCatch table error
    | Except.ok (some existingCustomer) =>
      { status := 409, success := false,
        message :=
          if strictEquals existingCustomer.email_address body.email_address then
            "Customer with this email address already exists."
          else if strictEquals existingCustomer.mobile_number body.mobile_number then
            "Customer with this phone number already exists."
          else "Customer already exists."
        customer := none, error := none, table := table,
        transaction := TxEnd.rolledBack }
    | Except.ok none =>
      match bcrypt.hash body.password with
      | Except.error error => createCustomerCatch table { toJsError := error, path := none }
      | Except.ok hashedPassword =>
        match Customer.create table
            { country_code := body.country_code, full_name := body.full_name,
              email_address := body.email_address, mobile_number := body.mobile_number,
              password := hashedPassword,
              trade_license_or_legal_document_photo_url :=
                orElse body.trade_license_or_legal_document_photo_url JVal.null,
              certificate_photo_url := orElse body.certificate_photo_url JVal.null } with
        | Except.error error => createCustomerCatch table error
        | Except.ok (newCustomer, inserted) =>
          { status := 201, success := true, message := "Customer created successfully!",
            customer :=
              some (jsonObject
                [("customer_id", newCustomer.customer_id),
                 ("full_name", newCustomer.full_name),
                 ("email_address", newCustomer.email_address),
                 ("mobile_number", newCustomer.mobile_number)])
            error := none, table := inserted, transaction := TxEnd.committed }

/-- The response of a route of `customer-routes.js`: the status and the JSON body. -/
structure CustomerReply where
  status : Nat
  body : List (String × JVal)
  deriving DecidableEq

/-- The route `GET /:id` of `customer-routes.js`; `id` is `req.params.id`. -/
def getCustomerById (Customer : CustomerModel) (table : List CustomerRow) (id : JVal) :
    CustomerReply :=
  match Customer.findByPk table id with
  | Except.error error =>
    { status := 500,
      body := [("message", JVal.str "Internal server error"),
               ("error", JVal.str error.message)] }
  | Except.ok none => { status := 404, body := [("message", JVal.str "Customer not found")] }
  | Except.ok (some customer) => { status := 200, body := customer.toJSON }

/-- A sample of the model `Customer` over a list of rows: `findOne` gives the first row
with the email address or the mobile number, `create` refuses a second row with either
and otherwise appends one under the next `customer_id`, `findByPk` gives the row with
the id. -/
def sampleCustomerModel : CustomerModel :=
  { findOne := fun table email mobile =>
      Except.ok
        (table.find? fun row =>
          decide (row.email_address = email) || decide (row.mobile_number = mobile))
    create := fun table values =>
      if table.any fun row => decide (row.email_address = values.email_address) then
        Except.error
          { name := "SequelizeUniqueConstraintError", message := "Validation error",
            errors := ["email_address must be unique"], originalCode := some "23505",
            path := some "email_address" }
      else if table.any fun row => decide (row.mobile_number = values.mobile_number) then
        Except.error
          { name := "SequelizeUniqueConstraintError", message := "Validation error",
            errors := ["mobile_number must be unique"], originalCode := some "23505",
            path := some "mobile_number" }
      else
        Except.ok
          ({ customer_id := JVal.num ((table.length + 1 : Nat) : ℚ),
             country_code := values.country_code, full_name := values.full_name,
             email_address := values.email_address, mobile_number := values.mobile_number,
             password := values.password,
             trade_license_or_legal_document_photo_url :=
               values.trade_license_or_legal_document_photo_url,
             certificate_photo_url := values.certificate_photo_url,
             createdAt := JVal.str "2025-01-01T00:00:00.000Z",
             updatedAt := JVal.str "2025-01-01T00:00:00.000Z" },
           table ++
            [{ customer_id := JVal.num ((table.length + 1 : Nat) : ℚ),
               country_code := values.country_code, full_name := values.full_name,
               email_address := values.email_address,
               mobile_number := values.mobile_number, password := values.password,
               trade_license_or_legal_document_photo_url :=
                 values.trade_license_or_legal_document_photo_url,
               certificate_photo_url := values.certificate_photo_url,
               createdAt := JVal.str "2025-01-01T00:00:00.000Z",
               updatedAt := JVal.str "2025-01-01T00:00:00.000Z" }])
    findByPk := fun table id =>
      Except.ok (table.find? fun row => decide (row.customer_id = id)) }

/-- A valid customer payload. -/
def sampleCustomerBody : CustomerBody :=
  { country_code := JVal.str "IND", full_name := JVal.str "Ann Lee",
    email_address := JVal.str "ann@example.com", mobile_number := JVal.str "+911234567890",
    password := JVal.str "secret",
    trade_license_or_legal_document_photo_url := JVal.undefined,
    certificate_photo_url := JVal.undefined }

/-- The row that the sample model stores for the sample payload in an empty table. -/
def sampleCustomerRow : CustomerRow :=
  { customer_id := JVal.num 1, country_code := JVal.str "IND",
    full_name := JVal.str "Ann Lee", email_address := JVal.str "ann@example.com",
    mobile_number := JVal.str "+911234567890", password := JVal.str "$2b$10$secret",
    trade_license_or_legal_document_photo_url := JVal.null,
    certificate_photo_url := JVal.null,
    createdAt := JVal.str "2025-01-01T00:00:00.000Z",
    updatedAt := JVal.str "2025-01-01T00:00:00.000Z" }

/-! ## Vocabulary: letter case -/

/-- Two values of a request field that differ at most in the case of their letters:
the same value, or two strings with the same lower case. -/
def JVal.SameUpToCase (a b : JVal) : Prop :=
  a = b ∨ ∃ s t, a = JVal.str s ∧ b = JVal.str t ∧ toLowerCase s = toLowerCase t

/-- Two requests that differ at most in the letter case of `commodityCategory`,
`subCommodity`, `riceType` and `inspectionType`. -/
def Body.SameUpToCase (a b : Body) : Prop :=
  a.commodityCategory.SameUpToCase b.commodityCategory ∧
    a.subCommodity.SameUpToCase b.subCommodity ∧
    a.riceType.SameUpToCase b.riceType ∧
    a.inspectionType.SameUpToCase b.inspectionType ∧
    b = { a with
          commodityCategory := b.commodityCategory, subCommodity := b.subCommodity,
          riceType := b.riceType, inspectionType := b.inspectionType }

/-- How a stretch of the controller ends, leaving aside the text of a reply and the
value handed on: it falls through, it replies with a status, or it throws an error. -/
inductive Ending where
  | next
  | reply (status : Nat)
  | throw (e : JsError)
  deriving DecidableEq

/-- The ending of a stretch. -/
def Step.ending {α : Type} : Step α → Ending
  | Step.next _ => Ending.next
  | Step.reply status _ => Ending.reply status
  | Step.throw e => Ending.throw e

/-- The rice request written in other letter case. -/
def riceBodyUpper : Body :=
  { riceBody with
    commodityCategory := JVal.str "Food & Beverages"
    subCommodity := JVal.str "RICE"
    riceType := JVal.str "Basmati Rice"
    inspectionType := JVal.str "Single_Day" }

/-! ## The fallback handlers of `server.js` -/

/-- An error as the global error handler reads it: `err.message` and `err.status`,
which is `undefined` on an error that was given none. -/
structure HttpError where
  message : String
  status : JVal
  deriving DecidableEq

/-- The response of the global error handler: the status handed to `res.status`, and
the keys `message` and `error` of the body; a key whose value is `undefined` is not in
the JSON, here `none`. -/
structure ErrorResponse where
  status : JVal
  message : String
  error : Option HttpError
  deriving DecidableEq

/-- Lines 65-69: the error that the "Not Found" handler hands to `next` for a request
that no route has answered. -/
def notFoundError : HttpError :=
  { message := "Not Found", status := JVal.num 404 }

/-- Lines 72-78: the global error handler; `NODE_ENV` is `process.env.NODE_ENV`, `none`
when the variable is not set. -/
def globalErrorHandler (NODE_ENV : Option String) (err : HttpError) : ErrorResponse :=
  { status := orElse err.status (JVal.num 500)
    message := err.message
    error := if NODE_ENV = some "development" then some err else none }

/-- The response to a request that matches no route: the "Not Found" handler, then the
global error handler. -/
def unmatchedRoute (NODE_ENV : Option String) : ErrorResponse :=
  globalErrorHandler NODE_ENV notFoundError

/-! ## The token middleware: `models/auth.js` -/

/-- A JSON object or the data of a model instance: its keys with their values. -/
abbrev JsObject := List (String × JVal)

/-- The segments of `s.split(" ")`, on the characters of `s`. -/
def splitOnSpace : List Char → List (List Char)
  | [] => [[]]
  | c :: cs =>
    if c = ' ' then [] :: splitOnSpace cs
    else
      match splitOnSpace cs with
      | segment :: rest => (c :: segment) :: rest
      | [] => [[c]]

/-- The expression `authHeader.split(" ")[1]`: `none` for `undefined`. -/
def secondSegment (authHeader : String) : Option String :=
  ((splitOnSpace authHeader.data).get? 1).map String.mk

/-- What the middleware does with a request: the response it sends, if any, whether it
calls `next`, and `req.user` when it sets it. -/
structure AuthCheck where
  status : Option Nat
  message : Option String
  nextCalled : Bool
  user : Option JsObject
  deriving DecidableEq

/-- A 401 or 500 of the middleware: a response, and `next` is not called. -/
def AuthCheck.denied (status : Nat) (message : String) : AuthCheck :=
  { status := some status, message := some message, nextCalled := false, user := none }

/-- The middleware exported by `models/auth.js`; `verify` is
`token => jwt.verify(token, JWT_SECRET)`, and `authHeader` is
`req.header("Authorization")`, `none` for `undefined`. -/
def authenticate (verify : String → Except JsError JsObject) (authHeader : Option String) :
    AuthCheck :=
  match authHeader with
  | none => AuthCheck.denied 401 "No token, authorization denied."
  | some header =>
    if header.data = [] then AuthCheck.denied 401 "No token, authorization denied."
    else
      match secondSegment header with
      | none => AuthCheck.denied 401 "Token format invalid, authorization denied."
      | some token =>
        if token.data = [] then
          AuthCheck.denied 401 "Token format invalid, authorization denied."
        else
          match verify token with
          | Except.ok decoded =>
            { status := none, message := none, nextCalled := true, user := some decoded }
          | Except.error error =>
            if error.name = "TokenExpiredError" then AuthCheck.denied 401 "Token expired."
            else if error.name = "JsonWebTokenError" then
              AuthCheck.denied 401 "Token is not valid."
            else AuthCheck.denied 500 "Server error during token verification."

/-- A sample of `jwt.verify` with the server's secret: one token is good, one has
expired, every other is malformed. -/
def sampleVerify (token : String) : Except JsError JsObject :=
  if token = "good" then
    Except.ok
      [("userId", JVal.num 1), ("email", JVal.str "ann@example.com"),
       ("role", JVal.str "customer")]
  else if token = "old" then
    Except.error
      { name := "TokenExpiredError", message := "jwt expired", errors := [],
        originalCode := none }
  else
    Except.error
      { name := "JsonWebTokenError", message := "jwt malformed", errors := [],
        originalCode := none }

/-! ## Companies: `indiancompanyController.js`, `internationalcompanyController.js` -/

/-- Reading a property of an object: `undefined` for a key that is not there. -/
def getProperty (object : JsObject) (key : String) : JVal :=
  match object.find? (fun entry => decide (entry.1 = key)) with
  | some entry => entry.2
  | none => JVal.undefined

/-- The statement `delete object[key]`. -/
def deleteProperty (object : JsObject) (key : String) : JsObject :=
  object.filter fun entry => decide (entry.1 ≠ key)

/-- The class `[^\s@]` of the email pattern: any character but white space and `@`. -/
def isAddressChar (c : Char) : Bool :=
  !isWhiteSpace c && decide (c ≠ '@')

/-- The piece `[^\s@]+` of the pattern, followed by the rest of the pattern `rest`: one
character of the class, then either more of them or the rest. -/
def plusThen (rest : List Char → Bool) : List Char → Bool
  | [] => false
  | c :: cs => isAddressChar c && (plusThen rest cs || rest cs)

/-- The pattern `/^[^\s@]+@[^\s@]+\.[^\s@]+$/` of line 58, on the characters of the
tested string. -/
def emailPattern (s : List Char) : Bool :=
  plusThen
    (fun afterLocal =>
      match afterLocal with
      | '@' :: domain =>
        plusThen
          (fun afterName =>
            match afterName with
            | '.' :: ending => plusThen (fun tail => tail.isEmpty) ending
            | _ => false)
          domain
      | _ => false)
    s

/-- The call `pattern.test(emailAddress)`: the argument is converted to a string; the
strings of numbers and booleans have no `@`. -/
def testEmail : JVal → Bool
  | JVal.str s => emailPattern s.data
  | JVal.obj asString => emailPattern asString.data
  | _ => false

/-- A company model as the two controllers call it, over the rows of its table:
`create`, `findByPk`, the instance method `update` (the instance, then the values), and
the static `update` with `where: { id }` and `returning: true`, which gives the count,
the updated rows and the table after it. -/
structure CompanyModel where
  create : List JsObject → JsObject → Except JsError (JsObject × List JsObject)
  findByPk : List JsObject → JVal → Except JsError (Option JsObject)
  updateInstance :
    List JsObject → JsObject → JsObject → Except JsError (JsObject × List JsObject)
  update :
    List JsObject → JsObject → JVal → Except JsError (Nat × List JsObject × List JsObject)

/-- The module constant `IndianCompany = db.IndianCompany` as `models/index.js` leaves
it: the model is registered as `db.Indiancompany`, `db.IndianCompany` is never
assigned. -/
def indexIndianCompany : Option CompanyModel := none

/-- The module constant `InternationalCompany = db.internationalCompany` as
`models/index.js` leaves it: the model is registered as `db.internationalcompany`. -/
def indexInternationalCompany : Option CompanyModel := none

/-- What one call of a company controller does: the status, the keys of the JSON body,
and the rows of the table after it. -/
structure CompanyOutcome where
  status : Nat
  message : Option String
  error : Option String
  details : Option String
  errors : Option (List String)
  company : Option JsObject
  table : List JsObject
  deriving DecidableEq

/-- A response of the Indian controller with a `message` only. -/
def CompanyOutcome.message_only (status : Nat) (message : String) (table : List JsObject) :
    CompanyOutcome :=
  { status := status, message := some message, error := none, details := none,
    errors := none, company := none, table := table }

/-- The `catch` blocks of `indiancompanyController.js`, which differ in the message of
their last response only. -/
def indianCompanyCatch (unexpected : String) (table : List JsObject) (error : JsError) :
    CompanyOutcome :=
  if error.name = "SequelizeUniqueConstraintError" then
    CompanyOutcome.message_only 409
      "Email address already registered. Please use a different email." table
  else if error.name = "SequelizeValidationError" then
    { status := 400, message := some "Validation failed.", error := none, details := none,
      errors := some error.errors, company := none, table := table }
  else
    { status := 500, message := some unexpected, error := some error.message,
      details := none, errors := none, company := none, table := table }

/-- The controller `createCompany` of `indiancompanyController.js`; `hashPassword` is
`bcrypt.genSalt(10)` followed by `bcrypt.hash`, one hashing with ten rounds. -/
def indianCreateCompany (IndianCompany : Option CompanyModel) (bcrypt : Bcrypt)
    (table : List JsObject) (body : JsObject) : CompanyOutcome :=
  if !(getProperty body "companyName").truthy || !(getProperty body "password").truthy
      || !(getProperty body "emailAddress").truthy then
    CompanyOutcome.message_only 400
      "Company name, password, and email address are required." table
  else if !testEmail (getProperty body "emailAddress") then
    CompanyOutcome.message_only 400 "Invalid email address format." table
  else
    match bcrypt.hash (getProperty body "password") with
    | Except.error error =>
      indianCompanyCatch "Failed to register company. An unexpected error occurred." table
        error
    | Except.ok hashedPassword =>
      match IndianCompany with
      | none =>
        indianCompanyCatch "Failed to register company. An unexpected error occurred." table
          (typeError "Cannot read properties of undefined")
      | some model =>
        match model.create table
            (objectLiteral
              [ ("companyName", getProperty body "companyName"),
                ("officeNumber", getProperty body "officeNumber"),
                ("registeredAddress", getProperty body "registeredAddress"),
                ("documentPaths", orElse (getProperty body "documentPaths") (JVal.obj "")),
                ("password", hashedPassword),
                ("bankAccountNumber", getProperty body "bankAccountNumber"),
                ("bankName", getProperty body "bankName"),
                ("ifscCode", getProperty body "ifscCode"),
                ("representativeName", getProperty body "representativeName"),
                ("contactNumber", getProperty body "contactNumber"),
                ("emailAddress", getProperty body "emailAddress"),
                ("governmentIdPaths",
                  orElse (getProperty body "governmentIdPaths") (JVal.obj "")) ]) with
        | Except.error error =>
          indianCompanyCatch "Failed to register company. An unexpected error occurred."
            table error
        | Except.ok (newCompany, inserted) =>
          { status := 201, message := some "Company registered successfully!",
            error := none, details := none, errors := none,
            company := some (jsonObject (deleteProperty newCompany "password")),
            table := inserted }

/-- Lines 186-195 of `indiancompanyController.js`: the instance is updated with the
data, and the response carries it without its password. -/
def indianSaveUpdate (model : CompanyModel) (table : List JsObject) (company : JsObject)
    (companyData : JsObject) : CompanyOutcome :=
  match model.updateInstance table company companyData with
  | Except.error error =>
    indianCompanyCatch "Failed to update company. An unexpected error occurred." table error
  | Except.ok (updatedCompany, updated) =>
    { status := 200, message := some "Company updated successfully!", error := none,
      details := none, errors := none,
      company := some (jsonObject (deleteProperty updatedCompany "password")),
      table := updated }

/-- The controller `updateCompany` of `indiancompanyController.js`; `id` is
`req.params.id` and `companyData` is `req.body`. -/
def indianUpdateCompany (IndianCompany : Option CompanyModel) (bcrypt : Bcrypt)
    (table : List JsObject) (id : JVal) (companyData : JsObject) : CompanyOutcome :=
  match IndianCompany with
  | none =>
    indianCompanyCatch "Failed to update company. An unexpected error occurred." table
      (typeError "Cannot read properties of undefined")
  | some model =>
    match model.findByPk table id with
    | Except.error error =>
      indianCompanyCatch "Failed to update company. An unexpected error occurred." table
        error
    | Except.ok none => CompanyOutcome.message_only 404 "Company not found." table
    | Except.ok (some company) =>
      if (getProperty companyData "password").truthy then
        match bcrypt.hash (getProperty companyData "password") with
        | Except.error error =>
          indianCompanyCatch "Failed to update company. An unexpected error occurred."
            table error
        | Except.ok hashed =>
          indianSaveUpdate model table company (setProperty companyData "password" hashed)
      else indianSaveUpdate model table company companyData

/-- A response of the international controller: an `error`, with `details` when it
comes from the `catch` block. -/
def CompanyOutcome.failure (status : Nat) (error : String) (details : Option String)
    (table : List JsObject) : CompanyOutcome :=
  { status := status, message := none, error := some error, details := details,
    errors := none, company := none, table := table }

/-- Lines 155-174 of `internationalcompanyController.js`: the static `update`, then the
404 for a count of 0, or the first updated row without its password. -/
def internationalSaveUpdate (InternationalCompany : Option CompanyModel)
    (table : List JsObject) (id : JVal) (updates : JsObject) : CompanyOutcome :=
  match InternationalCompany with
  | none =>
    CompanyOutcome.failure 500 "Failed to update company"
      (some (typeError "Cannot read properties of undefined").message) table
  | some model =>
    match model.update table updates id with
    | Except.error error =>
      CompanyOutcome.failure 500 "Failed to update company" (some error.message) table
    | Except.ok (updatedRowsCount, updatedCompanies, updated) =>
      if updatedRowsCount = 0 then
        CompanyOutcome.failure 404 "Company not found or no changes applied." none updated
      else
        match updatedCompanies with
        | [] =>
          CompanyOutcome.failure 500 "Failed to update company"
            (some (typeError "Cannot read properties of undefined").message) updated
        | first :: _ =>
          { status := 200, message := some "Company updated successfully", error := none,
            details := none, errors := none,
            company := some (jsonObject (deleteProperty first "password")),
            table := updated }

/-- The controller `updateCompany` of `internationalcompanyController.js`; `id` is
`req.params.id` and `updates` is `req.body`. -/
def internationalUpdateCompany (InternationalCompany : Option CompanyModel)
    (bcrypt : Bcrypt) (table : List JsObject) (id : JVal) (updates : JsObject) :
    CompanyOutcome :=
  if !id.truthy then
    CompanyOutcome.failure 400 "Company ID is required for update." none table
  else if updates.length = 0 then
    CompanyOutcome.failure 400 "No update data provided." none table
  else if (getProperty updates "password").truthy then
    match bcrypt.hash (getProperty updates "password") with
    | Except.error error =>
      CompanyOutcome.failure 500 "Failed to update company" (some error.message) table
    | Except.ok hashed =>
      internationalSaveUpdate InternationalCompany table id
        (setProperty updates "password" hashed)
  else internationalSaveUpdate InternationalCompany table id updates

/-- The values of an update written over a row: a key of the update takes its value. -/
def assignAll (row : JsObject) (values : JsObject) : JsObject :=
  values.foldl (fun object entry => setProperty object entry.1 entry.2) row

/-- A sample of a company model over a list of rows: `findByPk` gives the row with the
id, either `update` writes the values over the rows with the id, and `create` appends a
row under the next id. -/
def sampleCompanyModel : CompanyModel :=
  { create := fun table values =>
      Except.ok
        (("id", JVal.num ((table.length + 1 : Nat) : ℚ)) :: values,
         table ++ [("id", JVal.num ((table.length + 1 : Nat) : ℚ)) :: values])
    findByPk := fun table id =>
      Except.ok (table.find? fun row => decide (getProperty row "id" = id))
    updateInstance := fun table company values =>
      Except.ok
        (assignAll company values,
         table.map fun row =>
           if getProperty row "id" = getProperty company "id" then assignAll row values
           else row)
    update := fun table values id =>
      Except.ok
        ((table.filter fun row => decide (getProperty row "id" = id)).length,
         (table.filter fun row => decide (getProperty row "id" = id)).map
           (fun row => assignAll row values),
         table.map fun row =>
           if getProperty row "id" = id then assignAll row values else row) }

/-- A company table with one company, whose password is stored as a hash. -/
def sampleCompanies : List JsObject :=
  [[("id", JVal.num 1), ("companyName", JVal.str "Acme"),
    ("password", JVal.str "$2b$10$secret"), ("emailAddress", JVal.str "ann@example.com")]]

/-- The email format in the words of C26: no white space, exactly one `@` with at
least one character before it, and in the part after the `@` a `.` with at least one
character before it and at least one after it. -/
def EmailFormat (s : List Char) : Prop :=
  (∀ c ∈ s, isWhiteSpace c = false) ∧ s.count '@' = 1 ∧
    ∃ localPart domain, s = localPart ++ '@' :: domain ∧ localPart ≠ [] ∧
      ∃ before after, domain = before ++ '.' :: after ∧ before ≠ [] ∧ after ≠ []

/-- A request to register the company "Acme" with a given email address. -/
def companyBody (emailAddress : JVal) : JsObject :=
  [("companyName", JVal.str "Acme"), ("password", JVal.str "secret"),
   ("emailAddress", emailAddress)]

/-! ## International inspectors: `InternationalinspectorController.js` -/

/-- What a name used in a module stands for: nothing, when no declaration of the module
and no global binds it, so that reading it throws a ReferenceError; or a value. -/
inductive Identifier where
  | undeclared
  | declared
  deriving DecidableEq

/-- The name `sequelize` of line 51, `sequelize.transaction()`: the module declares
`db`, `Op`, `bcrypt` and `InternationalInspector`, and nothing named `sequelize`. -/
def inspectorSequelize : Identifier := Identifier.undeclared

/-- The error thrown by reading the name `sequelize`. -/
def sequelizeNotDefined : JsError :=
  { name := "ReferenceError", message := "sequelize is not defined", errors := [],
    originalCode := none }

/-- The model `InternationalInspector` as `createInspector` calls it, over the rows of
its table: `findOne` with the email address and the code of the `Op.or`, and `create`.
The `catch` block reads of an error what that of `createCustomer` reads. -/
structure InspectorModel where
  findOne : List JsObject → JVal → JVal → Except CustomerError (Option JsObject)
  create : List JsObject → JsObject → Except CustomerError (JsObject × List JsObject)

/-- What one call of `createInspector` does when it gets to respond: the HTTP status,
the keys of the body (`success` is its key `status`), the rows of the table after the
request, and the end of the transaction. -/
structure InspectorOutcome where
  status : Nat
  success : Bool
  message : String
  inspector : Option JsObject
  error : Option String
  table : List JsObject
  transaction : TxEnd
  deriving DecidableEq

/-- Lines 137-177: the `catch` block of `createInspector`. -/
def createInspectorCatch (table : List JsObject) (error : CustomerError) :
    InspectorOutcome :=
  if error.name = "SequelizeUniqueConstraintError" then
    { status := 409, success := false,
      message :=
        if error.path = some "email_address" then
          "An inspector with this email address already exists."
        else if error.path = some "international_inspector_code" then
          "An inspector with this code already exists."
        else "An inspector with the provided details already exists."
      inspector := none, error := some error.message, table := table,
      transaction := TxEnd.rolledBack }
  else if error.name = "SequelizeValidationError" then
    { status := 400, success := false,
      message :=
        match error.errors.head? with
        | some message =>
          if message.data ≠ [] then message else "Validation error while creating inspector."
        | none => "Validation error while creating inspector."
      inspector := none, error := some error.message, table := table,
      transaction := TxEnd.rolledBack }
  else
    { status := 500, success := false,
      message := "Failed to create international inspector. Please try again later.",
      inspector := none, error := some error.message, table := table,
      transaction := TxEnd.rolledBack }

/-- Lines 53-177 of `createInspector`: the `try` statement, entered with the
transaction open. -/
def createInspectorBody (InternationalInspector : InspectorModel) (bcrypt : Bcrypt)
    (table : List JsObject) (body : JsObject) : InspectorOutcome :=
  if !(getProperty body "countryCode").truthy || !(getProperty body "fullName").truthy
      || !(getProperty body "emailAddress").truthy
      || !(getProperty body "mobileNumber").truthy
      || !(getProperty body "password").truthy
      || !(getProperty body "internationalInspectorCode").truthy then
    { status := 400, success := false,
      message :=
        "Country Code, Full Name, Email Address, Mobile Number, Password, and International Inspector Code are required."
      inspector := none, error := none, table := table, transaction := TxEnd.rolledBack }
  else
    match InternationalInspector.findOne table (getProperty body "emailAddress")
        (getProperty body "internationalInspectorCode") with
    | Except.error error => createInspectorCatch table error
    | Except.ok (some existingInspector) =>
      { status := 409, success := false,
        message :=
          if strictEquals (getProperty existingInspector "emailAddress")
              (getProperty body "emailAddress") then
            "Inspector with this email address already exists."
          else if strictEquals (getProperty existingInspector "internationalInspectorCode")
              (getProperty body "internationalInspectorCode") then
            "Inspector with this code already exists."
          else "Inspector already exists."
        inspector := none, error := none, table := table,
        transaction := TxEnd.rolledBack }
    | Except.ok none =>
      match bcrypt.hash (getProperty body "password") with
      | Except.error error => createInspectorCatch table { toJsError := error, path := none }
      | Except.ok hashedPassword =>
        match InternationalInspector.create table
            (objectLiteral
              [ ("countryCode", getProperty body "countryCode"),
                ("fullName", getProperty body "fullName"),
                ("emailAddress", getProperty body "emailAddress"),
                ("mobileNumber", getProperty body "mobileNumber"),
                ("password", hashedPassword),
                ("address", orElse (getProperty body "address") JVal.null),
                ("internationalInspectorCode",
                  getProperty body "internationalInspectorCode"),
                ("commodityName", orElse (getProperty body "commodityName") JVal.null),
                ("experienceYears", orElse (getProperty body "experienceYears") JVal.null),
                ("filePaths", orElse (getProperty body "filePaths") JVal.null),
                ("bankAccountNumber",
                  orElse (getProperty body "bankAccountNumber") JVal.null),
                ("bankDetails", orElse (getProperty body "bankDetails") JVal.null),
                ("tradeLicenseOrLegalDocumentPhotoUrl",
                  orElse (getProperty body "tradeLicenseOrLegalDocumentPhotoUrl") JVal.null),
                ("certificatePhotoUrl",
                  orElse (getProperty body "certificatePhotoUrl") JVal.null) ]) with
        | Except.error error => createInspectorCatch table error
        | Except.ok (newInspector, inserted) =>
          { status := 201, success := true,
            message := "International Inspector created successfully!",
            inspector :=
              some (jsonObject
                [ ("id", getProperty newInspector "id"),
                  ("fullName", getProperty newInspector "fullName"),
                  ("emailAddress", getProperty newInspector "emailAddress"),
                  ("internationalInspectorCode",
                    getProperty newInspector "internationalInspectorCode") ])
            error := none, table := inserted, transaction := TxEnd.committed }

/-- The controller `createInspector`. Line 51, before the `try`, reads the name
`sequelize`; when the name is bound to nothing, the ReferenceError rejects the promise
of the handler, which then sends no response at all. -/
def createInspector (sequelize : Identifier) (InternationalInspector : InspectorModel)
    (bcrypt : Bcrypt) (table : List JsObject) (body : JsObject) :
    Except JsError InspectorOutcome :=
  match sequelize with
  | Identifier.undeclared => Except.error sequelizeNotDefined
  | Identifier.declared =>
    Except.ok (createInspectorBody InternationalInspector bcrypt table body)

/-- A sample of the model `InternationalInspector` over a list of rows: `findOne` gives
the first row with the email address or the code, `create` appends the values under the
next id. -/
def sampleInspectorModel : InspectorModel :=
  { findOne := fun table email code =>
      Except.ok
        (table.find? fun row =>
          decide (getProperty row "emailAddress" = email)
            || decide (getProperty row "internationalInspectorCode" = code))
    create := fun table values =>
      Except.ok
        (("id", JVal.num ((table.length + 1 : Nat) : ℚ)) :: values,
         table ++ [("id", JVal.num ((table.length + 1 : Nat) : ℚ)) :: values]) }

/-- A request to register an inspector, with its six required fields. -/
def sampleInspectorBody : JsObject :=
  [("countryCode", JVal.str "IND"), ("fullName", JVal.str "Ann Lee"),
   ("emailAddress", JVal.str "ann@example.com"),
   ("mobileNumber", JVal.str "+911234567890"), ("password", JVal.str "secret"),
   ("internationalInspectorCode", JVal.str "INT-1")]

/-- Modelled from the spec: the constraints of the model `Phyinspectionparam`, whose
declaration (`models/Phyinspectionparam.js`) is not among the sources. The data model
of the specification gives the physical-parameter record seven percentage fields with
"percentages ∈ [0,100]", "non-negative counts" for `liveInsects` and
`averageGrainLength`, and `millingDegree` as an enumerated string; the sibling model
`Raiseenquiry.js` declares the same bounds as `min` and `max` validators. -/
def withinDataModel (r : PhyRecord) : Bool :=
  r.broken.isPercentage && (r.purity.isPercentage && (r.yellowKernel.isPercentage &&
    (r.damageKernel.isPercentage && (r.redKernel.isPercentage &&
    (r.paddyKernel.isPercentage && (r.chalkyRice.isPercentage &&
    (r.liveInsects.isNonNegative && (r.averageGrainLength.isNonNegative &&
    isMillingDegree r.millingDegree))))))))

/-- Modelled from the spec: the static method `create` of the model
`Phyinspectionparam` (`models/Phyinspectionparam.js`, not among the sources). A record
outside the constraints of the data model is refused by the validators, which throw a
SequelizeValidationError before anything is inserted; any other record is inserted. -/
def specPhyinspectionparam : PhyCreate := fun r =>
  if withinDataModel r then none
  else
    some
      { name := "SequelizeValidationError", message := "Validation error",
        errors := ["Validation error"], originalCode := none }

/-! ## Facts about the control flow -/

theorem Flow.tame_andThen {α β : Type} (x : Flow α) (f : α → Flow β)
    (hx : x.Tame) (hf : ∀ a, (f a).Tame) : (x.andThen f).Tame := by
  rcases x with ⟨(a | ⟨st, m⟩ | e), ops⟩
  · refine ⟨?_, ?_⟩
    · intro op hop
      simp only [Flow.andThen, List.mem_append] at hop
      rcases hop with h | h
      · exact hx.1 op h
      · exact (hf a).1 op h
    · intro status message h
      exact (hf a).2 status message h
  · refine ⟨hx.1, ?_⟩
    intro status message h
    simp only [Flow.andThen, Step.reply.injEq] at h
    exact hx.2 status message (by rw [h.1, h.2])
  · refine ⟨hx.1, ?_⟩
    intro status message h
    simp [Flow.andThen] at h

theorem Flow.tame_lift {α : Type} (s : Step α)
    (h : ∀ status message, s = Step.reply status message → status = 400 ∨ status = 404) :
    (Flow.lift s).Tame := by
  refine ⟨?_, h⟩
  intro op hop
  simp [Flow.lift] at hop

theorem normalize_tame (body : Body) : (Flow.lift (normalize body)).Tame := by
  apply Flow.tame_lift
  intro status message h
  unfold normalize at h
  repeat' split at h
  all_goals simp at h

theorem checkCategory_tame (lc : Lowered) : (Flow.lift (checkCategory lc)).Tame := by
  apply Flow.tame_lift
  intro status message h
  unfold checkCategory at h
  repeat' split at h
  all_goals first | (injection h with h1 h2; omega) | simp at h

theorem checkSubCommodity_tame (body : Body) (lc : Lowered) :
    (Flow.lift (checkSubCommodity body lc)).Tame := by
  apply Flow.tame_lift
  intro status message h
  unfold checkSubCommodity at h
  repeat' split at h
  all_goals first | (injection h with h1 h2; omega) | simp at h

theorem checkRiceType_tame (body : Body) (lc : Lowered) :
    (Flow.lift (checkRiceType body lc)).Tame := by
  apply Flow.tame_lift
  intro status message h
  unfold checkRiceType at h
  repeat' split at h
  all_goals first | (injection h with h1 h2; omega) | simp at h

theorem fetchPhysical_tame (db : Db) (body : Body) : (fetchPhysical db body).Tame := by
  unfold fetchPhysical
  repeat' split
  all_goals simp [Flow.Tame, DbOp.isRead]

theorem fetchChemical_tame (db : Db) (body : Body) : (fetchChemical db body).Tame := by
  unfold fetchChemical
  repeat' split
  all_goals simp [Flow.Tame, DbOp.isRead]

theorem checkRicePhysical_tame (body : Body) (lc : Lowered) (vars : RiceVars) :
    (Flow.lift (checkRicePhysical body lc vars)).Tame := by
  apply Flow.tame_lift
  intro status message h
  unfold checkRicePhysical at h
  repeat' split at h
  all_goals first | (injection h with h1 h2; omega) | simp at h

theorem checkChemical_tame (body : Body) (fetched : JVal) :
    (Flow.lift (checkChemical body fetched)).Tame := by
  apply Flow.tame_lift
  intro status message h
  unfold checkChemical at h
  repeat' split at h
  all_goals first | (injection h with h1 h2; omega) | simp at h

theorem checkInspectionDates_tame (body : Body) (lc : Lowered) :
    (Flow.lift (checkInspectionDates body lc)).Tame := by
  apply Flow.tame_lift
  intro status message h
  unfold checkInspectionDates at h
  repeat' split at h
  all_goals first | (injection h with h1 h2; omega) | simp at h

theorem validate_tame (db : Db) (body : Body) : (validate db body).Tame := by
  unfold validate
  refine Flow.tame_andThen _ _ (normalize_tame body) fun lc => ?_
  refine Flow.tame_andThen _ _ (checkCategory_tame lc) fun _ => ?_
  refine Flow.tame_andThen _ _ (checkSubCommodity_tame body lc) fun _ => ?_
  refine Flow.tame_andThen _ _ (checkRiceType_tame body lc) fun _ => ?_
  refine Flow.tame_andThen _ _ (fetchPhysical_tame db body) fun vars => ?_
  refine Flow.tame_andThen _ _ (fetchChemical_tame db body) fun fetched => ?_
  refine Flow.tame_andThen _ _ (checkRicePhysical_tame body lc vars) fun _ => ?_
  refine Flow.tame_andThen _ _ (checkChemical_tame body fetched) fun c => ?_
  refine Flow.tame_andThen _ _ (checkInspectionDates_tame body lc) fun _ => ?_
  simp [Flow.Tame]

/-! ## Facts about the transaction log -/

theorem foldl_step_reads (ops : List DbOp) (h : ∀ op ∈ ops, DbOp.isRead op = true)
    (st : TxState) : ops.foldl TxState.step st = st := by
  induction ops generalizing st with
  | nil => rfl
  | cons op rest ih =>
    have hop := h op (List.mem_cons_self _ _)
    have hstep : st.step op = st := by
      cases op <;> simp [DbOp.isRead] at hop <;> rfl
    simp only [List.foldl_cons, hstep]
    exact ih (fun o ho => h o (List.mem_cons_of_mem _ ho)) st

/-- After the start of the transaction and a run of reads, the rows left by a log are
those left by what follows the reads. -/
theorem persistedRows_after_reads (ops tail : List DbOp)
    (h : ∀ op ∈ ops, DbOp.isRead op = true) :
    persistedRows (DbOp.begin :: ops ++ tail)
      = (tail.foldl TxState.step { pending := [], committed := [] }).committed := by
  unfold persistedRows
  rw [List.cons_append, List.foldl_cons, List.foldl_append]
  have h0 : TxState.step { pending := [], committed := [] } DbOp.begin
      = { pending := [], committed := [] } := rfl
  rw [h0, foldl_step_reads ops h]

theorem commit_not_mem_reads (ops : List DbOp) (h : ∀ op ∈ ops, DbOp.isRead op = true) :
    DbOp.commit ∉ ops := fun hmem => by
  have := h _ hmem
  simp [DbOp.isRead] at this

/-- An early exit leaves no row, rolls back and does not commit. -/
theorem reject_rolls_back (ops : List DbOp) (h : ∀ op ∈ ops, DbOp.isRead op = true)
    (status : Nat) (message : Msg) :
    (reject (DbOp.begin :: ops) status message).persisted = [] ∧
      DbOp.rollback ∈ (reject (DbOp.begin :: ops) status message).log ∧
      DbOp.commit ∉ (reject (DbOp.begin :: ops) status message).log := by
  refine ⟨?_, ?_, ?_⟩
  · simp only [Outcome.persisted, reject]
    rw [persistedRows_after_reads ops _ h]
    rfl
  · simp [reject]
  · have := commit_not_mem_reads ops h
    simp [reject, this]

/-- The status of the `catch` block is 400, 409 or 500. -/
theorem catchBlock_status (log : List DbOp) (error : JsError) :
    (catchBlock log error).status = 400 ∨ (catchBlock log error).status = 409 ∨
      (catchBlock log error).status = 500 := by
  unfold catchBlock Outcome.status
  dsimp only
  split
  · exact Or.inl rfl
  · split
    · exact Or.inr (Or.inl rfl)
    · exact Or.inr (Or.inr rfl)

/-- The `catch` block, reached after reads and at most one failed insert, leaves no
row, rolls back and does not commit. -/
theorem catchBlock_rolls_back (ops : List DbOp) (h : ∀ op ∈ ops, DbOp.isRead op = true)
    (tail : List DbOp) (htail : tail = [] ∨ ∃ row, tail = [DbOp.create row false])
    (error : JsError) :
    (catchBlock (DbOp.begin :: ops ++ tail) error).persisted = [] ∧
      DbOp.rollback ∈ (catchBlock (DbOp.begin :: ops ++ tail) error).log ∧
      DbOp.commit ∉ (catchBlock (DbOp.begin :: ops ++ tail) error).log := by
  have hc := commit_not_mem_reads ops h
  refine ⟨?_, ?_, ?_⟩
  · simp only [Outcome.persisted, catchBlock]
    rw [List.append_assoc, persistedRows_after_reads ops _ h]
    rcases htail with rfl | ⟨row, rfl⟩ <;> rfl
  · simp [catchBlock]
  · rcases htail with rfl | ⟨row, rfl⟩ <;> simp [catchBlock, hc]

/-! ## C1: rollback on every path but the one that creates -/

/-- C1: whenever `createRaiseEnquiry` responds with a status other than 201, no enquiry
row is left in the table, the transaction was rolled back and it was not committed;
and the transaction is committed only when the response is 201. -/
theorem createRaiseEnquiry_commits_only_on_201 (db : Db) (body : Body) :
    ((createRaiseEnquiry db body).status ≠ 201 →
        (createRaiseEnquiry db body).persisted = [] ∧
        DbOp.rollback ∈ (createRaiseEnquiry db body).log ∧
        DbOp.commit ∉ (createRaiseEnquiry db body).log) ∧
      (DbOp.commit ∈ (createRaiseEnquiry db body).log →
        (createRaiseEnquiry db body).status = 201) := by
  have htame := validate_tame db body
  have key : (createRaiseEnquiry db body).status = 201 ∨
      ((createRaiseEnquiry db body).persisted = [] ∧
        DbOp.rollback ∈ (createRaiseEnquiry db body).log ∧
        DbOp.commit ∉ (createRaiseEnquiry db body).log) := by
    unfold createRaiseEnquiry
    rcases hv : validate db body with ⟨(row | ⟨st, m⟩ | e), ops⟩
    · rw [hv] at htame
      dsimp only
      unfold insertAndCommit
      split
      · right
        simpa using catchBlock_rolls_back ops htame.1 [] (Or.inl rfl) _
      · split
        · right
          exact catchBlock_rolls_back ops htame.1 _ (Or.inr ⟨row, rfl⟩) _
        · left; rfl
    · rw [hv] at htame
      right
      exact reject_rolls_back ops htame.1 st m
    · rw [hv] at htame
      right
      simpa using catchBlock_rolls_back ops htame.1 [] (Or.inl rfl) e
  refine ⟨fun hne => ?_, fun hc => ?_⟩
  · rcases key with h | h
    · exact absurd h hne
    · exact h
  · rcases key with h | h
    · exact h
    · exact absurd hc h.2.2

/-- C1 at a request without a category: the status is 400, not 201, so nothing is
left and the transaction is rolled back. -/
theorem createRaiseEnquiry_commits_only_on_201_witness :
    (createRaiseEnquiry (modelsIndex sampleStore) Body.blank).status ≠ 201 ∧
      (createRaiseEnquiry (modelsIndex sampleStore) Body.blank).persisted = [] ∧
      DbOp.rollback ∈ (createRaiseEnquiry (modelsIndex sampleStore) Body.blank).log ∧
      DbOp.commit ∉ (createRaiseEnquiry (modelsIndex sampleStore) Body.blank).log :=
  ⟨by decide,
    (createRaiseEnquiry_commits_only_on_201 (modelsIndex sampleStore) Body.blank).1
      (by decide)⟩

/-! ## Running the validation up to a given check -/

theorem lowerOrEmpty_of_text (v : JVal) (h : v.TextOrAbsent) :
    lowerOrEmpty v = Except.ok v.lowerText := by
  rcases h with h | ⟨s, rfl⟩
  · cases v <;> simp_all [lowerOrEmpty, JVal.lowerText, JVal.truthy, toLowerCase]
  · by_cases hs : s.data = []
    · simp [lowerOrEmpty, JVal.lowerText, JVal.truthy, toLowerCase, hs]
    · simp [lowerOrEmpty, JVal.lowerText, JVal.truthy, hs]

theorem text_of_lowerOrEmpty (v : JVal) (s : String) (h : lowerOrEmpty v = Except.ok s) :
    v.TextOrAbsent ∧ s = v.lowerText := by
  have ht : v.TextOrAbsent := by
    unfold lowerOrEmpty at h
    split at h
    · split at h
      · exact Or.inr ⟨_, rfl⟩
      · simp at h
    · rename_i hf
      exact Or.inl (by simpa using hf)
  rw [lowerOrEmpty_of_text v ht] at h
  exact ⟨ht, (Except.ok.inj h).symm⟩

/-- The normalisation falls through exactly on requests whose four compared fields are
each absent or a string, and then with their lower-cased texts. -/
theorem normalize_eq_next_iff (body : Body) (lc : Lowered) :
    normalize body = Step.next lc ↔ body.TextFields ∧ lc = body.lowered := by
  constructor
  · intro h
    unfold normalize at h
    split at h
    · simp at h
    · rename_i c hc
      split at h
      · simp at h
      · rename_i sb hs
        split at h
        · simp at h
        · rename_i r hr
          split at h
          · simp at h
          · rename_i t ht
            obtain ⟨h1, e1⟩ := text_of_lowerOrEmpty _ _ hc
            obtain ⟨h2, e2⟩ := text_of_lowerOrEmpty _ _ hs
            obtain ⟨h3, e3⟩ := text_of_lowerOrEmpty _ _ hr
            obtain ⟨h4, e4⟩ := text_of_lowerOrEmpty _ _ ht
            refine ⟨⟨h1, h2, h3, h4⟩, ?_⟩
            simp only [Step.next.injEq] at h
            rw [← h, e1, e2, e3, e4]
            rfl
  · rintro ⟨⟨h1, h2, h3, h4⟩, rfl⟩
    simp [normalize, lowerOrEmpty_of_text _ h1, lowerOrEmpty_of_text _ h2,
      lowerOrEmpty_of_text _ h3, lowerOrEmpty_of_text _ h4, Body.lowered]

theorem normalize_of_text (body : Body) (h : body.TextFields) :
    normalize body = Step.next body.lowered :=
  (normalize_eq_next_iff body body.lowered).2 ⟨h, rfl⟩

/-- The outcome of a request that a check before the lookups answers itself. -/
theorem createRaiseEnquiry_of_reply (db : Db) (body : Body) (status : Nat) (message : Msg)
    (ops : List DbOp) (h : validate db body = (Step.reply status message, ops)) :
    createRaiseEnquiry db body = reject (DbOp.begin :: ops) status message := by
  simp [createRaiseEnquiry, h]

theorem validate_category_reply (db : Db) (body : Body) (lc : Lowered) (status : Nat)
    (message : Msg) (h1 : normalize body = Step.next lc)
    (h2 : checkCategory lc = Step.reply status message) :
    validate db body = (Step.reply status message, []) := by
  simp [validate, Flow.andThen, Flow.lift, h1, h2]

theorem validate_subCommodity_reply (db : Db) (body : Body) (lc : Lowered) (status : Nat)
    (message : Msg) (h1 : normalize body = Step.next lc)
    (h2 : checkCategory lc = Step.next ())
    (h3 : checkSubCommodity body lc = Step.reply status message) :
    validate db body = (Step.reply status message, []) := by
  simp [validate, Flow.andThen, Flow.lift, h1, h2, h3]

theorem validate_riceType_reply (db : Db) (body : Body) (lc : Lowered) (status : Nat)
    (message : Msg) (h1 : normalize body = Step.next lc)
    (h2 : checkCategory lc = Step.next ())
    (h3 : checkSubCommodity body lc = Step.next ())
    (h4 : checkRiceType body lc = Step.reply status message) :
    validate db body = (Step.reply status message, []) := by
  simp [validate, Flow.andThen, Flow.lift, h1, h2, h3, h4]

theorem reject_status (log : List DbOp) (status : Nat) (message : Msg) :
    (reject log status message).status = status := rfl

theorem reject_message (log : List DbOp) (status : Nat) (message : Msg) :
    (reject log status message).response.message = message := rfl

theorem reject_begin_persisted (status : Nat) (message : Msg) :
    (reject [DbOp.begin] status message).persisted = [] := rfl

/-! ## C2: the category check -/

/-- C2, as stated, fails: with an unknown category and a numeric `subCommodity` the
controller throws while normalising, before the category check, and responds 500. -/
theorem invalid_category_numeric_subCommodity_500 :
    (JVal.str "bogus").lowerText ∉ validCommodityCategories ∧
      (createRaiseEnquiry (modelsIndex sampleStore)
        { Body.blank with
          commodityCategory := JVal.str "bogus", subCommodity := JVal.num 5 }).status
        = 500 := by
  decide

/-- C2, amended: when the four compared fields are each absent or a string and the
category, compared case-insensitively (absent counting as empty), is not one of the
seven allowed categories, the response is 400 with the invalid-category message,
whatever the other fields and the database are, and no row is left. -/
theorem invalid_category_rejected (db : Db) (body : Body) (htext : body.TextFields)
    (hbad : body.commodityCategory.lowerText ∉ validCommodityCategories) :
    (createRaiseEnquiry db body).status = 400 ∧
      (createRaiseEnquiry db body).response.message = invalidCategoryMessage ∧
      (createRaiseEnquiry db body).persisted = [] ∧
      (createRaiseEnquiry db body).log = [DbOp.begin, DbOp.rollback] := by
  have h1 := normalize_of_text body htext
  have h2 : checkCategory body.lowered = Step.reply 400 invalidCategoryMessage := by
    have : includes validCommodityCategories body.lowered.commodityCategory = false := by
      simpa [includes, Body.lowered] using hbad
    simp [checkCategory, this]
  rw [createRaiseEnquiry_of_reply db body _ _ _ (validate_category_reply db body _ _ _ h1 h2)]
  exact ⟨rfl, rfl, rfl, rfl⟩

/-- C2, amended, at the empty request: the category is absent, the response is 400. -/
theorem invalid_category_rejected_witness :
    (createRaiseEnquiry (modelsIndex sampleStore) Body.blank).status = 400 ∧
      (createRaiseEnquiry (modelsIndex sampleStore) Body.blank).response.message
        = invalidCategoryMessage ∧
      (createRaiseEnquiry (modelsIndex sampleStore) Body.blank).persisted = [] ∧
      (createRaiseEnquiry (modelsIndex sampleStore) Body.blank).log
        = [DbOp.begin, DbOp.rollback] :=
  invalid_category_rejected (modelsIndex sampleStore) Body.blank
    ⟨Or.inl rfl, Or.inl rfl, Or.inl rfl, Or.inl rfl⟩ (by decide)

/-! ## C3: the sub-commodity check -/

/-- Every entry of `validSubCommoditiesMap` has an allowed category as its key, the key
is among `Object.keys`, and indexing the map by the key gives the entry. -/
theorem validSubCommoditiesMap_entry (c : String) (allowed : List String)
    (h : (c, allowed) ∈ validSubCommoditiesMap) :
    includes validCommodityCategories c = true ∧ includes subCommodityKeys c = true ∧
      allowedSubCommodities c = some allowed := by
  simp only [validSubCommoditiesMap, List.mem_cons, Prod.mk.injEq, List.mem_nil_iff,
    or_false] at h
  rcases h with ⟨rfl, rfl⟩ | ⟨rfl, rfl⟩ | ⟨rfl, rfl⟩ | ⟨rfl, rfl⟩ | ⟨rfl, rfl⟩ | ⟨rfl, rfl⟩
  all_goals decide

theorem truthy_text (v : JVal) (h : v.TextOrAbsent) (ht : v.truthy = true) :
    ∃ s, v = JVal.str s := by
  rcases h with h | h
  · rw [h] at ht; cases ht
  · exact h

theorem missingOrBlank_of_text (v : JVal) (h : v.TextOrAbsent) :
    ∃ b, missingOrBlank v = Except.ok b ∧ (b = true ↔ v.AbsentOrBlank) := by
  by_cases ht : v.truthy = true
  · obtain ⟨s, rfl⟩ := truthy_text v h ht
    refine ⟨trimIsEmpty s, by simp [missingOrBlank, ht], ?_⟩
    constructor
    · intro hb; exact Or.inr ⟨s, rfl, hb⟩
    · rintro (hf | ⟨s2, hs, hb⟩)
      · rw [hf] at ht; cases ht
      · cases hs; exact hb
  · have hf : v.truthy = false := by simpa using ht
    exact ⟨true, by simp [missingOrBlank, hf], by simp [JVal.AbsentOrBlank, hf]⟩

/-- C3, as stated, fails: with the valid category "Chemicals" and the number 5 as
`subCommodity`, which is in no list, the controller throws while normalising, before
the sub-commodity check, and responds 500. -/
theorem valid_category_numeric_subCommodity_500 :
    (JVal.str "Chemicals").lowerText ∈ validCommodityCategories ∧
      (JVal.num 5).lowerText ∉ ["industrial", "organic", "specialty"].map toLowerCase ∧
      (createRaiseEnquiry (modelsIndex sampleStore)
        { Body.blank with
          commodityCategory := JVal.str "Chemicals", subCommodity := JVal.num 5 }).status
        = 500 := by
  decide

/-- C3, amended: when the four compared fields are each absent or a string, then
(1) for a category that is a key of `validSubCommoditiesMap`, the response is 400 and
no row is left unless `subCommodity` is present and, lower-cased, in the list of that
category, and the check falls through when it is; (2) for the category "other", the
response is 400 and no row is left when `subCommodity` is absent or blank after
trimming, and the check falls through otherwise. -/
theorem subCommodity_required (db : Db) (body : Body) (htext : body.TextFields) :
    (∀ allowed, (body.commodityCategory.lowerText, allowed) ∈ validSubCommoditiesMap →
        (¬ (body.subCommodity.truthy = true ∧ body.subCommodity.lowerText ∈ allowed) →
          (createRaiseEnquiry db body).status = 400 ∧
            (createRaiseEnquiry db body).persisted = []) ∧
        ((body.subCommodity.truthy = true ∧ body.subCommodity.lowerText ∈ allowed) →
          checkSubCommodity body body.lowered = Step.next ())) ∧
      (body.commodityCategory.lowerText = "other" →
        (body.subCommodity.AbsentOrBlank →
          (createRaiseEnquiry db body).status = 400 ∧
            (createRaiseEnquiry db body).persisted = []) ∧
        (¬ body.subCommodity.AbsentOrBlank →
          checkSubCommodity body body.lowered = Step.next ())) := by
  have h1 := normalize_of_text body htext
  refine ⟨fun allowed hmem => ?_, fun hother => ?_⟩
  · obtain ⟨hvalid, hkey, hidx⟩ := validSubCommoditiesMap_entry _ _ hmem
    have h2 : checkCategory body.lowered = Step.next () := by
      simp [checkCategory, Body.lowered, hvalid]
    have hexp : expectsPredefinedSubCommodity body.lowered = true := by
      simpa [expectsPredefinedSubCommodity, Body.lowered] using hkey
    have hidx2 : allowedSubCommodities body.lowered.commodityCategory = some allowed := hidx
    refine ⟨fun hnot => ?_, fun hyes => ?_⟩
    · have h3 : ∃ message, checkSubCommodity body body.lowered = Step.reply 400 message := by
        unfold checkSubCommodity
        rw [if_pos hexp]
        by_cases ht : body.subCommodity.truthy = true
        · have hni : includes allowed body.lowered.subCommodity = false := by
            have : body.subCommodity.lowerText ∉ allowed := fun hm => hnot ⟨ht, hm⟩
            simpa [includes, Body.lowered] using this
          simp [ht, hidx2, hni]
        · have hf : body.subCommodity.truthy = false := by simpa using ht
          simp [hf]
      obtain ⟨message, h3⟩ := h3
      rw [createRaiseEnquiry_of_reply db body _ _ _
        (validate_subCommodity_reply db body _ _ _ h1 h2 h3)]
      exact ⟨rfl, rfl⟩
    · have hin : includes allowed body.lowered.subCommodity = true := by
        simpa [includes, Body.lowered] using hyes.2
      unfold checkSubCommodity
      rw [if_pos hexp]
      simp [hyes.1, hidx2, hin]
  · have hvalid : includes validCommodityCategories body.lowered.commodityCategory = true := by
      simp only [Body.lowered, hother]; decide
    have h2 : checkCategory body.lowered = Step.next () := by
      simp [checkCategory, hvalid]
    have hexp : expectsPredefinedSubCommodity body.lowered = false := by
      simp only [expectsPredefinedSubCommodity, Body.lowered, hother]; decide
    have hoth : isOtherCommodityCategory body.lowered = true := by
      simp only [isOtherCommodityCategory, Body.lowered, hother]; decide
    obtain ⟨b, hb, hiff⟩ := missingOrBlank_of_text _ htext.2.1
    refine ⟨fun habs => ?_, fun hpres => ?_⟩
    · have hbt : b = true := hiff.2 habs
      subst hbt
      have h3 : ∃ message, checkSubCommodity body body.lowered = Step.reply 400 message := by
        unfold checkSubCommodity
        simp [hexp, hoth, hb]
      obtain ⟨message, h3⟩ := h3
      rw [createRaiseEnquiry_of_reply db body _ _ _
        (validate_subCommodity_reply db body _ _ _ h1 h2 h3)]
      exact ⟨rfl, rfl⟩
    · have hbf : b = false := by
        cases b
        · rfl
        · exact absurd (hiff.1 rfl) hpres
      subst hbf
      unfold checkSubCommodity
      simp [hexp, hoth, hb]

/-- C3, amended, at a request for "Chemicals" without sub-commodity: 400, no row. -/
theorem subCommodity_required_witness :
    (createRaiseEnquiry (modelsIndex sampleStore)
        { Body.blank with commodityCategory := JVal.str "Chemicals" }).status = 400 ∧
      (createRaiseEnquiry (modelsIndex sampleStore)
        { Body.blank with commodityCategory := JVal.str "Chemicals" }).persisted = [] :=
  ((subCommodity_required (modelsIndex sampleStore)
      { Body.blank with commodityCategory := JVal.str "Chemicals" }
      ⟨Or.inr ⟨_, rfl⟩, Or.inl rfl, Or.inl rfl, Or.inl rfl⟩).1
    (["industrial", "organic", "specialty"].map toLowerCase) (by decide)).1
    (by decide)

/-! ## C4: the rice-type check -/

/-- C4: for a request that passes the category and sub-commodity checks, (1) when the
category is "food & beverages" and the sub-commodity "rice", both case-insensitively,
the response is 400 unless `riceType` is present and, lower-cased, one of the 18 rice
types; (2) in every other case the response is 400 whenever `riceType` is present and
non-empty. No row is left in either case. -/
theorem riceType_checked (db : Db) (body : Body) (htext : body.TextFields)
    (hcat : checkCategory body.lowered = Step.next ())
    (hsub : checkSubCommodity body body.lowered = Step.next ()) :
    validRiceTypes.length = 18 ∧
      ((body.commodityCategory.lowerText = "food & beverages" ∧
          body.subCommodity.lowerText = "rice") →
        ¬ (body.riceType.truthy = true ∧ body.riceType.lowerText ∈ validRiceTypes) →
        (createRaiseEnquiry db body).status = 400 ∧
          (createRaiseEnquiry db body).persisted = []) ∧
      (¬ (body.commodityCategory.lowerText = "food & beverages" ∧
          body.subCommodity.lowerText = "rice") →
        body.riceType.truthy = true →
        (createRaiseEnquiry db body).status = 400 ∧
          (createRaiseEnquiry db body).persisted = []) := by
  have h1 := normalize_of_text body htext
  refine ⟨by decide, fun hrice hnot => ?_, fun hother hsupplied => ?_⟩
  · have hflag : isRiceSubCommodity body.lowered = true := by
      simp [isRiceSubCommodity, isFoodBeverages, Body.lowered, hrice.1, hrice.2]
    have h4 : ∃ message, checkRiceType body body.lowered = Step.reply 400 message := by
      unfold checkRiceType
      rw [if_pos hflag]
      by_cases ht : body.riceType.truthy = true
      · have hni : includes validRiceTypes body.lowered.riceType = false := by
          have : body.riceType.lowerText ∉ validRiceTypes := fun hm => hnot ⟨ht, hm⟩
          simpa [includes, Body.lowered] using this
        simp [ht, hni]
      · have hf : body.riceType.truthy = false := by simpa using ht
        simp [hf]
    obtain ⟨message, h4⟩ := h4
    rw [createRaiseEnquiry_of_reply db body _ _ _
      (validate_riceType_reply db body _ _ _ h1 hcat hsub h4)]
    exact ⟨rfl, rfl⟩
  · have hflag : isRiceSubCommodity body.lowered = false := by
      simp only [isRiceSubCommodity, isFoodBeverages, Body.lowered, Bool.and_eq_false_imp,
        decide_eq_true_eq, decide_eq_false_iff_not]
      intro hc hs
      exact hother ⟨hc, hs⟩
    have h4 : ∃ message, checkRiceType body body.lowered = Step.reply 400 message := by
      unfold checkRiceType
      simp [hflag, hsupplied]
    obtain ⟨message, h4⟩ := h4
    rw [createRaiseEnquiry_of_reply db body _ _ _
      (validate_riceType_reply db body _ _ _ h1 hcat hsub h4)]
    exact ⟨rfl, rfl⟩

/-- C4 at a request for organic chemicals that names a rice type: 400, no row. -/
theorem riceType_checked_witness :
    (createRaiseEnquiry (modelsIndex sampleStore)
        { chemicalsBody with riceType := JVal.str "basmati rice" }).status = 400 ∧
      (createRaiseEnquiry (modelsIndex sampleStore)
        { chemicalsBody with riceType := JVal.str "basmati rice" }).persisted = [] :=
  (riceType_checked (modelsIndex sampleStore)
      { chemicalsBody with riceType := JVal.str "basmati rice" }
      ⟨Or.inr ⟨_, rfl⟩, Or.inr ⟨_, rfl⟩, Or.inr ⟨_, rfl⟩, Or.inr ⟨_, rfl⟩⟩
      (by decide) (by decide)).2.2
    (by decide) (by decide)

/-! ## C5: physical inspection without a parameter id -/

/-- The validation of a request that passes the four checks before the lookups. -/
theorem validate_after_checks (db : Db) (body : Body) (htext : body.TextFields)
    (hcat : checkCategory body.lowered = Step.next ())
    (hsub : checkSubCommodity body body.lowered = Step.next ())
    (hrice : checkRiceType body body.lowered = Step.next ()) :
    validate db body =
      Flow.andThen (fetchPhysical db body) fun vars =>
      Flow.andThen (fetchChemical db body) fun fetched =>
      Flow.andThen (Flow.lift (checkRicePhysical body body.lowered vars)) fun _ =>
      Flow.andThen (Flow.lift (checkChemical body fetched)) fun chemicalParameters =>
      Flow.andThen (Flow.lift (checkInspectionDates body body.lowered)) fun _ =>
      (Step.next (buildRow body body.lowered vars chemicalParameters), []) := by
  have h1 := normalize_of_text body htext
  simp [validate, Flow.andThen, Flow.lift, h1, hcat, hsub, hrice]

/-- C5: for a request that passes the category, sub-commodity and rice-type checks,
with `physicalInspection` set and `selectedPhyParamId` absent, the response is 400, no
row is left, and the transaction is started and rolled back without any lookup. -/
theorem physical_without_id_rejected (db : Db) (body : Body) (htext : body.TextFields)
    (hcat : checkCategory body.lowered = Step.next ())
    (hsub : checkSubCommodity body body.lowered = Step.next ())
    (hrice : checkRiceType body body.lowered = Step.next ())
    (hphy : body.physicalInspection.truthy = true)
    (hid : body.selectedPhyParamId.truthy = false) :
    (createRaiseEnquiry db body).status = 400 ∧
      (createRaiseEnquiry db body).persisted = [] ∧
      (createRaiseEnquiry db body).log = [DbOp.begin, DbOp.rollback] ∧
      ∀ op ∈ (createRaiseEnquiry db body).log, DbOp.isRead op = false := by
  have hv : validate db body =
      (Step.reply 400
        [Part.lit
          "Physical Inspection is selected but no Physical Parameter ID was provided."],
       []) := by
    rw [validate_after_checks db body htext hcat hsub hrice]
    simp [fetchPhysical, hphy, hid, Flow.andThen]
  rw [createRaiseEnquiry_of_reply db body _ _ _ hv]
  refine ⟨rfl, rfl, rfl, ?_⟩
  intro op hop
  simp only [reject, List.cons_append, List.nil_append, List.mem_cons, List.mem_singleton,
    List.mem_nil_iff, or_false] at hop
  rcases hop with rfl | rfl <;> rfl

/-- C5 at the rice request without its parameter id: 400, nothing left, no lookup. -/
theorem physical_without_id_rejected_witness :
    (createRaiseEnquiry (modelsIndex sampleStore)
        { riceBody with selectedPhyParamId := JVal.undefined }).status = 400 ∧
      (createRaiseEnquiry (modelsIndex sampleStore)
        { riceBody with selectedPhyParamId := JVal.undefined }).persisted = [] ∧
      (createRaiseEnquiry (modelsIndex sampleStore)
        { riceBody with selectedPhyParamId := JVal.undefined }).log
        = [DbOp.begin, DbOp.rollback] ∧
      ∀ op ∈ (createRaiseEnquiry (modelsIndex sampleStore)
        { riceBody with selectedPhyParamId := JVal.undefined }).log,
        DbOp.isRead op = false :=
  physical_without_id_rejected (modelsIndex sampleStore)
    { riceBody with selectedPhyParamId := JVal.undefined }
    ⟨Or.inr ⟨_, rfl⟩, Or.inr ⟨_, rfl⟩, Or.inr ⟨_, rfl⟩, Or.inr ⟨_, rfl⟩⟩
    (by decide) (by decide) (by decide) (by decide) (by decide)

/-! ## C6: lookups of records that are not stored -/

/-- The physical half of C6: for a request that reaches the lookup with
`physicalInspection` set and an id for which `findByPk` returns `null`, the response is
404 and no row is left. -/
theorem physical_record_missing_404 (db : Db) (body : Body) (find : FindByPk PhyRecord)
    (htext : body.TextFields)
    (hcat : checkCategory body.lowered = Step.next ())
    (hsub : checkSubCommodity body body.lowered = Step.next ())
    (hrice : checkRiceType body body.lowered = Step.next ())
    (hphy : body.physicalInspection.truthy = true)
    (hid : body.selectedPhyParamId.truthy = true)
    (hdb : db.Phyinspectionparam = some find)
    (hmissing : find body.selectedPhyParamId = Except.ok none) :
    (createRaiseEnquiry db body).status = 404 ∧
      (createRaiseEnquiry db body).persisted = [] := by
  have hv : validate db body =
      (Step.reply 404
        [ Part.lit "Physical Inspection Parameter with ID ",
          Part.val body.selectedPhyParamId, Part.lit " not found." ],
       [DbOp.phyFindByPk body.selectedPhyParamId]) := by
    rw [validate_after_checks db body htext hcat hsub hrice]
    simp [fetchPhysical, hphy, hid, hdb, hmissing, Flow.andThen]
  rw [createRaiseEnquiry_of_reply db body _ _ _ hv]
  exact ⟨rfl, rfl⟩

/-- The chemical half of C6 for a `db` object on which `CheminsParam` is a model: for
a request that reaches the chemical lookup with `chemicalTesting` set and an id for
which `findByPk` returns `null`, the response is 404 and no row is left. -/
theorem chemical_record_missing_404 (db : Db) (body : Body) (find : FindByPk ChemRecord)
    (vars : RiceVars) (ops : List DbOp) (htext : body.TextFields)
    (hcat : checkCategory body.lowered = Step.next ())
    (hsub : checkSubCommodity body body.lowered = Step.next ())
    (hrice : checkRiceType body body.lowered = Step.next ())
    (hfetch : fetchPhysical db body = (Step.next vars, ops))
    (hchem : body.chemicalTesting.truthy = true)
    (hid : body.selectedChemParamId.truthy = true)
    (hdb : db.CheminsParam = some find)
    (hmissing : find body.selectedChemParamId = Except.ok none) :
    (createRaiseEnquiry db body).status = 404 ∧
      (createRaiseEnquiry db body).persisted = [] := by
  have hv : validate db body =
      (Step.reply 404
        [ Part.lit "Chemical Inspection Parameter with ID ",
          Part.val body.selectedChemParamId, Part.lit " not found." ],
       ops ++ [DbOp.chemFindByPk body.selectedChemParamId]) := by
    rw [validate_after_checks db body htext hcat hsub hrice, hfetch]
    simp [fetchChemical, hchem, hid, hdb, hmissing, Flow.andThen]
  have hreads : ∀ op ∈ ops ++ [DbOp.chemFindByPk body.selectedChemParamId],
      DbOp.isRead op = true := by
    have := (validate_tame db body).1
    rw [hv] at this
    exact this
  rw [createRaiseEnquiry_of_reply db body _ _ _ hv]
  exact ⟨rfl, (reject_rolls_back _ hreads _ _).1⟩

/-- With the models as `models/index.js` registers them, a request that reaches the
chemical lookup with `chemicalTesting` set and an id never gets to `findByPk`:
`db.CheminsParam` is `undefined`, the call throws, and the response is 500. -/
theorem chemical_lookup_throws (store : Store) (body : Body) (vars : RiceVars)
    (ops : List DbOp) (htext : body.TextFields)
    (hcat : checkCategory body.lowered = Step.next ())
    (hsub : checkSubCommodity body body.lowered = Step.next ())
    (hrice : checkRiceType body body.lowered = Step.next ())
    (hfetch : fetchPhysical (modelsIndex store) body = (Step.next vars, ops))
    (hchem : body.chemicalTesting.truthy = true)
    (hid : body.selectedChemParamId.truthy = true) :
    (createRaiseEnquiry (modelsIndex store) body).status = 500 ∧
      ∀ id, DbOp.chemFindByPk id ∉ (createRaiseEnquiry (modelsIndex store) body).log := by
  have hv : validate (modelsIndex store) body =
      (Step.throw (typeError "Cannot read properties of undefined"), ops) := by
    rw [validate_after_checks _ body htext hcat hsub hrice, hfetch]
    simp [fetchChemical, hchem, hid, modelsIndex, Flow.andThen]
  have hops : ∀ op ∈ ops, ∀ id, op ≠ DbOp.chemFindByPk id := by
    intro op hop id hne
    have : ops = [] ∨ ops = [DbOp.phyFindByPk body.selectedPhyParamId] := by
      have h2 := congrArg Prod.snd hfetch
      unfold fetchPhysical at h2
      repeat' split at h2
      all_goals simp at h2
      all_goals simp [← h2]
    rcases this with h | h <;> rw [h] at hop <;> simp at hop
    rw [hop] at hne
    cases hne
  have ho : createRaiseEnquiry (modelsIndex store) body =
      catchBlock (DbOp.begin :: ops) (typeError "Cannot read properties of undefined") := by
    simp [createRaiseEnquiry, hv]
  rw [ho]
  refine ⟨rfl, ?_⟩
  intro id hmem
  simp only [catchBlock, List.cons_append, List.mem_cons, List.mem_append,
    List.mem_singleton, List.mem_nil_iff, or_false] at hmem
  rcases hmem with h | h | h
  · cases h
  · exact hops _ h id rfl
  · cases h

/-- C6 at a failing request: the checks before the lookups pass, `chemicalTesting` is
`true`, and `selectedChemParamId` is 99, for which no chemical-parameter record is
stored. The response is 500, where the claim says 404. -/
theorem chemical_record_missing_500 :
    sampleStore.chemFindByPk (JVal.num 99) = Except.ok none ∧
      (createRaiseEnquiry (modelsIndex sampleStore)
        { chemicalsBody with
          chemicalTesting := JVal.bool true, selectedChemParamId := JVal.num 99 }).status
        = 500 :=
  ⟨rfl, by decide⟩

/-! ## The loop over the rice parameters against the specification -/

theorem percentage_test (v : JVal) :
    (!v.isNumber || v.ltZero || v.gtHundred) = !(v.isPercentage || decide (v = JVal.nan)) := by
  cases v with
  | num q =>
    simp only [JVal.isNumber, JVal.ltZero, JVal.gtHundred, JVal.isPercentage]
    rw [Bool.eq_iff_iff]
    simp only [Bool.not_true, Bool.false_or, Bool.or_eq_true, decide_eq_true_eq,
      Bool.not_eq_true', Bool.or_eq_false_iff, decide_eq_false_iff_not, not_and, not_le]
    constructor
    · rintro (h | h)
      · exact ⟨fun h0 => absurd h0 (not_le.mpr h), by simp⟩
      · exact ⟨fun _ => h, by simp⟩
    · rintro ⟨h, -⟩
      by_cases h0 : 0 ≤ q
      · exact Or.inr (h h0)
      · exact Or.inl (not_le.mp h0)
  | inf negative => cases negative <;> simp [JVal.isNumber, JVal.ltZero, JVal.gtHundred, JVal.isPercentage]
  | _ => simp [JVal.isNumber, JVal.ltZero, JVal.gtHundred, JVal.isPercentage]

theorem nonNegative_test (v : JVal) :
    (!v.isNumber || v.ltZero) = !(v.isNonNegative || decide (v = JVal.nan)) := by
  cases v with
  | num q =>
    simp only [JVal.isNumber, JVal.ltZero, JVal.isNonNegative]
    rw [Bool.eq_iff_iff]
    simp
  | inf negative => cases negative <;> simp [JVal.isNumber, JVal.ltZero, JVal.isNonNegative]
  | _ => simp [JVal.isNumber, JVal.ltZero, JVal.isNonNegative]

/-- The loop of lines 301-341 finds what the specification describes: it runs to its
end when no field offends, and otherwise stops with a message that begins with the
words of the first offending field. -/
theorem firstRiceParamError_spec (es : List (String × JVal)) (fs : List RiceField)
    (h : List.Forall₂ Matches es fs) :
    (fs.find? RiceField.offends = none → firstRiceParamError es = none) ∧
      ∀ f, fs.find? RiceField.offends = some f →
        ∃ rest, firstRiceParamError es = some (Part.val (JVal.str f.words) :: rest) := by
  induction h with
  | nil => simp [firstRiceParamError]
  | @cons e f es fs hm _ ih =>
    obtain ⟨key, value⟩ := e
    obtain ⟨words, pct, fv⟩ := f
    obtain ⟨hv, hw, hp, hnn⟩ := hm
    simp only at hv hw hp hnn
    subst hv
    generalize hf : ({ words := words, percentage := pct, value := value } : RiceField) = f
    have hfv : f.value = value := by rw [← hf]
    have hw : readableKey key = f.words := by rw [← hf]; exact hw
    have hp : includes percentageKeys key = f.percentage := by rw [← hf]; exact hp
    have hnn : f.percentage = false → includes nonNegativeKeys key = true := by
      rw [← hf]; exact hnn
    have hstep : firstRiceParamError ((key, value) :: es) =
        if f.offends then
          some (if value.isNullish then requiredMessage key
            else if f.percentage then percentageMessage key else nonNegativeMessage key)
        else firstRiceParamError es := by
      simp only [firstRiceParamError, RiceField.offends, hfv]
      by_cases hnull : value.isNullish = true
      · simp [hnull]
      · have hnull2 : value.isNullish = false := by simpa using hnull
        cases hpc : f.percentage
        · have h1 : includes percentageKeys key = false := by rw [hp, hpc]
          have h2 : includes nonNegativeKeys key = true := hnn hpc
          simp only [hnull2, h1, h2, Bool.false_eq_true, if_false, if_true, Bool.false_or,
            nonNegative_test]
        · have h1 : includes percentageKeys key = true := by rw [hp, hpc]
          simp only [hnull2, h1, Bool.false_eq_true, if_false, if_true, Bool.false_or,
            percentage_test]
    rw [hstep, List.find?_cons]
    cases hoff : f.offends
    · simpa using ih
    · refine ⟨by simp, ?_⟩
      intro g hg
      simp only [Option.some.injEq] at hg
      subst hg
      simp only [if_true, Option.some.injEq]
      split
      · exact ⟨_, by rw [requiredMessage, hw]⟩
      · split
        · exact ⟨_, by rw [percentageMessage, hw]⟩
        · exact ⟨_, by rw [nonNegativeMessage, hw]⟩

/-- The entries of `ricePhysicalParams`, in the order of `Object.entries`: the key
`purity`, written twice, appears once, in second place. -/
theorem ricePhysicalParams_eq (vars : RiceVars) :
    ricePhysicalParams vars =
      [ ("broken", vars.broken), ("purity", vars.purity),
        ("yellowKernel", vars.yellowKernel), ("damageKernel", vars.damageKernel),
        ("redKernel", vars.redKernel), ("paddyKernel", vars.paddyKernel),
        ("chalkyRice", vars.chalkyRice), ("liveInsects", vars.liveInsects),
        ("millingDegree", vars.millingDegree),
        ("averageGrainLength", vars.averageGrainLength) ] := rfl

theorem ricePhysicalParams_matches (vars : RiceVars) :
    List.Forall₂ Matches (ricePhysicalParams vars) (riceFields vars) := by
  rw [ricePhysicalParams_eq]
  unfold riceFields
  repeat' first
    | exact List.Forall₂.nil
    | refine List.Forall₂.cons ⟨rfl, rfl, rfl, by intro h; first | rfl | cases h⟩ ?_

/-! ## Requests for rice with physical inspection -/

theorem toLowerCase_empty (s : String) (h : s.data = []) : toLowerCase s = "" := by
  simp [toLowerCase, h]

/-- A field whose lower-cased text is not empty is a non-empty string. -/
theorem text_of_lowerText (v : JVal) (h : v.lowerText ≠ "") :
    v.truthy = true ∧ v.TextOrAbsent := by
  cases v with
  | str s =>
    refine ⟨?_, Or.inr ⟨s, rfl⟩⟩
    by_cases hs : s.data = []
    · exact absurd (toLowerCase_empty s hs) h
    · simp [JVal.truthy, hs]
  | _ => exact absurd rfl h

/-- A request for "food & beverages", "rice" and one of the rice types, all compared
case-insensitively, passes the checks before the lookups, and the flag
`isSpecificRiceTypeSelected` is set. -/
theorem rice_request_passes (body : Body)
    (hcat : body.commodityCategory.lowerText = "food & beverages")
    (hsub : body.subCommodity.lowerText = "rice")
    (hrice : body.riceType.lowerText ∈ validRiceTypes)
    (hinsp : body.inspectionType.TextOrAbsent) :
    body.TextFields ∧ checkCategory body.lowered = Step.next () ∧
      checkSubCommodity body body.lowered = Step.next () ∧
      checkRiceType body body.lowered = Step.next () ∧
      isSpecificRiceTypeSelected body.lowered = true := by
  have hc := text_of_lowerText body.commodityCategory (by rw [hcat]; decide)
  have hs := text_of_lowerText body.subCommodity (by rw [hsub]; decide)
  have hr := text_of_lowerText body.riceType (by
    intro h
    rw [h] at hrice
    revert hrice
    decide)
  have hflag : isRiceSubCommodity body.lowered = true := by
    simp [isRiceSubCommodity, isFoodBeverages, Body.lowered, hcat, hsub]
  have hin : includes validRiceTypes body.lowered.riceType = true := by
    simpa [includes, Body.lowered] using hrice
  refine ⟨⟨hc.2, hs.2, hr.2, hinsp⟩, ?_, ?_, ?_, ?_⟩
  · simp only [checkCategory, Body.lowered, hcat]
    rfl
  · have hexp : expectsPredefinedSubCommodity body.lowered = true := by
      simp only [expectsPredefinedSubCommodity, Body.lowered, hcat]; rfl
    unfold checkSubCommodity
    rw [if_pos hexp]
    simp only [Body.lowered, hcat, hsub, hs.1]
    rfl
  · unfold checkRiceType
    simp [hflag, hr.1, hin]
  · simp [isSpecificRiceTypeSelected, hflag, hin]

/-- The lookup of a stored physical-parameter record copies it into the variables. -/
theorem fetchPhysical_found (db : Db) (body : Body) (find : FindByPk PhyRecord)
    (phyParam : PhyRecord) (hphy : body.physicalInspection.truthy = true)
    (hid : body.selectedPhyParamId.truthy = true)
    (hdb : db.Phyinspectionparam = some find)
    (hfound : find body.selectedPhyParamId = Except.ok (some phyParam)) :
    fetchPhysical db body =
      (Step.next (RiceVars.ofRecord phyParam), [DbOp.phyFindByPk body.selectedPhyParamId]) := by
  simp [fetchPhysical, hphy, hid, hdb, hfound]

theorem isPercentage_not_offends (words : String) (v : JVal) (h : v.isPercentage = true) :
    RiceField.offends { words := words, percentage := true, value := v } = false := by
  cases v <;> simp_all [RiceField.offends, JVal.isPercentage, JVal.isNullish]

theorem isNonNegative_not_offends (words : String) (v : JVal) (h : v.isNonNegative = true) :
    RiceField.offends { words := words, percentage := false, value := v } = false := by
  cases v <;> simp_all [RiceField.offends, JVal.isNonNegative, JVal.isNullish]

/-- The milling degree copied from a record of the catalog is the number 0. -/
theorem millingDegree_of_catalog (m : String) (h : m ∈ millingDegrees) :
    orElse (parseFloat (JVal.str m)) (JVal.num 0) = JVal.num 0 := by
  simp only [millingDegrees, List.mem_cons, List.mem_singleton, List.mem_nil_iff,
    or_false] at h
  rcases h with rfl | rfl | rfl <;> decide

/-- No field copied from a well-formed record offends. -/
theorem firstOffence_wellFormed (phyParam : PhyRecord) (h : phyParam.WellFormed) :
    firstOffence (RiceVars.ofRecord phyParam) = none := by
  obtain ⟨h1, h2, h3, h4, h5, h6, h7, h8, h9, m, hm, hmem⟩ := h
  have hmd : (RiceVars.ofRecord phyParam).millingDegree = JVal.num 0 := by
    simp only [RiceVars.ofRecord, hm]
    exact millingDegree_of_catalog m hmem
  have o1 := isPercentage_not_offends "broken" (RiceVars.ofRecord phyParam).broken h1
  have o2 := isPercentage_not_offends "purity" (RiceVars.ofRecord phyParam).purity h2
  have o3 :=
    isPercentage_not_offends "yellow kernel" (RiceVars.ofRecord phyParam).yellowKernel h3
  have o4 :=
    isPercentage_not_offends "damage kernel" (RiceVars.ofRecord phyParam).damageKernel h4
  have o5 := isPercentage_not_offends "red kernel" (RiceVars.ofRecord phyParam).redKernel h5
  have o6 :=
    isPercentage_not_offends "paddy kernel" (RiceVars.ofRecord phyParam).paddyKernel h6
  have o7 := isPercentage_not_offends "chalky rice" (RiceVars.ofRecord phyParam).chalkyRice h7
  have o8 :=
    isNonNegative_not_offends "live insects" (RiceVars.ofRecord phyParam).liveInsects h8
  have o9 := isPercentage_not_offends "milling degree" (JVal.num 0) (by decide)
  have o10 := isNonNegative_not_offends "average grain length"
    (RiceVars.ofRecord phyParam).averageGrainLength h9
  simp only [firstOffence, riceFields, List.find?, hmd, o1, o2, o3, o4, o5, o6, o7, o8, o9,
    o10]

/-- The rows left by a request that reads, inserts one row and commits. -/
theorem persistedRows_created (ops : List DbOp) (h : ∀ op ∈ ops, DbOp.isRead op = true)
    (row : Enquiry) :
    persistedRows (DbOp.begin :: ops ++ [DbOp.create row true, DbOp.commit]) = [row] := by
  rw [persistedRows_after_reads ops _ h]
  rfl

/-- A request that passes the check of the inspection type has a string as its
`inspectionType`. -/
theorem inspectionType_text (body : Body)
    (h : checkInspectionDates body body.lowered = Step.next ()) :
    body.inspectionType.TextOrAbsent := by
  apply (text_of_lowerText body.inspectionType _).2
  intro hempty
  unfold checkInspectionDates at h
  have : includes validInspectionTypes body.lowered.inspectionType = false := by
    simp only [Body.lowered, hempty]; rfl
  simp [this] at h

/-- The row takes the ten rice variables when the flag
`shouldValidateDetailedRicePhysicalParams` is set. -/
theorem buildRow_rice_fields (body : Body) (lc : Lowered) (vars : RiceVars) (cp : JVal)
    (h : shouldValidateDetailedRicePhysicalParams body lc = true) :
    (buildRow body lc vars cp).broken = vars.broken ∧
      (buildRow body lc vars cp).purity = vars.purity ∧
      (buildRow body lc vars cp).yellowKernel = vars.yellowKernel ∧
      (buildRow body lc vars cp).damageKernel = vars.damageKernel ∧
      (buildRow body lc vars cp).redKernel = vars.redKernel ∧
      (buildRow body lc vars cp).paddyKernel = vars.paddyKernel ∧
      (buildRow body lc vars cp).chalkyRice = vars.chalkyRice ∧
      (buildRow body lc vars cp).liveInsects = vars.liveInsects ∧
      (buildRow body lc vars cp).millingDegree = vars.millingDegree ∧
      (buildRow body lc vars cp).averageGrainLength = vars.averageGrainLength := by
  simp [buildRow, h]

/-! ## C7: the physical parameters are copied into the enquiry -/

/-- C7: for a request for "food & beverages", "rice" and a valid rice type (compared
case-insensitively) with `physicalInspection` set and a `selectedPhyParamId` for which
a well-formed record is stored, when the remaining checks (chemical parameters,
inspection dates) pass, the controller submits a row whose nine numeric rice fields
equal those of the record, and when the insert is accepted the response is 201 and
that row is the one row left in the table. -/
theorem physical_parameters_copied (db : Db) (body : Body) (find : FindByPk PhyRecord)
    (create : Create) (phyParam : PhyRecord) (fetched chemicalParameters : JVal)
    (ops : List DbOp)
    (hcat : body.commodityCategory.lowerText = "food & beverages")
    (hsub : body.subCommodity.lowerText = "rice")
    (hrice : body.riceType.lowerText ∈ validRiceTypes)
    (hphy : body.physicalInspection.truthy = true)
    (hid : body.selectedPhyParamId.truthy = true)
    (hdb : db.Phyinspectionparam = some find)
    (hfound : find body.selectedPhyParamId = Except.ok (some phyParam))
    (hrec : phyParam.WellFormed)
    (hfetch : fetchChemical db body = (Step.next fetched, ops))
    (hchem : checkChemical body fetched = Step.next chemicalParameters)
    (hdates : checkInspectionDates body body.lowered = Step.next ())
    (hcreate : db.Raiseenquiry = some create) :
    ∃ row : Enquiry,
      row.broken = phyParam.broken ∧ row.purity = phyParam.purity ∧
      row.yellowKernel = phyParam.yellowKernel ∧ row.damageKernel = phyParam.damageKernel ∧
      row.redKernel = phyParam.redKernel ∧ row.paddyKernel = phyParam.paddyKernel ∧
      row.chalkyRice = phyParam.chalkyRice ∧ row.liveInsects = phyParam.liveInsects ∧
      row.averageGrainLength = phyParam.averageGrainLength ∧
      DbOp.create row (create row).isNone ∈ (createRaiseEnquiry db body).log ∧
      (create row = none →
        (createRaiseEnquiry db body).status = 201 ∧
          (createRaiseEnquiry db body).persisted = [row]) := by
  have hinsp := inspectionType_text body hdates
  obtain ⟨htext, h2, h3, h4, hspec⟩ := rice_request_passes body hcat hsub hrice hinsp
  have hshould : shouldValidateDetailedRicePhysicalParams body body.lowered = true := by
    simp [shouldValidateDetailedRicePhysicalParams, hphy, hspec]
  have hloop : firstRiceParamError (ricePhysicalParams (RiceVars.ofRecord phyParam)) = none :=
    (firstRiceParamError_spec _ _ (ricePhysicalParams_matches _)).1
      (firstOffence_wellFormed phyParam hrec)
  have h7 : checkRicePhysical body body.lowered (RiceVars.ofRecord phyParam) = Step.next () := by
    simp [checkRicePhysical, hshould, hloop]
  have hv : validate db body =
      (Step.next (buildRow body body.lowered (RiceVars.ofRecord phyParam) chemicalParameters),
        DbOp.phyFindByPk body.selectedPhyParamId :: ops) := by
    rw [validate_after_checks db body htext h2 h3 h4,
      fetchPhysical_found db body find phyParam hphy hid hdb hfound]
    simp [Flow.andThen, Flow.lift, hfetch, h7, hchem, hdates]
  have hreads : ∀ op ∈ DbOp.phyFindByPk body.selectedPhyParamId :: ops,
      DbOp.isRead op = true := by
    have := (validate_tame db body).1
    rw [hv] at this
    exact this
  obtain ⟨f1, f2, f3, f4, f5, f6, f7, f8, -, f10⟩ :=
    buildRow_rice_fields body body.lowered (RiceVars.ofRecord phyParam) chemicalParameters
      hshould
  refine ⟨buildRow body body.lowered (RiceVars.ofRecord phyParam) chemicalParameters,
    f1, f2, f3, f4, f5, f6, f7, f8, f10, ?_, ?_⟩
  · simp only [createRaiseEnquiry, hv, insertAndCommit, hcreate]
    cases hc : create (buildRow body body.lowered (RiceVars.ofRecord phyParam)
      chemicalParameters) <;> simp [catchBlock]
  · intro hc
    simp only [createRaiseEnquiry, hv, insertAndCommit, hcreate, hc]
    refine ⟨rfl, ?_⟩
    simp only [Outcome.persisted]
    exact persistedRows_created _ hreads _

/-- C7 at the rice request and the stored record with purity 95, broken 3 and milling
degree "Well Milled": the response is 201 and the one row left has purity 95 and
broken 3. -/
theorem physical_parameters_copied_witness :
    ∃ row : Enquiry,
      row.purity = JVal.num 95 ∧ row.broken = JVal.num 3 ∧
      (createRaiseEnquiry (modelsIndex sampleStore) riceBody).status = 201 ∧
      (createRaiseEnquiry (modelsIndex sampleStore) riceBody).persisted = [row] := by
  obtain ⟨row, hbroken, hpurity, -, -, -, -, -, -, -, -, hok⟩ :=
    physical_parameters_copied (modelsIndex sampleStore) riceBody sampleStore.phyFindByPk
      sampleStore.enquiryCreate sampleRecord JVal.null JVal.null []
      (by decide) (by decide) (by decide) (by decide) (by decide) rfl rfl
      ⟨by decide, by decide, by decide, by decide, by decide, by decide, by decide,
        by decide, by decide, "Well Milled", rfl, by decide⟩
      rfl (by decide) (by decide) rfl
  exact ⟨row, hpurity, hbroken, (hok rfl).1, (hok rfl).2⟩

/-! ## C8: the validation of the copied rice parameters -/

/-- The validation of a request that passes the checks before the lookups and both
lookups. -/
theorem validate_after_lookups (db : Db) (body : Body) (vars : RiceVars) (fetched : JVal)
    (ops1 ops2 : List DbOp) (htext : body.TextFields)
    (hcat : checkCategory body.lowered = Step.next ())
    (hsub : checkSubCommodity body body.lowered = Step.next ())
    (hrice : checkRiceType body body.lowered = Step.next ())
    (hphy : fetchPhysical db body = (Step.next vars, ops1))
    (hchem : fetchChemical db body = (Step.next fetched, ops2)) :
    validate db body =
      Flow.andThen (Step.next (), ops1 ++ ops2) fun _ =>
      Flow.andThen (Flow.lift (checkRicePhysical body body.lowered vars)) fun _ =>
      Flow.andThen (Flow.lift (checkChemical body fetched)) fun chemicalParameters =>
      Flow.andThen (Flow.lift (checkInspectionDates body body.lowered)) fun _ =>
      (Step.next (buildRow body body.lowered vars chemicalParameters), []) := by
  rw [validate_after_checks db body htext hcat hsub hrice, hphy]
  simp [Flow.andThen, hchem]

/-- The outcome of a request that the rice-parameter check answers. -/
theorem createRaiseEnquiry_of_rice_reply (db : Db) (body : Body) (vars : RiceVars)
    (fetched : JVal) (ops1 ops2 : List DbOp) (status : Nat) (message : Msg)
    (htext : body.TextFields)
    (hcat : checkCategory body.lowered = Step.next ())
    (hsub : checkSubCommodity body body.lowered = Step.next ())
    (hrice : checkRiceType body body.lowered = Step.next ())
    (hphy : fetchPhysical db body = (Step.next vars, ops1))
    (hchem : fetchChemical db body = (Step.next fetched, ops2))
    (hcheck : checkRicePhysical body body.lowered vars = Step.reply status message) :
    (createRaiseEnquiry db body).status = status ∧
      (createRaiseEnquiry db body).response.message = message ∧
      (createRaiseEnquiry db body).persisted = [] := by
  have hv : validate db body = (Step.reply status message, ops1 ++ ops2) := by
    rw [validate_after_lookups db body vars fetched ops1 ops2 htext hcat hsub hrice hphy hchem]
    simp [Flow.andThen, Flow.lift, hcheck]
  have hreads : ∀ op ∈ ops1 ++ ops2, DbOp.isRead op = true := by
    have := (validate_tame db body).1
    rw [hv] at this
    exact this
  rw [createRaiseEnquiry_of_reply db body _ _ _ hv]
  exact ⟨rfl, rfl, (reject_rolls_back _ hreads status message).1⟩

/-- The function `parseFloat` rounds what it reads to the nearest double: a text a
little above 100 reads as 100, one tenth reads as the double next to it, a tie between
two doubles goes to the even one, and a text that is a double reads as itself. -/
theorem parseFloatString_rounds :
    parseFloatString "100.00000000000000000001" = JVal.num 100 ∧
      parseFloatString "0.1" = JVal.num (mkRat 3602879701896397 36028797018963968) ∧
      parseFloatString "9007199254740993" = JVal.num 9007199254740992 ∧
      parseFloatString "1e23" = JVal.num 99999999999999991611392 ∧
      parseFloatString "2.5" = JVal.num (mkRat 5 2) ∧
      parseFloatString "95" = JVal.num 95 := by
  decide

set_option maxRecDepth 20000 in
set_option exponentiation.threshold 2000 in
/-- Texts whose value is below half the smallest double read as 0. -/
theorem parseFloatString_underflow :
    parseFloatString "-1e-400" = JVal.num 0 ∧ parseFloatString "1e-400" = JVal.num 0 := by
  decide

/-- A record whose milling degree is stored as the text "100.00000000000000000001" is
copied with the milling degree 100, no copied value offends, and the rice request that
selects it is answered 201. -/
theorem rounded_millingDegree_passes :
    (RiceVars.ofRecord
        { sampleRecord with
          millingDegree := JVal.str "100.00000000000000000001" }).millingDegree
        = JVal.num 100 ∧
      firstOffence
        (RiceVars.ofRecord
          { sampleRecord with millingDegree := JVal.str "100.00000000000000000001" })
        = none ∧
      (createRaiseEnquiry
        (modelsIndex { sampleStore with
          phyFindByPk := fun _ =>
            Except.ok (some { sampleRecord with
              millingDegree := JVal.str "100.00000000000000000001" }) })
        riceBody).status = 201 := by
  decide

/-- C8, as stated, fails: in the rice request without an inspection type, every value
copied from the stored record is a number between 0 and 100, and yet the response is
400, from the check of the inspection type. -/
theorem rice_parameters_fine_yet_400 :
    (ricePhysicalParamValues (RiceVars.ofRecord sampleRecord)).all
        (fun value => !value.isNullish && value.isPercentage) = true ∧
      (createRaiseEnquiry (modelsIndex sampleStore)
        { riceBody with inspectionType := JVal.undefined }).status = 400 := by
  decide

/-- C8, amended: when `physicalInspection` is set, a specific rice type is selected and
the request reaches the check of the rice parameters, with a stored record selected,
then (1) if some copied value offends (it is `null` or `undefined`, or a percentage,
the milling degree included, is not a number between 0 and 100, or the count or the
length is not a number that is at least 0, NaN counting as acceptable), the response
is 400, its message begins with the name of the first offending field, in the order
of the specification and in lower-case words, and no row is left; (2) if no copied
value offends, the check falls through. -/
theorem rice_parameters_validated (db : Db) (body : Body) (find : FindByPk PhyRecord)
    (phyParam : PhyRecord) (fetched : JVal) (ops : List DbOp)
    (hcat : body.commodityCategory.lowerText = "food & beverages")
    (hsub : body.subCommodity.lowerText = "rice")
    (hrice : body.riceType.lowerText ∈ validRiceTypes)
    (hinsp : body.inspectionType.TextOrAbsent)
    (hphy : body.physicalInspection.truthy = true)
    (hid : body.selectedPhyParamId.truthy = true)
    (hdb : db.Phyinspectionparam = some find)
    (hfound : find body.selectedPhyParamId = Except.ok (some phyParam))
    (hfetch : fetchChemical db body = (Step.next fetched, ops)) :
    (∀ f, firstOffence (RiceVars.ofRecord phyParam) = some f →
        (createRaiseEnquiry db body).status = 400 ∧
        (∃ rest, (createRaiseEnquiry db body).response.message
          = Part.val (JVal.str f.words) :: rest) ∧
        (createRaiseEnquiry db body).persisted = []) ∧
      (firstOffence (RiceVars.ofRecord phyParam) = none →
        checkRicePhysical body body.lowered (RiceVars.ofRecord phyParam) = Step.next ()) := by
  obtain ⟨htext, h2, h3, h4, hspec⟩ := rice_request_passes body hcat hsub hrice hinsp
  have hshould : shouldValidateDetailedRicePhysicalParams body body.lowered = true := by
    simp [shouldValidateDetailedRicePhysicalParams, hphy, hspec]
  have hloop := firstRiceParamError_spec _ _ (ricePhysicalParams_matches (RiceVars.ofRecord phyParam))
  have h5 := fetchPhysical_found db body find phyParam hphy hid hdb hfound
  refine ⟨fun f hf => ?_, fun hnone => ?_⟩
  · obtain ⟨rest, hrest⟩ := hloop.2 f hf
    have hcheck : checkRicePhysical body body.lowered (RiceVars.ofRecord phyParam) =
        Step.reply 400 (Part.val (JVal.str f.words) :: rest) := by
      simp [checkRicePhysical, hshould, hrest]
    obtain ⟨r1, r2, r3⟩ := createRaiseEnquiry_of_rice_reply db body _ fetched _ ops 400 _
      htext h2 h3 h4 h5 hfetch hcheck
    exact ⟨r1, ⟨rest, r2⟩, r3⟩
  · simp [checkRicePhysical, hshould, hloop.1 hnone]

/-- C8, amended, at the rice request with a record whose yellow kernel is 150: the
response is 400 and its message begins with "yellow kernel". -/
theorem rice_parameters_validated_witness :
    (createRaiseEnquiry
        (modelsIndex { sampleStore with
          phyFindByPk := fun _ =>
            Except.ok (some { sampleRecord with yellowKernel := JVal.num 150 }) })
        riceBody).status = 400 ∧
      (∃ rest, (createRaiseEnquiry
        (modelsIndex { sampleStore with
          phyFindByPk := fun _ =>
            Except.ok (some { sampleRecord with yellowKernel := JVal.num 150 }) })
        riceBody).response.message = Part.val (JVal.str "yellow kernel") :: rest) ∧
      (createRaiseEnquiry
        (modelsIndex { sampleStore with
          phyFindByPk := fun _ =>
            Except.ok (some { sampleRecord with yellowKernel := JVal.num 150 }) })
        riceBody).persisted = [] :=
  (rice_parameters_validated
      (modelsIndex { sampleStore with
        phyFindByPk := fun _ =>
          Except.ok (some { sampleRecord with yellowKernel := JVal.num 150 }) })
      riceBody (fun _ => Except.ok (some { sampleRecord with yellowKernel := JVal.num 150 }))
      { sampleRecord with yellowKernel := JVal.num 150 } JVal.null []
      (by decide) (by decide) (by decide) (Or.inr ⟨_, rfl⟩) (by decide) (by decide) rfl rfl
      rfl).1
    { words := "yellow kernel", percentage := true, value := JVal.num 150 } (by decide)

/-! ## C9: physical inspection of anything but rice -/

theorem truthy_not_nullish (v : JVal) (h : v.truthy = true) : v.isNullish = false := by
  cases v <;> simp_all [JVal.truthy, JVal.isNullish]

/-- The milling degree copied from a record is never `null`: it is the parsed number,
or 0. -/
theorem millingDegree_not_nullish (phyParam : PhyRecord) :
    (RiceVars.ofRecord phyParam).millingDegree.isNullish = false := by
  simp only [RiceVars.ofRecord, orElse]
  split
  · rename_i h
    exact truthy_not_nullish _ h
  · rfl

/-- When `physicalInspection` is set, the variables that fall through the lookup are
copied from a record. -/
theorem fetchPhysical_next (db : Db) (body : Body) (vars : RiceVars) (ops : List DbOp)
    (hphy : body.physicalInspection.truthy = true)
    (h : fetchPhysical db body = (Step.next vars, ops)) :
    ∃ phyParam, vars = RiceVars.ofRecord phyParam := by
  unfold fetchPhysical at h
  rw [if_pos hphy] at h
  repeat' split at h
  all_goals simp at h
  exact ⟨_, h.1.symm⟩

/-- When `physicalInspection` is set and no specific rice type is selected, the
defensive check always rejects: the variables were copied from the record whatever the
commodity is. -/
theorem checkRicePhysical_without_rice (db : Db) (body : Body) (vars : RiceVars)
    (ops : List DbOp) (hphy : body.physicalInspection.truthy = true)
    (hfetch : fetchPhysical db body = (Step.next vars, ops))
    (hnot : isSpecificRiceTypeSelected body.lowered = false) :
    checkRicePhysical body body.lowered vars = Step.reply 400 riceOnlyMessage := by
  obtain ⟨phyParam, rfl⟩ := fetchPhysical_next db body vars ops hphy hfetch
  have hshould : shouldValidateDetailedRicePhysicalParams body body.lowered = false := by
    simp [shouldValidateDetailedRicePhysicalParams, hnot]
  have hany : (ricePhysicalParamValues (RiceVars.ofRecord phyParam)).any
      (fun param => !param.isNullish) = true := by
    rw [List.any_eq_true]
    exact ⟨(RiceVars.ofRecord phyParam).millingDegree, by simp [ricePhysicalParamValues],
      by simp [millingDegree_not_nullish]⟩
  simp [checkRicePhysical, hshould, hphy, hany]

/-- The behaviour behind C9: every request that reaches the check of the rice
parameters with `physicalInspection` set and no specific rice type gets the 400 of the
defensive check. -/
theorem physical_without_rice_rejected (db : Db) (body : Body) (vars : RiceVars)
    (fetched : JVal) (ops1 ops2 : List DbOp) (htext : body.TextFields)
    (hcat : checkCategory body.lowered = Step.next ())
    (hsub : checkSubCommodity body body.lowered = Step.next ())
    (hrice : checkRiceType body body.lowered = Step.next ())
    (hphy : body.physicalInspection.truthy = true)
    (hfetch : fetchPhysical db body = (Step.next vars, ops1))
    (hchem : fetchChemical db body = (Step.next fetched, ops2))
    (hnot : isSpecificRiceTypeSelected body.lowered = false) :
    (createRaiseEnquiry db body).status = 400 ∧
      (createRaiseEnquiry db body).response.message = riceOnlyMessage ∧
      (createRaiseEnquiry db body).persisted = [] :=
  createRaiseEnquiry_of_rice_reply db body vars fetched ops1 ops2 400 riceOnlyMessage
    htext hcat hsub hrice hfetch hchem
    (checkRicePhysical_without_rice db body vars ops1 hphy hfetch hnot)

/-- C9 at a failing request: organic chemicals with `physicalInspection` set and the
stored record selected. The variables hold the values of the record (the milling
degree is 0, not `null`), and the response is the 400 of the defensive check. -/
theorem physical_inspection_of_chemicals_400 :
    (ricePhysicalParamValues (RiceVars.ofRecord sampleRecord)).all
        (fun value => !value.isNullish) = true ∧
      (createRaiseEnquiry (modelsIndex sampleStore)
        { chemicalsBody with
          physicalInspection := JVal.bool true, selectedPhyParamId := JVal.num 1 }).status
        = 400 ∧
      (createRaiseEnquiry (modelsIndex sampleStore)
        { chemicalsBody with
          physicalInspection := JVal.bool true,
          selectedPhyParamId := JVal.num 1 }).response.message = riceOnlyMessage :=
  ⟨by decide, by decide, rfl⟩

/-! ## C10: the rice and chemical fields of a persisted row follow the flags -/

theorem Flow.andThen_next {α β : Type} (x : Flow α) (f : α → Flow β) (b : β)
    (ops : List DbOp) (h : x.andThen f = (Step.next b, ops)) :
    ∃ a ops1 ops2, x = (Step.next a, ops1) ∧ f a = (Step.next b, ops2) ∧
      ops = ops1 ++ ops2 := by
  rcases x with ⟨(a | ⟨st, m⟩ | e), ops1⟩
  · simp only [Flow.andThen, Prod.mk.injEq] at h
    exact ⟨a, ops1, (f a).2, rfl, Prod.ext h.1 rfl, h.2.symm⟩
  · simp [Flow.andThen] at h
  · simp [Flow.andThen] at h

theorem Flow.lift_next {α : Type} (s : Step α) (a : α) (ops : List DbOp)
    (h : Flow.lift s = (Step.next a, ops)) : s = Step.next a ∧ ops = [] := by
  simp only [Flow.lift, Prod.mk.injEq] at h
  exact ⟨h.1, h.2.symm⟩

/-- What a request that passes the whole validation went through. -/
theorem validate_next (db : Db) (body : Body) (row : Enquiry) (ops : List DbOp)
    (h : validate db body = (Step.next row, ops)) :
    ∃ vars fetched chemicalParameters ops1 ops2,
      body.TextFields ∧
      checkCategory body.lowered = Step.next () ∧
      checkSubCommodity body body.lowered = Step.next () ∧
      checkRiceType body body.lowered = Step.next () ∧
      fetchPhysical db body = (Step.next vars, ops1) ∧
      fetchChemical db body = (Step.next fetched, ops2) ∧
      checkRicePhysical body body.lowered vars = Step.next () ∧
      checkChemical body fetched = Step.next chemicalParameters ∧
      checkInspectionDates body body.lowered = Step.next () ∧
      row = buildRow body body.lowered vars chemicalParameters ∧
      ops = ops1 ++ ops2 := by
  unfold validate at h
  obtain ⟨lc, o1, o1', h1, h, e1⟩ := Flow.andThen_next _ _ _ _ h
  obtain ⟨n1, z1⟩ := Flow.lift_next _ _ _ h1
  obtain ⟨htext, hlc⟩ := (normalize_eq_next_iff body lc).1 n1
  subst hlc
  obtain ⟨u2, o2, o2', h2, h, e2⟩ := Flow.andThen_next _ _ _ _ h
  obtain ⟨n2, z2⟩ := Flow.lift_next _ _ _ h2
  obtain ⟨u3, o3, o3', h3, h, e3⟩ := Flow.andThen_next _ _ _ _ h
  obtain ⟨n3, z3⟩ := Flow.lift_next _ _ _ h3
  obtain ⟨u4, o4, o4', h4, h, e4⟩ := Flow.andThen_next _ _ _ _ h
  obtain ⟨n4, z4⟩ := Flow.lift_next _ _ _ h4
  obtain ⟨vars, o5, o5', h5, h, e5⟩ := Flow.andThen_next _ _ _ _ h
  obtain ⟨fetched, o6, o6', h6, h, e6⟩ := Flow.andThen_next _ _ _ _ h
  obtain ⟨u7, o7, o7', h7, h, e7⟩ := Flow.andThen_next _ _ _ _ h
  obtain ⟨n7, z7⟩ := Flow.lift_next _ _ _ h7
  obtain ⟨cp, o8, o8', h8, h, e8⟩ := Flow.andThen_next _ _ _ _ h
  obtain ⟨n8, z8⟩ := Flow.lift_next _ _ _ h8
  obtain ⟨u9, o9, o9', h9, h, e9⟩ := Flow.andThen_next _ _ _ _ h
  obtain ⟨n9, z9⟩ := Flow.lift_next _ _ _ h9
  simp only [Prod.mk.injEq, Step.next.injEq] at h
  refine ⟨vars, fetched, cp, o5, o6, htext, n2, n3, n4, h5, h6, n7, n8, n9, h.1.symm, ?_⟩
  rw [e1, e2, e3, e4, e5, e6, e7, e8, e9, z1, z2, z3, z4, z7, z8, z9, ← h.2]
  simp

/-- A row is left in the table only by a request that passes the whole validation,
and it is the row that the validation hands over. -/
theorem persisted_row (db : Db) (body : Body) (row : Enquiry)
    (h : row ∈ (createRaiseEnquiry db body).persisted) :
    ∃ ops, validate db body = (Step.next row, ops) := by
  have htame := validate_tame db body
  unfold createRaiseEnquiry at h
  rcases hv : validate db body with ⟨(built | ⟨st, m⟩ | e), ops⟩
  · rw [hv] at h htame
    dsimp only at h
    unfold insertAndCommit at h
    split at h
    · rw [show DbOp.begin :: ops = DbOp.begin :: ops ++ [] by simp,
        (catchBlock_rolls_back ops htame.1 [] (Or.inl rfl) _).1] at h
      simp at h
    · split at h
      · rw [(catchBlock_rolls_back ops htame.1 _ (Or.inr ⟨built, rfl⟩) _).1] at h
        simp at h
      · simp only [Outcome.persisted] at h
        rw [persistedRows_created ops htame.1 built, List.mem_singleton] at h
        exact ⟨ops, by rw [h]⟩
  · rw [hv] at h htame
    dsimp only at h
    rw [(reject_rolls_back ops htame.1 st m).1] at h
    simp at h
  · rw [hv] at h htame
    dsimp only at h
    rw [show DbOp.begin :: ops = DbOp.begin :: ops ++ [] by simp,
      (catchBlock_rolls_back ops htame.1 [] (Or.inl rfl) _).1] at h
    simp at h

/-- When the loop over the rice parameters runs to its end, none of the ten variables
is `null` or `undefined`. -/
theorem vars_not_nullish (vars : RiceVars)
    (h : firstRiceParamError (ricePhysicalParams vars) = none) :
    ∀ v ∈ ricePhysicalParamValues vars, v.isNullish = false := by
  have hspec := firstRiceParamError_spec _ _ (ricePhysicalParams_matches vars)
  have hnone : (riceFields vars).find? RiceField.offends = none := by
    cases hf : (riceFields vars).find? RiceField.offends with
    | none => rfl
    | some f =>
      obtain ⟨rest, hrest⟩ := hspec.2 f hf
      rw [h] at hrest
      cases hrest
  rw [List.find?_eq_none] at hnone
  have hall : ∀ f ∈ riceFields vars, f.value.isNullish = false := by
    intro f hf
    have := hnone f hf
    simp only [RiceField.offends, Bool.or_eq_true, not_or, Bool.not_eq_true] at this
    exact this.1
  intro v hv
  simp only [ricePhysicalParamValues, List.mem_cons, List.mem_singleton, List.mem_nil_iff,
    or_false] at hv
  rcases hv with rfl | rfl | rfl | rfl | rfl | rfl | rfl | rfl | rfl | rfl
  · exact hall ⟨"broken", true, _⟩ (by simp [riceFields])
  · exact hall ⟨"purity", true, _⟩ (by simp [riceFields])
  · exact hall ⟨"yellow kernel", true, _⟩ (by simp [riceFields])
  · exact hall ⟨"damage kernel", true, _⟩ (by simp [riceFields])
  · exact hall ⟨"red kernel", true, _⟩ (by simp [riceFields])
  · exact hall ⟨"paddy kernel", true, _⟩ (by simp [riceFields])
  · exact hall ⟨"chalky rice", true, _⟩ (by simp [riceFields])
  · exact hall ⟨"live insects", false, _⟩ (by simp [riceFields])
  · exact hall ⟨"milling degree", true, _⟩ (by simp [riceFields])
  · exact hall ⟨"average grain length", false, _⟩ (by simp [riceFields])

/-- The value that falls through the check of the chemical parameters when
`chemicalTesting` is set is a non-blank string, the one that was fetched. -/
theorem checkChemical_next (body : Body) (fetched chemicalParameters : JVal)
    (hchem : body.chemicalTesting.truthy = true)
    (h : checkChemical body fetched = Step.next chemicalParameters) :
    chemicalParameters = fetched ∧ fetched.truthy = true := by
  unfold checkChemical at h
  rw [if_pos hchem] at h
  split at h
  · cases h
  · cases h
  · rename_i hm
    refine ⟨by cases h; rfl, ?_⟩
    unfold missingOrBlank at hm
    split at hm
    · cases hm
    · rename_i ht
      simpa using ht

/-- C10: in every row that `createRaiseEnquiry` leaves in the table, the ten rice
physical fields are all non-null when `physicalInspection` is `true` and all `null`
when it is `false`, and, for a boolean `chemicalTesting`, `chemicalParameters` is
non-null exactly when `chemicalTesting` is `true`. -/
theorem persisted_fields_follow_flags (db : Db) (body : Body) (row : Enquiry)
    (h : row ∈ (createRaiseEnquiry db body).persisted) :
    (row.physicalInspection = JVal.bool true →
        ∀ v ∈ row.riceValues, v.isNullish = false) ∧
      (row.physicalInspection = JVal.bool false → ∀ v ∈ row.riceValues, v = JVal.null) ∧
      ∀ b, row.chemicalTesting = JVal.bool b →
        (row.chemicalParameters.isNullish = false ↔ b = true) := by
  obtain ⟨ops, hv⟩ := persisted_row db body row h
  obtain ⟨vars, fetched, cp, ops1, ops2, -, -, -, -, h5, -, h7, h8, -, hrow, -⟩ :=
    validate_next db body row ops hv
  subst hrow
  refine ⟨fun hp => ?_, fun hp => ?_, fun b hb => ?_⟩
  · have hphy : body.physicalInspection.truthy = true := by
      have : body.physicalInspection = JVal.bool true := hp
      rw [this]; rfl
    cases hspec : isSpecificRiceTypeSelected body.lowered
    · rw [checkRicePhysical_without_rice db body vars ops1 hphy h5 hspec] at h7
      cases h7
    · have hshould : shouldValidateDetailedRicePhysicalParams body body.lowered = true := by
        simp [shouldValidateDetailedRicePhysicalParams, hphy, hspec]
      have hloop : firstRiceParamError (ricePhysicalParams vars) = none := by
        unfold checkRicePhysical at h7
        rw [if_pos hshould] at h7
        split at h7
        · cases h7
        · assumption
      have hvars := vars_not_nullish vars hloop
      obtain ⟨f1, f2, f3, f4, f5, f6, f7, f8, f9, f10⟩ :=
        buildRow_rice_fields body body.lowered vars cp hshould
      simp only [Enquiry.riceValues, f1, f2, f3, f4, f5, f6, f7, f8, f9, f10]
      exact hvars
  · have hphy : body.physicalInspection.truthy = false := by
      have : body.physicalInspection = JVal.bool false := hp
      rw [this]; rfl
    intro v hv
    simp only [Enquiry.riceValues, buildRow, shouldValidateDetailedRicePhysicalParams, hphy,
      Bool.false_and, Bool.false_eq_true, if_false, List.mem_cons, List.mem_singleton,
      List.mem_nil_iff, or_false, or_self] at hv
    exact hv
  · have hbody : body.chemicalTesting = JVal.bool b := hb
    cases b
    · simp [buildRow, hbody, JVal.truthy, JVal.isNullish]
    · have hchem : body.chemicalTesting.truthy = true := by rw [hbody]; rfl
      obtain ⟨hcp, htruthy⟩ := checkChemical_next body fetched cp hchem h8
      simp [buildRow, hchem, hcp, truthy_not_nullish _ htruthy]

/-- C10 at the rice request: the row it leaves has `physicalInspection` `true` and ten
rice fields that are not `null`. -/
theorem persisted_fields_follow_flags_witness :
    buildRow riceBody riceBody.lowered (RiceVars.ofRecord sampleRecord) JVal.null
        ∈ (createRaiseEnquiry (modelsIndex sampleStore) riceBody).persisted ∧
      ∀ v ∈ (buildRow riceBody riceBody.lowered (RiceVars.ofRecord sampleRecord)
        JVal.null).riceValues, v.isNullish = false :=
  ⟨by decide,
    (persisted_fields_follow_flags (modelsIndex sampleStore) riceBody
      (buildRow riceBody riceBody.lowered (RiceVars.ofRecord sampleRecord) JVal.null)
      (by decide)).1 rfl⟩

/-! ## C12: the inspection type and dates -/

/-- The outcome of a request that the check of the inspection type and dates answers. -/
theorem createRaiseEnquiry_of_dates_reply (db : Db) (body : Body) (vars : RiceVars)
    (fetched chemicalParameters : JVal) (ops1 ops2 : List DbOp) (status : Nat)
    (message : Msg) (htext : body.TextFields)
    (hcat : checkCategory body.lowered = Step.next ())
    (hsub : checkSubCommodity body body.lowered = Step.next ())
    (hrice : checkRiceType body body.lowered = Step.next ())
    (hphy : fetchPhysical db body = (Step.next vars, ops1))
    (hchem : fetchChemical db body = (Step.next fetched, ops2))
    (hparams : checkRicePhysical body body.lowered vars = Step.next ())
    (hname : checkChemical body fetched = Step.next chemicalParameters)
    (hcheck : checkInspectionDates body body.lowered = Step.reply status message) :
    (createRaiseEnquiry db body).status = status ∧
      (createRaiseEnquiry db body).response.message = message ∧
      (createRaiseEnquiry db body).persisted = [] := by
  have hv : validate db body = (Step.reply status message, ops1 ++ ops2) := by
    rw [validate_after_lookups db body vars fetched ops1 ops2 htext hcat hsub hrice hphy hchem]
    simp [Flow.andThen, Flow.lift, hparams, hname, hcheck]
  have hreads : ∀ op ∈ ops1 ++ ops2, DbOp.isRead op = true := by
    have := (validate_tame db body).1
    rw [hv] at this
    exact this
  rw [createRaiseEnquiry_of_reply db body _ _ _ hv]
  exact ⟨rfl, rfl, (reject_rolls_back _ hreads status message).1⟩

/-- The check of the inspection type and dates replies with 400 or falls through. -/
theorem checkInspectionDates_cases (body : Body) (lc : Lowered) :
    checkInspectionDates body lc = Step.next () ∨
      ∃ message, checkInspectionDates body lc = Step.reply 400 message := by
  unfold checkInspectionDates
  repeat' split
  all_goals first | exact Or.inl rfl | exact Or.inr ⟨_, rfl⟩

/-- C12: for a request that passes all the steps before it, the check of the inspection
type and dates answers 400, and no row is left, (1) when `inspectionType`, compared
case-insensitively, is neither `single_day` nor `multi_day`; (2) when it is
`single_day` and `singleDayInspectionDate` is absent or one of the two multi-day dates
is present; (3) when it is `multi_day` and one of the two multi-day dates is absent or
`singleDayInspectionDate` is present. -/
theorem inspection_dates_checked (db : Db) (body : Body) (vars : RiceVars)
    (fetched chemicalParameters : JVal) (ops1 ops2 : List DbOp)
    (htext : body.TextFields)
    (hcat : checkCategory body.lowered = Step.next ())
    (hsub : checkSubCommodity body body.lowered = Step.next ())
    (hrice : checkRiceType body body.lowered = Step.next ())
    (hphy : fetchPhysical db body = (Step.next vars, ops1))
    (hchem : fetchChemical db body = (Step.next fetched, ops2))
    (hparams : checkRicePhysical body body.lowered vars = Step.next ())
    (hname : checkChemical body fetched = Step.next chemicalParameters) :
    (body.inspectionType.lowerText ∉ ["single_day", "multi_day"] →
        (createRaiseEnquiry db body).status = 400 ∧
          (createRaiseEnquiry db body).persisted = []) ∧
      (body.inspectionType.lowerText = "single_day" →
        (body.singleDayInspectionDate.truthy = false ∨
          body.multiDayInspectionStartDate.truthy = true ∨
          body.multiDayInspectionEndDate.truthy = true) →
        (createRaiseEnquiry db body).status = 400 ∧
          (createRaiseEnquiry db body).persisted = []) ∧
      (body.inspectionType.lowerText = "multi_day" →
        (body.multiDayInspectionStartDate.truthy = false ∨
          body.multiDayInspectionEndDate.truthy = false ∨
          body.singleDayInspectionDate.truthy = true) →
        (createRaiseEnquiry db body).status = 400 ∧
          (createRaiseEnquiry db body).persisted = []) := by
  have key : ∀ message, checkInspectionDates body body.lowered = Step.reply 400 message →
      (createRaiseEnquiry db body).status = 400 ∧
        (createRaiseEnquiry db body).persisted = [] := by
    intro message hcheck
    obtain ⟨r1, -, r3⟩ := createRaiseEnquiry_of_dates_reply db body vars fetched
      chemicalParameters ops1 ops2 400 message htext hcat hsub hrice hphy hchem hparams
      hname hcheck
    exact ⟨r1, r3⟩
  have hfalls : checkInspectionDates body body.lowered ≠ Step.next () →
      (createRaiseEnquiry db body).status = 400 ∧
        (createRaiseEnquiry db body).persisted = [] := by
    intro hne
    rcases checkInspectionDates_cases body body.lowered with h | ⟨message, h⟩
    · exact absurd h hne
    · exact key message h
  refine ⟨fun hbad => hfalls ?_, fun hsingle hdates => hfalls ?_,
    fun hmulti hdates => hfalls ?_⟩
  · have hinc : includes validInspectionTypes body.lowered.inspectionType = false := by
      have : body.inspectionType.lowerText ∉ validInspectionTypes := hbad
      simpa [includes, Body.lowered] using this
    simp [checkInspectionDates, hinc]
  · have hinc : includes validInspectionTypes "single_day" = true := rfl
    have hty : body.lowered.inspectionType = "single_day" := hsingle
    unfold checkInspectionDates
    rcases hdates with h | h | h
    · simp [hinc, hty, h]
    · cases hs : body.singleDayInspectionDate.truthy <;> simp [hinc, hty, h, hs]
    · cases hs : body.singleDayInspectionDate.truthy <;> simp [hinc, hty, h, hs]
  · have hinc : includes validInspectionTypes "multi_day" = true := rfl
    have hty : body.lowered.inspectionType = "multi_day" := hmulti
    unfold checkInspectionDates
    rcases hdates with h | h | h
    · simp [hinc, hty, h]
    · simp [hinc, hty, h]
    · cases h1 : body.multiDayInspectionStartDate.truthy <;>
        cases h2 : body.multiDayInspectionEndDate.truthy <;> simp [hinc, hty, h, h1, h2]

/-- C12 at the request for organic chemicals on a single day that also gives a
multi-day start date: the response is 400 and no row is left. -/
theorem inspection_dates_checked_witness :
    (createRaiseEnquiry (modelsIndex sampleStore)
        { chemicalsBody with multiDayInspectionStartDate := JVal.str "2025-01-02" }).status
        = 400 ∧
      (createRaiseEnquiry (modelsIndex sampleStore)
        { chemicalsBody with
          multiDayInspectionStartDate := JVal.str "2025-01-02" }).persisted = [] :=
  (inspection_dates_checked (modelsIndex sampleStore)
      { chemicalsBody with multiDayInspectionStartDate := JVal.str "2025-01-02" }
      RiceVars.initial JVal.null JVal.null [] []
      ⟨Or.inr ⟨_, rfl⟩, Or.inr ⟨_, rfl⟩, Or.inl rfl, Or.inr ⟨_, rfl⟩⟩
      (by decide) (by decide) (by decide) rfl rfl (by decide) (by decide)).2.1
    (by decide) (Or.inr (Or.inl (by decide)))

/-! ## C11: the chemical parameters -/

/-- The check of the rice parameters replies with 400 or falls through. -/
theorem checkRicePhysical_cases (body : Body) (lc : Lowered) (vars : RiceVars) :
    checkRicePhysical body lc vars = Step.next () ∨
      ∃ message, checkRicePhysical body lc vars = Step.reply 400 message := by
  unfold checkRicePhysical
  repeat' split
  all_goals first | exact Or.inl rfl | exact Or.inr ⟨_, rfl⟩

/-- The lookup of a stored chemical-parameter record, on a `db` object whose
`CheminsParam` is a model, hands over the name of the record. -/
theorem fetchChemical_found (db : Db) (body : Body) (find : FindByPk ChemRecord)
    (chemParam : ChemRecord) (hchem : body.chemicalTesting.truthy = true)
    (hid : body.selectedChemParamId.truthy = true)
    (hdb : db.CheminsParam = some find)
    (hfound : find body.selectedChemParamId = Except.ok (some chemParam)) :
    fetchChemical db body =
      (Step.next chemParam.parameter_name,
        [DbOp.chemFindByPk body.selectedChemParamId]) := by
  simp [fetchChemical, hchem, hid, hdb, hfound]

theorem missingOrBlank_of_absentOrBlank (v : JVal) (h : v.AbsentOrBlank) :
    missingOrBlank v = Except.ok true := by
  rcases h with h | ⟨s, rfl, hs⟩
  · simp [missingOrBlank, h]
  · cases ht : (JVal.str s).truthy <;> simp [missingOrBlank, ht, hs]

/-- The logic of lines 259-278 and 371-385, for any `db` object. For a request that
reaches the chemical step: (1) with `chemicalTesting` set and no `selectedChemParamId`
the response is 400; (2) when `CheminsParam` is a model and the selected record has an
absent or blank `parameter_name`, the response is 400; (3) in a row left in the table
by a request with `chemicalTesting` set, on a model that returned a record,
`chemicalParameters` is the `parameter_name` of that record; (4) in a row left by a
request without `chemicalTesting`, `chemicalParameters` is `null`. -/
theorem chemical_parameters_logic (db : Db) (body : Body) :
    (∀ vars ops, body.TextFields → checkCategory body.lowered = Step.next () →
        checkSubCommodity body body.lowered = Step.next () →
        checkRiceType body body.lowered = Step.next () →
        fetchPhysical db body = (Step.next vars, ops) →
        body.chemicalTesting.truthy = true → body.selectedChemParamId.truthy = false →
        (createRaiseEnquiry db body).status = 400 ∧
          (createRaiseEnquiry db body).persisted = []) ∧
      (∀ vars ops find chemParam, body.TextFields →
        checkCategory body.lowered = Step.next () →
        checkSubCommodity body body.lowered = Step.next () →
        checkRiceType body body.lowered = Step.next () →
        fetchPhysical db body = (Step.next vars, ops) →
        body.chemicalTesting.truthy = true → body.selectedChemParamId.truthy = true →
        db.CheminsParam = some find →
        find body.selectedChemParamId = Except.ok (some chemParam) →
        chemParam.parameter_name.AbsentOrBlank →
        (createRaiseEnquiry db body).status = 400 ∧
          (createRaiseEnquiry db body).persisted = []) ∧
      (∀ row find chemParam, row ∈ (createRaiseEnquiry db body).persisted →
        body.chemicalTesting.truthy = true → db.CheminsParam = some find →
        find body.selectedChemParamId = Except.ok (some chemParam) →
        row.chemicalParameters = chemParam.parameter_name) ∧
      (∀ row, row ∈ (createRaiseEnquiry db body).persisted →
        body.chemicalTesting.truthy = false → row.chemicalParameters = JVal.null) := by
  refine ⟨?_, ?_, ?_, ?_⟩
  · intro vars ops htext hcat hsub hrice hphy hchem hid
    have hv : validate db body =
        (Step.reply 400
          [Part.lit
            "Chemical Testing is selected but no Chemical Parameter ID was provided."],
         ops) := by
      rw [validate_after_checks db body htext hcat hsub hrice, hphy]
      simp [fetchChemical, hchem, hid, Flow.andThen]
    have hreads : ∀ op ∈ ops, DbOp.isRead op = true := by
      have := (validate_tame db body).1
      rw [hv] at this
      exact this
    rw [createRaiseEnquiry_of_reply db body _ _ _ hv]
    exact ⟨rfl, (reject_rolls_back _ hreads _ _).1⟩
  · intro vars ops find chemParam htext hcat hsub hrice hphy hchem hid hdb hfound hblank
    have hfetch := fetchChemical_found db body find chemParam hchem hid hdb hfound
    rcases checkRicePhysical_cases body body.lowered vars with hp | ⟨message, hp⟩
    · have hcheck : ∃ message, checkChemical body chemParam.parameter_name =
          Step.reply 400 message := by
        simp [checkChemical, hchem, missingOrBlank_of_absentOrBlank _ hblank]
      obtain ⟨message, hcheck⟩ := hcheck
      have hv : validate db body =
          (Step.reply 400 message, ops ++ [DbOp.chemFindByPk body.selectedChemParamId]) := by
        rw [validate_after_lookups db body vars _ ops _ htext hcat hsub hrice hphy hfetch]
        simp [Flow.andThen, Flow.lift, hp, hcheck]
      have hreads : ∀ op ∈ ops ++ [DbOp.chemFindByPk body.selectedChemParamId],
          DbOp.isRead op = true := by
        have := (validate_tame db body).1
        rw [hv] at this
        exact this
      rw [createRaiseEnquiry_of_reply db body _ _ _ hv]
      exact ⟨rfl, (reject_rolls_back _ hreads _ _).1⟩
    · obtain ⟨r1, -, r3⟩ := createRaiseEnquiry_of_rice_reply db body vars _ ops _ 400 message
        htext hcat hsub hrice hphy hfetch hp
      exact ⟨r1, r3⟩
  · intro row find chemParam hrow hchem hdb hfound
    obtain ⟨ops, hv⟩ := persisted_row db body row hrow
    obtain ⟨vars, fetched, cp, ops1, ops2, -, -, -, -, -, h6, -, h8, -, hbuilt, -⟩ :=
      validate_next db body row ops hv
    obtain ⟨hcp, -⟩ := checkChemical_next body fetched cp hchem h8
    have hid : body.selectedChemParamId.truthy = true := by
      cases hid : body.selectedChemParamId.truthy
      · simp [fetchChemical, hchem, hid] at h6
      · rfl
    rw [fetchChemical_found db body find chemParam hchem hid hdb hfound] at h6
    simp only [Prod.mk.injEq, Step.next.injEq] at h6
    rw [hbuilt]
    simp [buildRow, hchem, hcp, ← h6.1]
  · intro row hrow hchem
    obtain ⟨ops, hv⟩ := persisted_row db body row hrow
    obtain ⟨vars, fetched, cp, ops1, ops2, -, -, -, -, -, -, -, -, -, hbuilt, -⟩ :=
      validate_next db body row ops hv
    rw [hbuilt]
    simp [buildRow, hchem]

/-- C11 at a failing request: the checks before the lookups pass, `chemicalTesting` is
`true`, and `selectedChemParamId` is 1, the id of a stored record whose
`parameter_name` is two spaces. With the models as `models/index.js` registers them
the response is 500, where the claim says 400. -/
theorem blank_chemical_name_500 :
    blankNameStore.chemFindByPk (JVal.num 1)
        = Except.ok (some { parameter_name := JVal.str "  " }) ∧
      trimIsEmpty "  " = true ∧
      (createRaiseEnquiry (modelsIndex blankNameStore)
        { chemicalsBody with
          chemicalTesting := JVal.bool true, selectedChemParamId := JVal.num 1 }).status
        = 500 :=
  ⟨rfl, by decide, by decide⟩

/-! ## C13: the milling degree of the catalog becomes 0 -/

theorem spanDigits_cons_digit (c : Char) (cs : List Char) (h : c.isDigit = true) :
    spanDigits (c :: cs) = ((spanDigits cs).1.cons c, (spanDigits cs).2) := by
  simp [spanDigits, h]

theorem spanDigits_cons_other (c : Char) (cs : List Char) (h : c.isDigit = false) :
    spanDigits (c :: cs) = ([], c :: cs) := by
  simp [spanDigits, h]

theorem spanDigits_fst_isEmpty (cs : List Char) :
    (spanDigits cs).1.isEmpty = (match cs with
      | d :: _ => !d.isDigit
      | [] => true) := by
  cases cs with
  | nil => rfl
  | cons c rest =>
    cases h : c.isDigit
    · rw [spanDigits_cons_other c rest h]; simp [h]
    · rw [spanDigits_cons_digit c rest h]; simp [h]

/-- A text that does not begin with an unsigned number has no numeric literal at its
head. -/
theorem parseUnsigned_none (cs : List Char) (h : headIsNumber cs = false) :
    parseUnsigned cs = none := by
  cases cs with
  | nil => rfl
  | cons c rest =>
    simp only [headIsNumber, Bool.or_eq_false_iff, Bool.and_eq_false_imp,
      decide_eq_true_eq] at h
    obtain ⟨⟨hdigit, hdot⟩, hinf⟩ := h
    unfold parseUnsigned
    rw [if_neg (by simp [hinf])]
    rw [spanDigits_cons_other c rest hdigit]
    by_cases hc : c = '.'
    · subst hc
      have hrest := hdot rfl
      have hfrac : (spanDigits rest).1.isEmpty = true := by
        rw [spanDigits_fst_isEmpty]
        cases rest with
        | nil => rfl
        | cons d more => simpa using hrest
      simp [hfrac]
    · split
      · rename_i heq
        simp only [List.cons.injEq] at heq
        exact absurd heq.1.symm (fun h => hc h.symm)
      · simp

/-- The function `parseFloat` gives NaN on a string that does not start with a number. -/
theorem parseFloatString_nan (s : String) (h : startsWithNumber s = false) :
    parseFloatString s = JVal.nan := by
  unfold startsWithNumber at h
  unfold parseFloatString
  split
  · rename_i cs heq
    rw [heq] at h
    simp only at h
    rw [parseUnsigned_none cs h]
  · rename_i cs heq
    rw [heq] at h
    simp only at h
    rw [parseUnsigned_none cs h]
  · rename_i cs hminus hplus
    have h2 : headIsNumber (s.data.dropWhile isWhiteSpace) = false := by
      revert h
      split
      · rename_i heq; exact absurd heq (hminus _)
      · rename_i heq; exact absurd heq (hplus _)
      · exact id
    rw [parseUnsigned_none _ h2]

theorem millingDegrees_not_numbers (m : String) (h : m ∈ millingDegrees) :
    startsWithNumber m = false := by
  simp only [millingDegrees, List.mem_cons, List.mem_singleton, List.mem_nil_iff,
    or_false] at h
  rcases h with rfl | rfl | rfl <;> decide

/-- C13: when the `millingDegree` of a physical-parameter record is one of the three
strings of the catalog, or any string that does not start with a number, the value
that `createRaiseEnquiry` copies into its variable is the number 0, and so is the
`millingDegree` of every row that a request with `physicalInspection` set and that
record selected leaves in the table. -/
theorem millingDegree_copied_as_zero (phyParam : PhyRecord) (m : String)
    (hm : phyParam.millingDegree = JVal.str m)
    (hnot : m ∈ millingDegrees ∨ startsWithNumber m = false) :
    (RiceVars.ofRecord phyParam).millingDegree = JVal.num 0 ∧
      ∀ (db : Db) (body : Body) (find : FindByPk PhyRecord) (row : Enquiry),
        body.physicalInspection.truthy = true →
        db.Phyinspectionparam = some find →
        find body.selectedPhyParamId = Except.ok (some phyParam) →
        row ∈ (createRaiseEnquiry db body).persisted →
        row.millingDegree = JVal.num 0 := by
  have hstart : startsWithNumber m = false := by
    rcases hnot with h | h
    · exact millingDegrees_not_numbers m h
    · exact h
  have hzero : (RiceVars.ofRecord phyParam).millingDegree = JVal.num 0 := by
    simp only [RiceVars.ofRecord, hm, parseFloat, parseFloatString_nan m hstart]
    rfl
  refine ⟨hzero, ?_⟩
  intro db body find row hphy hdb hfound hrow
  obtain ⟨ops, hv⟩ := persisted_row db body row hrow
  obtain ⟨vars, fetched, cp, ops1, ops2, -, -, -, -, h5, -, h7, -, -, hbuilt, -⟩ :=
    validate_next db body row ops hv
  have hid : body.selectedPhyParamId.truthy = true := by
    cases hid : body.selectedPhyParamId.truthy
    · simp [fetchPhysical, hphy, hid] at h5
    · rfl
  have hvars : vars = RiceVars.ofRecord phyParam := by
    rw [fetchPhysical_found db body find phyParam hphy hid hdb hfound] at h5
    simp only [Prod.mk.injEq, Step.next.injEq] at h5
    exact h5.1.symm
  have hspec : isSpecificRiceTypeSelected body.lowered = true := by
    cases hspec : isSpecificRiceTypeSelected body.lowered
    · rw [checkRicePhysical_without_rice db body vars ops1 hphy h5 hspec] at h7
      cases h7
    · rfl
  have hshould : shouldValidateDetailedRicePhysicalParams body body.lowered = true := by
    simp [shouldValidateDetailedRicePhysicalParams, hphy, hspec]
  rw [hbuilt, (buildRow_rice_fields body body.lowered vars cp hshould).2.2.2.2.2.2.2.2.1,
    hvars, hzero]

/-- C13 at the stored record with milling degree "Well Milled": the variable is 0, and
the row that the rice request leaves has milling degree 0. -/
theorem millingDegree_copied_as_zero_witness :
    "Well Milled" ∈ millingDegrees ∧
      (RiceVars.ofRecord sampleRecord).millingDegree = JVal.num 0 ∧
      (buildRow riceBody riceBody.lowered (RiceVars.ofRecord sampleRecord)
        JVal.null).millingDegree = JVal.num 0 :=
  ⟨by decide,
    (millingDegree_copied_as_zero sampleRecord "Well Milled" rfl (Or.inl (by decide))).1,
    (millingDegree_copied_as_zero sampleRecord "Well Milled" rfl (Or.inl (by decide))).2
      (modelsIndex sampleStore) riceBody sampleStore.phyFindByPk
      (buildRow riceBody riceBody.lowered (RiceVars.ofRecord sampleRecord) JVal.null)
      (by decide) rfl rfl (by decide)⟩

/-! ## C14: what `savePhyInspectionParam` accepts -/

theorem isPercentage_passes (v : JVal) (h : v.isPercentage = true) :
    v.isNumber = true ∧ v.ltZero = false ∧ v.gtHundred = false := by
  cases v <;> simp_all [JVal.isPercentage, JVal.isNumber, JVal.ltZero, JVal.gtHundred]

theorem isNonNegative_passes (v : JVal) (h : v.isNonNegative = true) :
    v.isNumber = true ∧ v.ltZero = false := by
  cases v <;> simp_all [JVal.isNonNegative, JVal.isNumber, JVal.ltZero]

/-- A record whose seven percentages are between 0 and 100,
whose count and length are at least 0 and whose milling degree is one of the three
strings is inserted, with status 201, when the model accepts it. -/
theorem wellFormed_record_saved (create : PhyCreate) (body : PhyRecord)
    (h : body.WellFormed) (hcreate : create body = none) :
    (savePhyInspectionParam (some create) body).status = 201 ∧
      (savePhyInspectionParam (some create) body).inserted = [body] := by
  obtain ⟨h1, h2, h3, h4, h5, h6, h7, h8, h9, m, hm, hmem⟩ := h
  have hvalid : phyInputInvalid body = false := by
    obtain ⟨a1, b1, -⟩ := isPercentage_passes _ h1
    obtain ⟨a2, b2, c2⟩ := isPercentage_passes _ h2
    obtain ⟨a3, b3, -⟩ := isPercentage_passes _ h3
    obtain ⟨a4, b4, -⟩ := isPercentage_passes _ h4
    obtain ⟨a5, b5, -⟩ := isPercentage_passes _ h5
    obtain ⟨a6, b6, -⟩ := isPercentage_passes _ h6
    obtain ⟨a7, b7, -⟩ := isPercentage_passes _ h7
    obtain ⟨a8, b8⟩ := isNonNegative_passes _ h8
    obtain ⟨a9, b9⟩ := isNonNegative_passes _ h9
    have hmd : isMillingDegree (JVal.str m) = true := by
      simp [isMillingDegree, includes, hmem]
    simp [phyInputInvalid, a1, b1, a2, b2, c2, a3, b3, a4, b4, a5, b5, a6, b6, a7, b7,
      a8, b8, a9, b9, hmd, hm, JVal.isString]
  simp [savePhyInspectionParam, hvalid, hcreate]

/-- The controller's own test has an upper bound for `purity` only: on a model that
accepts every record, a record with `broken` 150, all other fields being valid, passes
it and is inserted. The bound of the other six percentages is left to the validators of
the model. -/
theorem broken_150_passes_controller_check :
    (JVal.num 150).isPercentage = false ∧
      (savePhyInspectionParam (some fun _ => none)
        { sampleRecord with broken := JVal.num 150 }).status = 201 ∧
      (savePhyInspectionParam (some fun _ => none)
        { sampleRecord with broken := JVal.num 150 }).inserted
        = [{ sampleRecord with broken := JVal.num 150 }] := by
  decide

theorem isMillingDegree_iff (v : JVal) :
    isMillingDegree v = true ↔ ∃ m, v = JVal.str m ∧ m ∈ millingDegrees := by
  cases v <;> simp [isMillingDegree, includes]

/-- The constraints of the data model are those of the claim. -/
theorem withinDataModel_iff (r : PhyRecord) : withinDataModel r = true ↔ r.WellFormed := by
  unfold withinDataModel PhyRecord.WellFormed
  simp only [Bool.and_eq_true, isMillingDegree_iff]

/-- A record outside the constraints is answered 400 and nothing is inserted: by the
controller's own test, or else by the validators of the model. -/
theorem outside_dataModel_rejected (body : PhyRecord) (h : ¬ body.WellFormed) :
    (savePhyInspectionParam (some specPhyinspectionparam) body).status = 400 ∧
      (savePhyInspectionParam (some specPhyinspectionparam) body).inserted = [] := by
  have hmodel : withinDataModel body = false := by
    cases hw : withinDataModel body
    · rfl
    · exact absurd ((withinDataModel_iff body).1 hw) h
  unfold savePhyInspectionParam
  split
  · exact ⟨rfl, rfl⟩
  · simp [specPhyinspectionparam, hmodel, savePhyCatch]

/-- C14: with the model `Phyinspectionparam` as the data model of the specification
gives it, `savePhyInspectionParam` inserts the record and answers 201 if and only if the
seven percentages are numbers between 0 and 100, `liveInsects` and
`averageGrainLength` are numbers that are at least 0 and `millingDegree` is one of the
three strings; every other record is answered 400 and nothing is inserted. -/
theorem savePhyInspectionParam_accepts_iff (body : PhyRecord) :
    (((savePhyInspectionParam (some specPhyinspectionparam) body).status = 201 ∧
          (savePhyInspectionParam (some specPhyinspectionparam) body).inserted = [body]) ↔
        body.WellFormed) ∧
      (¬ body.WellFormed →
        (savePhyInspectionParam (some specPhyinspectionparam) body).status = 400 ∧
          (savePhyInspectionParam (some specPhyinspectionparam) body).inserted = []) := by
  refine ⟨⟨fun hsaved => ?_, fun h => ?_⟩, outside_dataModel_rejected body⟩
  · by_contra hn
    have h400 := (outside_dataModel_rejected body hn).1
    rw [hsaved.1] at h400
    cases h400
  · exact wellFormed_record_saved specPhyinspectionparam body h
      (by simp [specPhyinspectionparam, (withinDataModel_iff body).2 h])

/-- C14 at two records: the sample record is inserted with status 201, and the same
record with `broken` 150 is answered 400, nothing being inserted. -/
theorem savePhyInspectionParam_accepts_iff_witness :
    ((savePhyInspectionParam (some specPhyinspectionparam) sampleRecord).status = 201 ∧
        (savePhyInspectionParam (some specPhyinspectionparam) sampleRecord).inserted
          = [sampleRecord]) ∧
      ¬ PhyRecord.WellFormed { sampleRecord with broken := JVal.num 150 } ∧
      (savePhyInspectionParam (some specPhyinspectionparam)
          { sampleRecord with broken := JVal.num 150 }).status = 400 ∧
      (savePhyInspectionParam (some specPhyinspectionparam)
          { sampleRecord with broken := JVal.num 150 }).inserted = [] :=
  ⟨(savePhyInspectionParam_accepts_iff sampleRecord).1.2
      ((withinDataModel_iff sampleRecord).1 (by decide)),
    fun h => absurd h.1 (by decide),
    (savePhyInspectionParam_accepts_iff { sampleRecord with broken := JVal.num 150 }).2
      (fun h => absurd h.1 (by decide))⟩

/-! ## C15: the message of a rejected physical-parameter record -/

/-- C15, as stated, fails: a record whose only invalid field is `broken` and a record
whose only invalid field is `liveInsects` are both rejected with 400, and with one and
the same message. -/
theorem different_faults_same_message :
    (savePhyInspectionParam (some fun _ => none)
        { sampleRecord with broken := JVal.num (-1) }).status = 400 ∧
      (savePhyInspectionParam (some fun _ => none)
        { sampleRecord with liveInsects := JVal.num (-1) }).status = 400 ∧
      (savePhyInspectionParam (some fun _ => none)
        { sampleRecord with broken := JVal.num (-1) }).message
        = (savePhyInspectionParam (some fun _ => none)
          { sampleRecord with liveInsects := JVal.num (-1) }).message := by
  decide

/-- C15, amended: every 400 of `savePhyInspectionParam` carries either the one message
of the controller's own validation, whatever the invalid field is, or the message
"Validation error" together with the messages of the model's validators; in both
cases nothing is inserted. -/
theorem rejected_record_message (Phyinspectionparam : Option PhyCreate) (body : PhyRecord)
    (h : (savePhyInspectionParam Phyinspectionparam body).status = 400) :
    ((savePhyInspectionParam Phyinspectionparam body).message = phyInvalidMessage ∨
        ((savePhyInspectionParam Phyinspectionparam body).message
            = [Part.lit "Validation error"] ∧
          (savePhyInspectionParam Phyinspectionparam body).errors ≠ none)) ∧
      (savePhyInspectionParam Phyinspectionparam body).inserted = [] ∧
      (phyInputInvalid body = true →
        (savePhyInspectionParam Phyinspectionparam body).message = phyInvalidMessage) := by
  unfold savePhyInspectionParam at h ⊢
  split
  · exact ⟨Or.inl rfl, rfl, fun _ => rfl⟩
  · rename_i hvalid
    rw [if_neg hvalid] at h
    have hcatch : ∀ e : JsError, (savePhyCatch e).status = 400 →
        (savePhyCatch e).message = [Part.lit "Validation error"] ∧
          (savePhyCatch e).errors ≠ none ∧ (savePhyCatch e).inserted = [] := by
      intro e he
      unfold savePhyCatch at he ⊢
      split
      · exact ⟨rfl, by simp, rfl⟩
      · rename_i hn
        rw [if_neg hn] at he
        cases he
    split
    · simp only at h
      obtain ⟨m1, m2, m3⟩ := hcatch _ h
      exact ⟨Or.inr ⟨m1, m2⟩, m3, fun hi => absurd hi hvalid⟩
    · rename_i create
      simp only at h
      split
      · rename_i e he
        rw [he] at h
        obtain ⟨m1, m2, m3⟩ := hcatch _ h
        exact ⟨Or.inr ⟨m1, m2⟩, m3, fun hi => absurd hi hvalid⟩
      · rename_i he
        rw [he] at h
        cases h

/-- C15, amended, at the record whose only invalid field is `liveInsects`: the message
is the generic one. -/
theorem rejected_record_message_witness :
    (savePhyInspectionParam (some fun _ => none)
        { sampleRecord with liveInsects := JVal.num (-1) }).status = 400 ∧
      (savePhyInspectionParam (some fun _ => none)
        { sampleRecord with liveInsects := JVal.num (-1) }).message = phyInvalidMessage :=
  ⟨by decide,
    (rejected_record_message (some fun _ => none)
      { sampleRecord with liveInsects := JVal.num (-1) } (by decide)).2.2 (by decide)⟩

/-! ## C16: what a rejected batch leaves in the catalog -/

/-- With `CheminsParam` undefined the loop never changes the table: the first element
with a name makes the controller throw. -/
theorem saveChemicalLoop_unbound (items : List ChemItem) (catalog saved : List ChemRecord) :
    (saveChemicalLoop none items catalog saved).catalog = catalog := by
  cases items with
  | nil => rfl
  | cons item rest =>
    cases item with
    | null => simp [saveChemicalLoop, saveChemicalCatch, chemNext, typeError]
    | value name =>
      cases h : name.truthy <;>
        simp [saveChemicalLoop, saveChemicalCatch, chemNext, typeError, h]

/-- As `models/index.js` leaves `db.CheminsParam`, `saveChemicalParameters` never
changes the table. -/
theorem saveChemicalParameters_unbound (catalog : List ChemRecord) (request : ChemRequest) :
    (saveChemicalParameters indexCheminsParam catalog request).catalog = catalog := by
  cases request with
  | notArray body => rfl
  | array items =>
    cases items with
    | nil => rfl
    | cons item rest => exact saveChemicalLoop_unbound _ _ _

/-- With `CheminsParam` undefined the loop answers 400 or 500: it stops at its first
element. -/
theorem saveChemicalLoop_unbound_status (item : ChemItem) (rest : List ChemItem)
    (catalog saved : List ChemRecord) :
    (saveChemicalLoop none (item :: rest) catalog saved).status = 400 ∨
      (saveChemicalLoop none (item :: rest) catalog saved).status = 500 := by
  cases item with
  | null => exact Or.inr (by simp [saveChemicalLoop, saveChemicalCatch, chemNext, typeError])
  | value name =>
    cases h : name.truthy
    · exact Or.inl (by simp [saveChemicalLoop, h])
    · exact Or.inr (by simp [saveChemicalLoop, saveChemicalCatch, chemNext, typeError, h])

/-- As `models/index.js` leaves `db.CheminsParam`, `saveChemicalParameters` answers 400
or 500. -/
theorem saveChemicalParameters_unbound_status (catalog : List ChemRecord)
    (request : ChemRequest) :
    (saveChemicalParameters indexCheminsParam catalog request).status = 400 ∨
      (saveChemicalParameters indexCheminsParam catalog request).status = 500 := by
  cases request with
  | notArray body => exact Or.inl rfl
  | array items =>
    cases items with
    | nil => exact Or.inl rfl
    | cons item rest => exact saveChemicalLoop_unbound_status _ _ _ _

/-- C16: every request to `saveChemicalParameters` that is not answered 201 leaves the
catalog as it was before the call, wherever the offending element stands in the array.
As `models/index.js` leaves `db.CheminsParam`, that is every request: the answer is
400 or 500, and no row is inserted. -/
theorem rejected_batch_leaves_catalog (catalog : List ChemRecord) (request : ChemRequest)
    (h : (saveChemicalParameters indexCheminsParam catalog request).status ≠ 201) :
    (saveChemicalParameters indexCheminsParam catalog request).catalog = catalog ∧
      ((saveChemicalParameters indexCheminsParam catalog request).status = 400 ∨
        (saveChemicalParameters indexCheminsParam catalog request).status = 500) ∧
      (saveChemicalParameters indexCheminsParam catalog request).data = none := by
  refine ⟨saveChemicalParameters_unbound catalog request,
    saveChemicalParameters_unbound_status catalog request, ?_⟩
  cases request with
  | notArray body => rfl
  | array items =>
    cases items with
    | nil => rfl
    | cons item rest =>
      cases item with
      | null => rfl
      | value name =>
        cases hn : name.truthy
        · simp [saveChemicalParameters, saveChemicalLoop, hn]
        · simp only [saveChemicalParameters, saveChemicalLoop, indexCheminsParam, hn] at h ⊢
          rfl

/-- C16 at the request whose second element has no `parameter_name`, the first being
"pH", on a catalog that holds "Moisture": the answer is 500, and the catalog still
holds "Moisture" only. -/
theorem rejected_batch_leaves_catalog_witness :
    (saveChemicalParameters indexCheminsParam [{ parameter_name := JVal.str "Moisture" }]
        (ChemRequest.array
          [ChemItem.value (JVal.str "pH"), ChemItem.value JVal.undefined])).status = 500 ∧
      (saveChemicalParameters indexCheminsParam [{ parameter_name := JVal.str "Moisture" }]
        (ChemRequest.array
          [ChemItem.value (JVal.str "pH"), ChemItem.value JVal.undefined])).catalog
        = [{ parameter_name := JVal.str "Moisture" }] :=
  ⟨by decide,
    (rejected_batch_leaves_catalog [{ parameter_name := JVal.str "Moisture" }]
      (ChemRequest.array [ChemItem.value (JVal.str "pH"), ChemItem.value JVal.undefined])
      (by decide)).1⟩

/-- The loop itself has no transaction. On a `CheminsParam` bound to a model of the
catalog, which `models/index.js` does not do, the request with "pH" and then an element
without `parameter_name` is answered 400 and leaves "pH" in the table; as wired, the
same request is answered 500 by the first `create`, which throws. -/
theorem second_item_rejected_first_saved :
    (saveChemicalParameters (some sampleChemModel) []
        (ChemRequest.array
          [ChemItem.value (JVal.str "pH"), ChemItem.value JVal.undefined])).status = 400 ∧
      (saveChemicalParameters (some sampleChemModel) []
        (ChemRequest.array
          [ChemItem.value (JVal.str "pH"), ChemItem.value JVal.undefined])).catalog
        = [{ parameter_name := JVal.str "pH" }] ∧
      (saveChemicalParameters indexCheminsParam []
        (ChemRequest.array
          [ChemItem.value (JVal.str "pH"), ChemItem.value JVal.undefined])).status = 500 := by
  decide

/-- The same with a duplicate name as the offending element, on the bound model: the
response is 409, and the first parameter stays in the table. -/
theorem duplicate_rejected_first_saved :
    (saveChemicalParameters (some sampleChemModel) []
        (ChemRequest.array
          [ChemItem.value (JVal.str "pH"), ChemItem.value (JVal.str "pH")])).status = 409 ∧
      (saveChemicalParameters (some sampleChemModel) []
        (ChemRequest.array
          [ChemItem.value (JVal.str "pH"), ChemItem.value (JVal.str "pH")])).catalog
        = [{ parameter_name := JVal.str "pH" }] := by
  decide

/-! ## C17: `getAllChemicalParameters` -/

/-- The logic of `getAllChemicalParameters` on a `CheminsParam` that is a model: the
response carries the rows that `findAll` gives, in their order, with status 200; the
table is left as it was, so a second call gives the same response. -/
theorem getAllChemicalParameters_bound (model : ChemModel) (catalog rows : List ChemRecord)
    (h : model.findAll catalog = Except.ok rows) :
    (getAllChemicalParameters (some model) catalog).status = 200 ∧
      (getAllChemicalParameters (some model) catalog).data = some rows ∧
      (getAllChemicalParameters (some model) catalog).catalog = catalog ∧
      getAllChemicalParameters (some model)
          (getAllChemicalParameters (some model) catalog).catalog
        = getAllChemicalParameters (some model) catalog := by
  simp [getAllChemicalParameters, h]

/-- C17 fails as the models are registered: as `models/index.js` leaves
`db.CheminsParam`, the call of `findAll` throws whatever the table holds, the response
is 500 and carries no list; so it is for the table that holds the one parameter
"pH". -/
theorem getAll_unbound_500 :
    (∀ catalog : List ChemRecord,
      (getAllChemicalParameters indexCheminsParam catalog).status = 500 ∧
        (getAllChemicalParameters indexCheminsParam catalog).data = none) ∧
      (getAllChemicalParameters indexCheminsParam
        [{ parameter_name := JVal.str "pH" }]).data
        ≠ some [{ parameter_name := JVal.str "pH" }] :=
  ⟨fun _ => ⟨rfl, rfl⟩, by decide⟩

/-! ## C18: the two failures of `login` -/

/-- The logic of `login` on a `User` that is a model: for a non-empty email and
password, the response when `findOne` finds no user and the response when it finds one
whose password does not verify are the same, 401 with the message "Invalid
credentials." and no token; and a token is issued only for a user that `findOne` found
and whose password verifies. -/
theorem login_bound (model : UserModel) (bcrypt : Bcrypt) (email password : JVal)
    (hemail : email.truthy = true) (hpassword : password.truthy = true) :
    (∀ absent present user, model.findOne absent email = Except.ok none →
        model.findOne present email = Except.ok (some user) →
        bcrypt.compare password user.password = Except.ok false →
        login (some model) bcrypt absent email password
            = AuthResponse.plain 401 "Invalid credentials." ∧
          login (some model) bcrypt present email password
            = AuthResponse.plain 401 "Invalid credentials.") ∧
      ∀ table token, (login (some model) bcrypt table email password).token = some token →
        ∃ user, model.findOne table email = Except.ok (some user) ∧
          bcrypt.compare password user.password = Except.ok true ∧
          token = signFor user := by
  refine ⟨?_, ?_⟩
  · intro absent present user h1 h2 h3
    simp [login, hemail, hpassword, h1, h2, h3]
  · intro table token h
    unfold login at h
    simp only [hemail, hpassword, Bool.not_true, Bool.or_self, Bool.false_eq_true,
      if_false] at h
    split at h
    · simp [authNext, AuthResponse.plain] at h
    · simp [AuthResponse.plain] at h
    · rename_i user hfind
      split at h
      · simp [authNext, AuthResponse.plain] at h
      · simp [AuthResponse.plain] at h
      · rename_i hcmp
        simp only [authSuccess, Option.some.injEq] at h
        exact ⟨user, hfind, hcmp, h.symm⟩

/-- C18 fails as the models are registered: as `models/index.js` leaves `db.users`,
every `login` with a non-empty email and password ends in 500 without a token, not in
401, whether a user has the email or not. -/
theorem login_unbound_500 (bcrypt : Bcrypt) (table : List UserRow) (email password : JVal)
    (hemail : email.truthy = true) (hpassword : password.truthy = true) :
    (login indexUsers bcrypt table email password).status = 500 ∧
      (login indexUsers bcrypt table email password).token = none ∧
      login indexUsers bcrypt table email password
        ≠ AuthResponse.plain 401 "Invalid credentials." := by
  simp [login, indexUsers, hemail, hpassword, authNext, AuthResponse.plain]

/-- The two requests of C18, a stored email with a wrong password and an email that no
user has: both are answered 500. -/
theorem login_unbound_500_witness :
    (login indexUsers sampleBcrypt sampleUsers (JVal.str "ann@example.com")
        (JVal.str "wrong")).status = 500 ∧
      (login indexUsers sampleBcrypt sampleUsers (JVal.str "bob@example.com")
        (JVal.str "wrong")).status = 500 :=
  ⟨(login_unbound_500 sampleBcrypt sampleUsers (JVal.str "ann@example.com")
      (JVal.str "wrong") (by decide) (by decide)).1,
    (login_unbound_500 sampleBcrypt sampleUsers (JVal.str "bob@example.com")
      (JVal.str "wrong") (by decide) (by decide)).1⟩

/-- On the sample model the two failures of `login` are the 401 of the claim: the
defect is in the binding of the model, not in the controller. -/
theorem login_sample_401 :
    login (some sampleUserModel) sampleBcrypt sampleUsers (JVal.str "ann@example.com")
        (JVal.str "wrong") = AuthResponse.plain 401 "Invalid credentials." ∧
      login (some sampleUserModel) sampleBcrypt sampleUsers (JVal.str "bob@example.com")
        (JVal.str "wrong") = AuthResponse.plain 401 "Invalid credentials." := by
  decide

/-! ## C19: `register` -/

/-- The logic of `register` on a `User` that is a model, for a body with its four
fields present: (1) when `findOne` finds a user with the email, the response is 409 and
the table is unchanged; (2) otherwise, when `hash` and `create` go through, `create`
was handed the hash as the password and "customer" as the role, the table is the one
that `create` gave, the status is 201, and the token carries the id, email and role of
the new user and expires in "12h". -/
theorem register_bound (model : UserModel) (bcrypt : Bcrypt) (table : List UserRow)
    (body : RegisterBody) (hemail : body.email.truthy = true)
    (hpassword : body.password.truthy = true) (hfirst : body.firstName.truthy = true)
    (hlast : body.lastName.truthy = true) :
    (∀ user, model.findOne table body.email = Except.ok (some user) →
        (register (some model) bcrypt table body).response.status = 409 ∧
          (register (some model) bcrypt table body).table = table) ∧
      ∀ hashed newUser inserted, model.findOne table body.email = Except.ok none →
        bcrypt.hash body.password = Except.ok hashed →
        model.create table
            { email := body.email, password := hashed, firstName := body.firstName,
              lastName := body.lastName, role := JVal.str "customer" }
          = Except.ok (newUser, inserted) →
        (register (some model) bcrypt table body).response.status = 201 ∧
          (register (some model) bcrypt table body).table = inserted ∧
          (register (some model) bcrypt table body).response.token
            = some { userId := newUser.id, email := newUser.email, role := newUser.role,
                     expiresIn := "12h" } := by
  refine ⟨?_, ?_⟩
  · intro user h
    simp [register, hemail, hpassword, hfirst, hlast, h, AuthResponse.plain]
  · intro hashed newUser inserted h1 h2 h3
    simp [register, hemail, hpassword, hfirst, hlast, h1, h2, h3, authSuccess, signFor]

/-- C19 fails as the models are registered: as `models/index.js` leaves `db.users`,
every registration with its four fields present ends in 500 without a token, and the
user table is left as it was: no user is created. -/
theorem register_unbound_500 (bcrypt : Bcrypt) (table : List UserRow) (body : RegisterBody)
    (hemail : body.email.truthy = true) (hpassword : body.password.truthy = true)
    (hfirst : body.firstName.truthy = true) (hlast : body.lastName.truthy = true) :
    (register indexUsers bcrypt table body).response.status = 500 ∧
      (register indexUsers bcrypt table body).response.token = none ∧
      (register indexUsers bcrypt table body).table = table := by
  simp [register, indexUsers, hemail, hpassword, hfirst, hlast, authNext,
    AuthResponse.plain]

/-- A registration with an email that no user has: the response is 500 and the table
still holds its one user. -/
theorem register_unbound_500_witness :
    (register indexUsers sampleBcrypt sampleUsers
        { email := JVal.str "bob@example.com", password := JVal.str "pass",
          firstName := JVal.str "Bob", lastName := JVal.str "Ray" }).response.status = 500 ∧
      (register indexUsers sampleBcrypt sampleUsers
        { email := JVal.str "bob@example.com", password := JVal.str "pass",
          firstName := JVal.str "Bob", lastName := JVal.str "Ray" }).table = sampleUsers :=
  ⟨(register_unbound_500 sampleBcrypt sampleUsers
      { email := JVal.str "bob@example.com", password := JVal.str "pass",
        firstName := JVal.str "Bob", lastName := JVal.str "Ray" }
      (by decide) (by decide) (by decide) (by decide)).1,
    (register_unbound_500 sampleBcrypt sampleUsers
      { email := JVal.str "bob@example.com", password := JVal.str "pass",
        firstName := JVal.str "Bob", lastName := JVal.str "Ray" }
      (by decide) (by decide) (by decide) (by decide)).2.2⟩

/-- On the sample model the same registration creates one user, with the hash as
password and the role "customer". -/
theorem register_sample_201 :
    (register (some sampleUserModel) sampleBcrypt sampleUsers
        { email := JVal.str "bob@example.com", password := JVal.str "pass",
          firstName := JVal.str "Bob", lastName := JVal.str "Ray" }).response.status = 201 ∧
      (register (some sampleUserModel) sampleBcrypt sampleUsers
        { email := JVal.str "bob@example.com", password := JVal.str "pass",
          firstName := JVal.str "Bob", lastName := JVal.str "Ray" }).table
        = sampleUsers ++
          [{ id := JVal.num 2, email := JVal.str "bob@example.com",
             password := JVal.str "$2b$10$pass", role := JVal.str "customer",
             firstName := JVal.str "Bob", lastName := JVal.str "Ray" }] := by
  decide

/-! ## C20: a created customer read back -/

/-- The route `GET /:id` on an id that `findByPk` finds: status 200, and the body is the
JSON of the whole row. -/
theorem getCustomerById_found (Customer : CustomerModel) (table : List CustomerRow)
    (id : JVal) (customer : CustomerRow)
    (h : Customer.findByPk table id = Except.ok (some customer)) :
    getCustomerById Customer table id = { status := 200, body := customer.toJSON } := by
  simp [getCustomerById, h]

/-- The JSON of a row has the key "password" whenever the row has a password, and the
four fields of the 201 body likewise. -/
theorem toJSON_keys (row : CustomerRow) (key : String) (value : JVal)
    (hvalue : value ≠ JVal.undefined)
    (hkey : (key, value) ∈
      [("country_code", row.country_code), ("full_name", row.full_name),
       ("email_address", row.email_address), ("mobile_number", row.mobile_number),
       ("password", row.password)]) :
    (key, value) ∈ row.toJSON := by
  simp only [CustomerRow.toJSON, jsonObject, List.mem_filter, decide_eq_true_eq]
  refine ⟨?_, hvalue⟩
  simp only [List.mem_cons, List.mem_singleton, List.not_mem_nil, or_false] at hkey
  rcases hkey with h | h | h | h | h <;> simp [h]

/-- The 201 of `createCustomer`: when no stored customer has the email address or the
mobile number and `hash` and `create` go through, the transaction is committed, the
table is the one `create` gave, and the body carries four keys of the new row. -/
theorem createCustomer_created (Customer : CustomerModel) (bcrypt : Bcrypt)
    (table inserted : List CustomerRow) (body : CustomerBody) (hashed : JVal)
    (row : CustomerRow)
    (hcountry : body.country_code.truthy = true) (hname : body.full_name.truthy = true)
    (hemail : body.email_address.truthy = true)
    (hmobile : body.mobile_number.truthy = true)
    (hpassword : body.password.truthy = true)
    (hfind : Customer.findOne table body.email_address body.mobile_number = Except.ok none)
    (hhash : bcrypt.hash body.password = Except.ok hashed)
    (hcreate : Customer.create table
        { country_code := body.country_code, full_name := body.full_name,
          email_address := body.email_address, mobile_number := body.mobile_number,
          password := hashed,
          trade_license_or_legal_document_photo_url :=
            orElse body.trade_license_or_legal_document_photo_url JVal.null,
          certificate_photo_url := orElse body.certificate_photo_url JVal.null }
      = Except.ok (row, inserted)) :
    createCustomer Customer bcrypt table body
      = { status := 201, success := true, message := "Customer created successfully!",
          customer :=
            some (jsonObject
              [("customer_id", row.customer_id), ("full_name", row.full_name),
               ("email_address", row.email_address),
               ("mobile_number", row.mobile_number)])
          error := none, table := inserted, transaction := TxEnd.committed } := by
  simp [createCustomer, hcountry, hname, hemail, hmobile, hpassword, hfind, hhash, hcreate]

/-- C20 fails on the password: for a payload with its five required fields, when
`createCustomer` stores the row `row` (no stored customer has the email address or the
mobile number, `hash` gives `hashed`, `create` stores the submitted values with
`hashed` as the password), then `createCustomer` responds 201, and `GET /:id` with the
id of the new row responds 200 with the four submitted values, and with the key
"password" holding the stored hash. -/
theorem created_customer_read_with_password (Customer : CustomerModel) (bcrypt : Bcrypt)
    (table inserted : List CustomerRow) (body : CustomerBody) (hashed : JVal)
    (row : CustomerRow)
    (hcountry : body.country_code.truthy = true) (hname : body.full_name.truthy = true)
    (hemail : body.email_address.truthy = true)
    (hmobile : body.mobile_number.truthy = true)
    (hpassword : body.password.truthy = true)
    (hfind : Customer.findOne table body.email_address body.mobile_number = Except.ok none)
    (hhash : bcrypt.hash body.password = Except.ok hashed)
    (hcreate : Customer.create table
        { country_code := body.country_code, full_name := body.full_name,
          email_address := body.email_address, mobile_number := body.mobile_number,
          password := hashed,
          trade_license_or_legal_document_photo_url :=
            orElse body.trade_license_or_legal_document_photo_url JVal.null,
          certificate_photo_url := orElse body.certificate_photo_url JVal.null }
      = Except.ok (row, inserted))
    (hstored : row.country_code = body.country_code ∧ row.full_name = body.full_name ∧
      row.email_address = body.email_address ∧ row.mobile_number = body.mobile_number ∧
      row.password = hashed)
    (hhashed : hashed ≠ JVal.undefined)
    (hread : Customer.findByPk inserted row.customer_id = Except.ok (some row)) :
    (createCustomer Customer bcrypt table body).status = 201 ∧
      (createCustomer Customer bcrypt table body).table = inserted ∧
      (getCustomerById Customer inserted row.customer_id).status = 200 ∧
      ("country_code", body.country_code)
        ∈ (getCustomerById Customer inserted row.customer_id).body ∧
      ("full_name", body.full_name)
        ∈ (getCustomerById Customer inserted row.customer_id).body ∧
      ("email_address", body.email_address)
        ∈ (getCustomerById Customer inserted row.customer_id).body ∧
      ("mobile_number", body.mobile_number)
        ∈ (getCustomerById Customer inserted row.customer_id).body ∧
      ("password", hashed) ∈ (getCustomerById Customer inserted row.customer_id).body := by
  obtain ⟨h1, h2, h3, h4, h5⟩ := hstored
  have hundef : ∀ v : JVal, v.truthy = true → v ≠ JVal.undefined := by
    intro v hv hu
    rw [hu] at hv
    exact absurd hv (by decide)
  rw [createCustomer_created Customer bcrypt table inserted body hashed row hcountry hname
    hemail hmobile hpassword hfind hhash hcreate,
    getCustomerById_found Customer inserted row.customer_id row hread]
  refine ⟨rfl, rfl, rfl, ?_, ?_, ?_, ?_, ?_⟩
  · exact toJSON_keys row _ _ (hundef _ hcountry) (by simp [h1])
  · exact toJSON_keys row _ _ (hundef _ hname) (by simp [h2])
  · exact toJSON_keys row _ _ (hundef _ hemail) (by simp [h3])
  · exact toJSON_keys row _ _ (hundef _ hmobile) (by simp [h4])
  · exact toJSON_keys row _ _ hhashed (by simp [h5])

/-- The sample payload in an empty table: the customer is created under the id 1, and
`GET /1` answers 200 with the key "password" holding the hash of "secret". -/
theorem created_customer_read_with_password_witness :
    sampleCustomerModel.findByPk [sampleCustomerRow] (JVal.num 1)
        = Except.ok (some sampleCustomerRow) ∧
      (createCustomer sampleCustomerModel sampleBcrypt [] sampleCustomerBody).status = 201 ∧
      (createCustomer sampleCustomerModel sampleBcrypt [] sampleCustomerBody).table
        = [sampleCustomerRow] ∧
      (getCustomerById sampleCustomerModel [sampleCustomerRow] (JVal.num 1)).status = 200 ∧
      ("country_code", JVal.str "IND")
        ∈ (getCustomerById sampleCustomerModel [sampleCustomerRow] (JVal.num 1)).body ∧
      ("full_name", JVal.str "Ann Lee")
        ∈ (getCustomerById sampleCustomerModel [sampleCustomerRow] (JVal.num 1)).body ∧
      ("email_address", JVal.str "ann@example.com")
        ∈ (getCustomerById sampleCustomerModel [sampleCustomerRow] (JVal.num 1)).body ∧
      ("mobile_number", JVal.str "+911234567890")
        ∈ (getCustomerById sampleCustomerModel [sampleCustomerRow] (JVal.num 1)).body ∧
      ("password", JVal.str "$2b$10$secret")
        ∈ (getCustomerById sampleCustomerModel [sampleCustomerRow] (JVal.num 1)).body :=
  ⟨rfl,
    created_customer_read_with_password sampleCustomerModel sampleBcrypt []
      [sampleCustomerRow] sampleCustomerBody (JVal.str "$2b$10$secret") sampleCustomerRow
      (by decide) (by decide) (by decide) (by decide) (by decide) rfl rfl rfl
      ⟨rfl, rfl, rfl, rfl, rfl⟩ (by decide) rfl⟩

/-! ## C21: the contract of `createCustomer` -/

/-- Every response of the `catch` block of `createCustomer` is a failure that leaves
the table as it was, after a rollback. -/
theorem createCustomerCatch_rolls_back (table : List CustomerRow) (error : CustomerError) :
    (createCustomerCatch table error).status ≠ 201 ∧
      (createCustomerCatch table error).table = table ∧
      (createCustomerCatch table error).transaction = TxEnd.rolledBack := by
  unfold createCustomerCatch
  split
  · exact ⟨by simp, rfl, rfl⟩
  · split
    · exact ⟨by simp, rfl, rfl⟩
    · exact ⟨by simp, rfl, rfl⟩

/-- The two ways in which `createCustomer` ends: a failure that leaves the table as it
was, after a rollback, or the 201 for the row that `create` returned, after a
commit. -/
theorem createCustomer_cases (Customer : CustomerModel) (bcrypt : Bcrypt)
    (table : List CustomerRow) (body : CustomerBody) :
    ((createCustomer Customer bcrypt table body).status ≠ 201 ∧
        (createCustomer Customer bcrypt table body).table = table ∧
        (createCustomer Customer bcrypt table body).transaction = TxEnd.rolledBack) ∨
      ∃ (row : CustomerRow) (inserted : List CustomerRow),
        createCustomer Customer bcrypt table body
          = { status := 201, success := true, message := "Customer created successfully!",
              customer :=
                some (jsonObject
                  [("customer_id", row.customer_id), ("full_name", row.full_name),
                   ("email_address", row.email_address),
                   ("mobile_number", row.mobile_number)])
              error := none, table := inserted, transaction := TxEnd.committed } := by
  by_cases hcond : (!body.country_code.truthy || !body.full_name.truthy
      || !body.email_address.truthy || !body.mobile_number.truthy
      || !body.password.truthy) = true
  · left
    simp [createCustomer, hcond]
  · cases hfind : Customer.findOne table body.email_address body.mobile_number with
    | error e =>
      left
      simp only [createCustomer, hcond, hfind, if_false]
      exact createCustomerCatch_rolls_back table e
    | ok found =>
      cases found with
      | some existing =>
        left
        simp [createCustomer, hcond, hfind]
      | none =>
        cases hhash : bcrypt.hash body.password with
        | error e =>
          left
          simp only [createCustomer, hcond, hfind, hhash, if_false]
          exact createCustomerCatch_rolls_back table _
        | ok hashed =>
          cases hcreate : Customer.create table
              { country_code := body.country_code, full_name := body.full_name,
                email_address := body.email_address, mobile_number := body.mobile_number,
                password := hashed,
                trade_license_or_legal_document_photo_url :=
                  orElse body.trade_license_or_legal_document_photo_url JVal.null,
                certificate_photo_url := orElse body.certificate_photo_url JVal.null } with
          | error e =>
            left
            simp only [createCustomer, hcond, hfind, hhash, hcreate, if_false]
            exact createCustomerCatch_rolls_back table e
          | ok created =>
            right
            refine ⟨created.1, created.2, ?_⟩
            simp only [createCustomer, hcond, hfind, hhash, hcreate, if_false]
            rfl

/-- The keys that `JSON.stringify` keeps are among the keys of the literal. -/
theorem jsonObject_keys (entries : List (String × JVal)) (entry : String × JVal)
    (h : entry ∈ jsonObject entries) : entry.1 ∈ entries.map Prod.fst := by
  simp only [jsonObject, List.mem_filter] at h
  exact List.mem_map_of_mem Prod.fst h.1

/-- C21: for every `createCustomer` request, (1) when one of `country_code`,
`full_name`, `email_address`, `mobile_number`, `password` is missing, the response is
400; (2) when all five are there and the lookup finds a stored customer with the email
address or the mobile number, the response is 409; (3) whenever the response is not
201, these two cases included, the table is the one before the request and the
transaction was rolled back; (4) on 201 the transaction was committed and the
`customer` of the body has no key but `customer_id`, `full_name`, `email_address` and
`mobile_number`, so no password, and the body has no `error`. -/
theorem createCustomer_contract (Customer : CustomerModel) (bcrypt : Bcrypt)
    (table : List CustomerRow) (body : CustomerBody) :
    ((body.country_code.truthy = false ∨ body.full_name.truthy = false ∨
        body.email_address.truthy = false ∨ body.mobile_number.truthy = false ∨
        body.password.truthy = false) →
        (createCustomer Customer bcrypt table body).status = 400) ∧
      (body.country_code.truthy = true → body.full_name.truthy = true →
        body.email_address.truthy = true → body.mobile_number.truthy = true →
        body.password.truthy = true →
        ∀ existing,
          Customer.findOne table body.email_address body.mobile_number
            = Except.ok (some existing) →
          (createCustomer Customer bcrypt table body).status = 409) ∧
      ((createCustomer Customer bcrypt table body).status ≠ 201 →
        (createCustomer Customer bcrypt table body).table = table ∧
          (createCustomer Customer bcrypt table body).transaction = TxEnd.rolledBack) ∧
      ((createCustomer Customer bcrypt table body).status = 201 →
        (createCustomer Customer bcrypt table body).transaction = TxEnd.committed ∧
          (createCustomer Customer bcrypt table body).error = none ∧
          ∃ customer, (createCustomer Customer bcrypt table body).customer = some customer ∧
            ∀ entry ∈ customer,
              entry.1 ∈ ["customer_id", "full_name", "email_address", "mobile_number"]) := by
  refine ⟨?_, ?_, ?_, ?_⟩
  · intro hmissing
    have hcond : (!body.country_code.truthy || !body.full_name.truthy
        || !body.email_address.truthy || !body.mobile_number.truthy
        || !body.password.truthy) = true := by
      rcases hmissing with h | h | h | h | h <;> simp [h]
    simp [createCustomer, hcond]
  · intro h1 h2 h3 h4 h5 existing hfind
    simp [createCustomer, h1, h2, h3, h4, h5, hfind]
  · intro hne
    rcases createCustomer_cases Customer bcrypt table body with h | ⟨row, inserted, h⟩
    · exact h.2
    · rw [h] at hne
      exact absurd rfl hne
  · intro h201
    rcases createCustomer_cases Customer bcrypt table body with h | ⟨row, inserted, h⟩
    · exact absurd h201 h.1
    · rw [h]
      refine ⟨rfl, rfl, _, rfl, ?_⟩
      intro entry hentry
      exact jsonObject_keys _ entry hentry

/-- The second scenario of the specification: the sample customer is stored, and a
second request with the same email address gets 409; the stored customer is left as it
was and the transaction is rolled back. -/
theorem createCustomer_contract_witness :
    (createCustomer sampleCustomerModel sampleBcrypt [sampleCustomerRow]
        sampleCustomerBody).status = 409 ∧
      (createCustomer sampleCustomerModel sampleBcrypt [sampleCustomerRow]
        sampleCustomerBody).table = [sampleCustomerRow] ∧
      (createCustomer sampleCustomerModel sampleBcrypt [sampleCustomerRow]
        sampleCustomerBody).transaction = TxEnd.rolledBack :=
  ⟨(createCustomer_contract sampleCustomerModel sampleBcrypt [sampleCustomerRow]
      sampleCustomerBody).2.1 (by decide) (by decide) (by decide) (by decide) (by decide)
      sampleCustomerRow rfl,
    ((createCustomer_contract sampleCustomerModel sampleBcrypt [sampleCustomerRow]
      sampleCustomerBody).2.2.1 (by decide)).1,
    ((createCustomer_contract sampleCustomerModel sampleBcrypt [sampleCustomerRow]
      sampleCustomerBody).2.2.1 (by decide)).2⟩

/-! ## C27: a 201 with physical inspection is a rice enquiry -/

/-- A 201 is the response to a request that passed the whole validation. -/
theorem validate_of_201 (db : Db) (body : Body)
    (h : (createRaiseEnquiry db body).status = 201) :
    ∃ row ops, validate db body = (Step.next row, ops) := by
  have htame := validate_tame db body
  unfold createRaiseEnquiry at h
  rcases hv : validate db body with ⟨(row | ⟨st, m⟩ | e), ops⟩
  · exact ⟨row, ops, rfl⟩
  · rw [hv] at h htame
    simp only [reject_status] at h
    rcases htame.2 st m rfl with h400 | h404
    · rw [h400] at h
      cases h
    · rw [h404] at h
      cases h
  · rw [hv] at h
    simp only at h
    rcases catchBlock_status (DbOp.begin :: ops) e with hs | hs | hs <;>
      · rw [hs] at h
        cases h

/-- C27: every call of `createRaiseEnquiry` with `physicalInspection` set that is
answered 201 has, compared case-insensitively, the category "food & beverages", the
sub-commodity "rice" and a rice type of the allowed list, whatever the database holds;
so a request with `physicalInspection` set and another category or sub-commodity is
never answered 201. -/
theorem physical_201_is_rice (db : Db) (body : Body)
    (hphy : body.physicalInspection.truthy = true)
    (h201 : (createRaiseEnquiry db body).status = 201) :
    body.commodityCategory.lowerText = "food & beverages" ∧
      body.subCommodity.lowerText = "rice" ∧
      body.riceType.lowerText ∈ validRiceTypes := by
  obtain ⟨row, ops, hv⟩ := validate_of_201 db body h201
  obtain ⟨vars, fetched, cp, ops1, ops2, -, -, -, -, h5, -, h7, -, -, -, -⟩ :=
    validate_next db body row ops hv
  have hspec : isSpecificRiceTypeSelected body.lowered = true := by
    cases hs : isSpecificRiceTypeSelected body.lowered
    · rw [checkRicePhysical_without_rice db body vars ops1 hphy h5 hs] at h7
      cases h7
    · rfl
  simpa [isSpecificRiceTypeSelected, isRiceSubCommodity, isFoodBeverages, includes,
    Body.lowered, and_assoc] using hspec

/-- C27 at the rice request with the stored record selected: it is answered 201, and
it is a request for "food & beverages", "rice" and "basmati rice". -/
theorem physical_201_is_rice_witness :
    riceBody.physicalInspection.truthy = true ∧
      (createRaiseEnquiry (modelsIndex sampleStore) riceBody).status = 201 ∧
      riceBody.commodityCategory.lowerText = "food & beverages" ∧
      riceBody.subCommodity.lowerText = "rice" ∧
      riceBody.riceType.lowerText ∈ validRiceTypes :=
  ⟨by decide, by decide,
    physical_201_is_rice (modelsIndex sampleStore) riceBody (by decide) (by decide)⟩

/-! ## C28: the last branch of the sub-commodity check -/

/-- C28: a category that passes the category check is a key of
`validSubCommoditiesMap` or is "other"; so one of the two flags
`expectsPredefinedSubCommodity` and `isOtherCommodityCategory` is set, the `else` branch
of lines 187-195 is never entered, and the sub-commodity check never replies with the
message of that branch. -/
theorem category_has_list_or_is_other (lc : Lowered)
    (h : checkCategory lc = Step.next ()) :
    (lc.commodityCategory ∈ subCommodityKeys ∨ lc.commodityCategory = "other") ∧
      (expectsPredefinedSubCommodity lc || isOtherCommodityCategory lc) = true ∧
      ∀ body : Body,
        checkSubCommodity body lc ≠
          Step.reply 400
            [Part.lit "Sub-commodity should only be provided for specific commodity categories that require it (e.g., Food & Beverages, Textiles & Garments, etc.) or if 'Other' is selected."] := by
  have hlist : validCommodityCategories =
      ["food & beverages", "textiles & garments", "electronics & electrical",
       "pharmaceuticals", "chemicals", "automotive", "other"] := by decide
  have hkeys : subCommodityKeys =
      ["food & beverages", "textiles & garments", "electronics & electrical",
       "pharmaceuticals", "chemicals", "automotive"] := by decide
  have hmem : lc.commodityCategory ∈ validCommodityCategories := by
    unfold checkCategory at h
    split at h
    · cases h
    · rename_i hinc
      simpa [includes] using hinc
  have hor : lc.commodityCategory ∈ subCommodityKeys ∨ lc.commodityCategory = "other" := by
    rw [hlist] at hmem
    rw [hkeys]
    simp only [List.mem_cons, List.mem_singleton, List.not_mem_nil, or_false] at hmem ⊢
    tauto
  have hflags : (expectsPredefinedSubCommodity lc || isOtherCommodityCategory lc) = true := by
    rcases hor with hk | ho
    · simp [expectsPredefinedSubCommodity, includes, hk]
    · simp [isOtherCommodityCategory, ho]
  refine ⟨hor, hflags, fun body => ?_⟩
  unfold checkSubCommodity
  cases hexp : expectsPredefinedSubCommodity lc
  · have hother : isOtherCommodityCategory lc = true := by simpa [hexp] using hflags
    simp only [Bool.false_eq_true, if_false, hother, if_true]
    split <;> simp
  · simp only [if_true]
    repeat' split
    all_goals simp

/-- C28 at the category "chemicals", which passes the category check and is a key of
the map. -/
theorem category_has_list_or_is_other_witness :
    checkCategory chemicalsBody.lowered = Step.next () ∧
      chemicalsBody.lowered.commodityCategory ∈ subCommodityKeys :=
  ⟨by decide,
    ((category_has_list_or_is_other chemicalsBody.lowered (by decide)).1).resolve_right
      (by decide)⟩

/-! ## C29: what the catalog accepts passes the rice check -/

theorem isNumber_not_nullish (v : JVal) (h : v.isNumber = true) : v.isNullish = false := by
  cases v <;> simp_all [JVal.isNumber, JVal.isNullish]

/-- One step of the loop of lines 301-341 over a percentage that is in order. -/
theorem firstRiceParamError_percentage (key : String) (value : JVal)
    (rest : List (String × JVal)) (hkey : includes percentageKeys key = true)
    (hnumber : value.isNumber = true) (hlow : value.ltZero = false)
    (hhigh : value.gtHundred = false) :
    firstRiceParamError ((key, value) :: rest) = firstRiceParamError rest := by
  simp [firstRiceParamError, isNumber_not_nullish value hnumber, hkey, hnumber, hlow, hhigh]

/-- One step of the loop of lines 301-341 over a count or length that is in order. -/
theorem firstRiceParamError_nonNegative (key : String) (value : JVal)
    (rest : List (String × JVal)) (hnot : includes percentageKeys key = false)
    (hkey : includes nonNegativeKeys key = true)
    (hnumber : value.isNumber = true) (hlow : value.ltZero = false) :
    firstRiceParamError ((key, value) :: rest) = firstRiceParamError rest := by
  simp [firstRiceParamError, isNumber_not_nullish value hnumber, hnot, hkey, hnumber, hlow]

/-- C29: a physical-parameter record that passes the validation of
`savePhyInspectionParam` and whose seven percentages are not above 100, when it is the
record selected by an enquiry with `physicalInspection` set and a specific rice type,
is copied with the milling degree 0 and passes the validation of the rice parameters:
the loop finds no field to complain about and the check falls through. -/
theorem accepted_record_passes_rice_check (db : Db) (body : Body)
    (find : FindByPk PhyRecord) (record : PhyRecord)
    (haccept : phyInputInvalid record = false)
    (hbroken : record.broken.gtHundred = false)
    (hpurity : record.purity.gtHundred = false)
    (hyellow : record.yellowKernel.gtHundred = false)
    (hdamage : record.damageKernel.gtHundred = false)
    (hred : record.redKernel.gtHundred = false)
    (hpaddy : record.paddyKernel.gtHundred = false)
    (hchalky : record.chalkyRice.gtHundred = false)
    (hphy : body.physicalInspection.truthy = true)
    (hid : body.selectedPhyParamId.truthy = true)
    (hspec : isSpecificRiceTypeSelected body.lowered = true)
    (hdb : db.Phyinspectionparam = some find)
    (hfound : find body.selectedPhyParamId = Except.ok (some record)) :
    fetchPhysical db body =
        (Step.next (RiceVars.ofRecord record), [DbOp.phyFindByPk body.selectedPhyParamId]) ∧
      (RiceVars.ofRecord record).millingDegree = JVal.num 0 ∧
      firstRiceParamError (ricePhysicalParams (RiceVars.ofRecord record)) = none ∧
      checkRicePhysical body body.lowered (RiceVars.ofRecord record) = Step.next () := by
  simp only [phyInputInvalid, Bool.or_eq_false_iff, Bool.not_eq_false'] at haccept
  obtain ⟨⟨⟨⟨⟨⟨⟨⟨⟨⟨⟨⟨⟨⟨⟨⟨⟨⟨⟨⟨a1, b1⟩, a2⟩, b2⟩, -⟩, a3⟩, b3⟩, a4⟩, b4⟩, a5⟩, b5⟩, a6⟩, b6⟩,
    a7⟩, b7⟩, a8⟩, b8⟩, hstring⟩, hdegree⟩, a9⟩, b9⟩ := haccept
  have hmilling : (RiceVars.ofRecord record).millingDegree = JVal.num 0 := by
    cases hm : record.millingDegree with
    | str m =>
      rw [hm] at hdegree
      have hmem : m ∈ millingDegrees := by simpa [isMillingDegree, includes] using hdegree
      simp only [RiceVars.ofRecord, hm]
      exact millingDegree_of_catalog m hmem
    | _ => rw [hm] at hstring; cases hstring
  have hloop : firstRiceParamError (ricePhysicalParams (RiceVars.ofRecord record)) = none := by
    rw [ricePhysicalParams_eq, hmilling]
    show firstRiceParamError
      [("broken", record.broken), ("purity", record.purity),
       ("yellowKernel", record.yellowKernel), ("damageKernel", record.damageKernel),
       ("redKernel", record.redKernel), ("paddyKernel", record.paddyKernel),
       ("chalkyRice", record.chalkyRice), ("liveInsects", record.liveInsects),
       ("millingDegree", JVal.num 0),
       ("averageGrainLength", record.averageGrainLength)] = none
    rw [firstRiceParamError_percentage "broken" _ _ (by decide) a1 b1 hbroken,
      firstRiceParamError_percentage "purity" _ _ (by decide) a2 b2 hpurity,
      firstRiceParamError_percentage "yellowKernel" _ _ (by decide) a3 b3 hyellow,
      firstRiceParamError_percentage "damageKernel" _ _ (by decide) a4 b4 hdamage,
      firstRiceParamError_percentage "redKernel" _ _ (by decide) a5 b5 hred,
      firstRiceParamError_percentage "paddyKernel" _ _ (by decide) a6 b6 hpaddy,
      firstRiceParamError_percentage "chalkyRice" _ _ (by decide) a7 b7 hchalky,
      firstRiceParamError_nonNegative "liveInsects" _ _ (by decide) (by decide) a8 b8,
      firstRiceParamError_percentage "millingDegree" (JVal.num 0) _ (by decide) (by decide)
        (by decide) (by decide),
      firstRiceParamError_nonNegative "averageGrainLength" _ _ (by decide) (by decide) a9 b9]
    rfl
  have hshould : shouldValidateDetailedRicePhysicalParams body body.lowered = true := by
    simp [shouldValidateDetailedRicePhysicalParams, hphy, hspec]
  refine ⟨fetchPhysical_found db body find record hphy hid hdb hfound, hmilling, hloop, ?_⟩
  simp [checkRicePhysical, hshould, hloop]

/-- C29 at the stored record with purity 95 and milling degree "Well Milled", selected
by the rice request: the catalog accepts it, and the rice check falls through. -/
theorem accepted_record_passes_rice_check_witness :
    phyInputInvalid sampleRecord = false ∧
      (RiceVars.ofRecord sampleRecord).millingDegree = JVal.num 0 ∧
      checkRicePhysical riceBody riceBody.lowered (RiceVars.ofRecord sampleRecord)
        = Step.next () :=
  ⟨by decide,
    (accepted_record_passes_rice_check (modelsIndex sampleStore) riceBody
      sampleStore.phyFindByPk sampleRecord (by decide) (by decide) (by decide) (by decide)
      (by decide) (by decide) (by decide) (by decide) (by decide) (by decide) (by decide)
      rfl rfl).2.1,
    (accepted_record_passes_rice_check (modelsIndex sampleStore) riceBody
      sampleStore.phyFindByPk sampleRecord (by decide) (by decide) (by decide) (by decide)
      (by decide) (by decide) (by decide) (by decide) (by decide) (by decide) (by decide)
      rfl rfl).2.2.2⟩

/-! ## C30: the validation does not look at letter case -/

theorem toLower_toNat (c : Char) :
    c.toLower.toNat = if 65 ≤ c.toNat ∧ c.toNat ≤ 90 then c.toNat + 32 else c.toNat := by
  unfold Char.toLower
  by_cases h : 65 ≤ c.toNat ∧ c.toNat ≤ 90
  · simp only [ge_iff_le, h, and_self, if_true]
    have hvalid : (c.toNat + 32).isValidChar := by
      left; omega
    rw [Char.ofNat, dif_pos hvalid]
    rfl
  · simp [h]

/-- Lower case turns no character into white space, and no white space into anything
else. -/
theorem isWhiteSpace_lowerChar (c : Char) : isWhiteSpace (lowerChar c) = isWhiteSpace c := by
  unfold lowerChar
  split
  · rename_i h
    simp [isWhiteSpace, h]
  · have h := toLower_toNat c
    simp only [isWhiteSpace]
    rw [h]
    split
    · rename_i hr
      have h1 : 65 ≤ c.toNat := hr.1
      have h2 : c.toNat ≤ 90 := hr.2
      apply Bool.eq_iff_iff.mpr
      simp only [Bool.or_eq_true, decide_eq_true_eq, Bool.and_eq_true]
      constructor <;> intro hx <;> omega
    · rfl

theorem trimIsEmpty_toLowerCase (s : String) : trimIsEmpty (toLowerCase s) = trimIsEmpty s := by
  simp only [trimIsEmpty, toLowerCase, List.all_map]
  congr 1
  funext c
  exact isWhiteSpace_lowerChar c

theorem toLowerCase_data_eq_nil (s : String) : (toLowerCase s).data = [] ↔ s.data = [] := by
  simp [toLowerCase]

/-- Two values that differ at most in letter case are both truthy or both falsy. -/
theorem JVal.SameUpToCase.truthy_eq {a b : JVal} (h : a.SameUpToCase b) :
    a.truthy = b.truthy := by
  rcases h with rfl | ⟨s, t, rfl, rfl, hst⟩
  · rfl
  · have h1 := toLowerCase_data_eq_nil s
    have h2 := toLowerCase_data_eq_nil t
    rw [hst] at h1
    simp only [JVal.truthy]
    apply Bool.eq_iff_iff.mpr
    simp only [decide_eq_true_eq, ne_eq]
    rw [← h1, h2]

theorem JVal.SameUpToCase.lowerOrEmpty_eq {a b : JVal} (h : a.SameUpToCase b) :
    lowerOrEmpty a = lowerOrEmpty b := by
  have ht := h.truthy_eq
  rcases h with rfl | ⟨s, t, rfl, rfl, hst⟩
  · rfl
  · simp only [lowerOrEmpty, ht, hst]

theorem JVal.SameUpToCase.missingOrBlank_eq {a b : JVal} (h : a.SameUpToCase b) :
    missingOrBlank a = missingOrBlank b := by
  have ht := h.truthy_eq
  rcases h with rfl | ⟨s, t, rfl, rfl, hst⟩
  · rfl
  · have hb : trimIsEmpty s = trimIsEmpty t := by
      rw [← trimIsEmpty_toLowerCase s, ← trimIsEmpty_toLowerCase t, hst]
    simp only [missingOrBlank, ht, hb]

/-- Two stretches that end alike and read the same, followed by stretches that end
alike and read the same, end alike and read the same. -/
theorem Flow.andThen_ending {α β : Type} (x y : Flow α) (f g : α → Flow β)
    (hx : x.1.ending = y.1.ending) (hops : x.2 = y.2)
    (hf : ∀ u v, x.1 = Step.next u → y.1 = Step.next v →
      (f u).1.ending = (g v).1.ending ∧ (f u).2 = (g v).2) :
    (x.andThen f).1.ending = (y.andThen g).1.ending ∧
      (x.andThen f).2 = (y.andThen g).2 := by
  rcases x with ⟨(u | ⟨s, m⟩ | e), ops⟩ <;> rcases y with ⟨(v | ⟨s', m'⟩ | e'), ops'⟩ <;>
    simp only [Step.ending] at hx hops <;> try cases hx
  · subst hops
    obtain ⟨h1, h2⟩ := hf u v rfl rfl
    exact ⟨h1, by simp [Flow.andThen, h2]⟩
  · subst hops
    exact ⟨rfl, rfl⟩
  · subst hops
    exact ⟨rfl, rfl⟩

theorem checkSubCommodity_ending (a b : Body) (lc : Lowered)
    (h : a.subCommodity.SameUpToCase b.subCommodity) :
    (checkSubCommodity a lc).ending = (checkSubCommodity b lc).ending := by
  have ht := h.truthy_eq
  have hm := h.missingOrBlank_eq
  unfold checkSubCommodity
  rw [ht, hm]
  cases expectsPredefinedSubCommodity lc <;> cases isOtherCommodityCategory lc <;>
    cases b.subCommodity.truthy <;> simp only [Bool.false_eq_true, if_false, if_true,
      Bool.not_true, Bool.not_false]
  all_goals first
    | rfl
    | (cases allowedSubCommodities lc.commodityCategory with
        | none => rfl
        | some allowed =>
          dsimp only
          cases includes allowed lc.subCommodity <;> rfl)

theorem checkRiceType_ending (a b : Body) (lc : Lowered)
    (h : a.riceType.SameUpToCase b.riceType) :
    (checkRiceType a lc).ending = (checkRiceType b lc).ending := by
  have ht := h.truthy_eq
  unfold checkRiceType
  rw [ht]
  cases isRiceSubCommodity lc <;> cases b.riceType.truthy <;>
    cases includes validRiceTypes lc.riceType <;> rfl

/-- C30: for two requests that differ at most in the letter case of
`commodityCategory`, `subCommodity`, `riceType` and `inspectionType`, on the same
database, every check of the validation ends alike: the normalised values are the same
(so the category check is the same call), the sub-commodity and rice-type checks fall
through for both or reply with the same status for both, the two lookups and the three
later checks give the same result; and the validation as a whole ends alike, with the
same status when it replies, after the same database reads. -/
theorem validation_ignores_case (db : Db) (a b : Body) (h : a.SameUpToCase b) :
    normalize a = normalize b ∧
      (∀ lc, (checkSubCommodity a lc).ending = (checkSubCommodity b lc).ending ∧
        (checkRiceType a lc).ending = (checkRiceType b lc).ending ∧
        checkInspectionDates a lc = checkInspectionDates b lc ∧
        ∀ vars, checkRicePhysical a lc vars = checkRicePhysical b lc vars) ∧
      fetchPhysical db a = fetchPhysical db b ∧
      fetchChemical db a = fetchChemical db b ∧
      (∀ fetched, checkChemical a fetched = checkChemical b fetched) ∧
      (validate db a).1.ending = (validate db b).1.ending ∧
      (validate db a).2 = (validate db b).2 := by
  obtain ⟨hcat, hsub, hrice, hinsp, hb⟩ := h
  have hphy : b.physicalInspection = a.physicalInspection := by
    have h := congrArg Body.physicalInspection hb
    exact h
  have hpid : b.selectedPhyParamId = a.selectedPhyParamId := by
    have h := congrArg Body.selectedPhyParamId hb
    exact h
  have hchem : b.chemicalTesting = a.chemicalTesting := by
    have h := congrArg Body.chemicalTesting hb
    exact h
  have hcid : b.selectedChemParamId = a.selectedChemParamId := by
    have h := congrArg Body.selectedChemParamId hb
    exact h
  have hsingle : b.singleDayInspectionDate = a.singleDayInspectionDate := by
    have h := congrArg Body.singleDayInspectionDate hb
    exact h
  have hstart : b.multiDayInspectionStartDate = a.multiDayInspectionStartDate := by
    have h := congrArg Body.multiDayInspectionStartDate hb
    exact h
  have hend : b.multiDayInspectionEndDate = a.multiDayInspectionEndDate := by
    have h := congrArg Body.multiDayInspectionEndDate hb
    exact h
  have hnorm : normalize a = normalize b := by
    simp only [normalize, hcat.lowerOrEmpty_eq, hsub.lowerOrEmpty_eq,
      hrice.lowerOrEmpty_eq, hinsp.lowerOrEmpty_eq]
  have hdates : ∀ lc, checkInspectionDates a lc = checkInspectionDates b lc := by
    intro lc
    simp only [checkInspectionDates, hsingle, hstart, hend]
  have hricephy : ∀ lc vars, checkRicePhysical a lc vars = checkRicePhysical b lc vars := by
    intro lc vars
    simp only [checkRicePhysical, shouldValidateDetailedRicePhysicalParams, hphy]
  have hfetchP : fetchPhysical db a = fetchPhysical db b := by
    simp only [fetchPhysical, hphy, hpid]
  have hfetchC : fetchChemical db a = fetchChemical db b := by
    simp only [fetchChemical, hchem, hcid]
  have hcheckC : ∀ fetched, checkChemical a fetched = checkChemical b fetched := by
    intro fetched
    simp only [checkChemical, hchem]
  refine ⟨hnorm, fun lc => ⟨checkSubCommodity_ending a b lc hsub,
    checkRiceType_ending a b lc hrice, hdates lc, hricephy lc⟩, hfetchP, hfetchC, hcheckC, ?_⟩
  unfold validate
  refine Flow.andThen_ending _ _ _ _ (by rw [hnorm]) rfl fun lc lc' h1 h2 => ?_
  have hlc : lc = lc' := by
    simp only [Flow.lift] at h1 h2
    rw [hnorm, h2] at h1
    exact (Step.next.inj h1).symm
  subst hlc
  refine Flow.andThen_ending _ _ _ _ rfl rfl fun _ _ _ _ => ?_
  refine Flow.andThen_ending _ _ _ _ (checkSubCommodity_ending a b lc hsub) rfl
    fun _ _ _ _ => ?_
  refine Flow.andThen_ending _ _ _ _ (checkRiceType_ending a b lc hrice) rfl
    fun _ _ _ _ => ?_
  refine Flow.andThen_ending _ _ _ _ (by rw [hfetchP]) (by rw [hfetchP])
    fun vars vars' h1 h2 => ?_
  have hvars : vars = vars' := by
    rw [hfetchP, h2] at h1
    exact (Step.next.inj h1).symm
  subst hvars
  refine Flow.andThen_ending _ _ _ _ (by rw [hfetchC]) (by rw [hfetchC])
    fun fetched fetched' h1 h2 => ?_
  have hfetched : fetched = fetched' := by
    rw [hfetchC, h2] at h1
    exact (Step.next.inj h1).symm
  subst hfetched
  refine Flow.andThen_ending _ _ _ _ (by rw [hricephy]) rfl fun _ _ _ _ => ?_
  refine Flow.andThen_ending _ _ _ _ (by rw [hcheckC]) rfl fun cp cp' _ _ => ?_
  refine Flow.andThen_ending _ _ _ _ (by rw [hdates]) rfl fun _ _ _ _ => ?_
  exact ⟨rfl, rfl⟩

/-- C30 at the rice request and the same request written "Food & Beverages", "RICE",
"Basmati Rice", "Single_Day": both pass the whole validation after the same read. -/
theorem validation_ignores_case_witness :
    riceBody.SameUpToCase riceBodyUpper ∧
      (validate (modelsIndex sampleStore) riceBody).1.ending = Ending.next ∧
      (validate (modelsIndex sampleStore) riceBodyUpper).1.ending = Ending.next ∧
      (validate (modelsIndex sampleStore) riceBodyUpper).2
        = [DbOp.phyFindByPk (JVal.num 1)] :=
  have hsame : riceBody.SameUpToCase riceBodyUpper :=
    ⟨Or.inr ⟨_, _, rfl, rfl, by decide⟩, Or.inr ⟨_, _, rfl, rfl, by decide⟩,
      Or.inr ⟨_, _, rfl, rfl, by decide⟩, Or.inr ⟨_, _, rfl, rfl, by decide⟩, rfl⟩
  ⟨hsame, by decide,
    ((validation_ignores_case (modelsIndex sampleStore) riceBody riceBodyUpper
      hsame).2.2.2.2.2.1).symm.trans (by decide),
    ((validation_ignores_case (modelsIndex sampleStore) riceBody riceBodyUpper
      hsame).2.2.2.2.2.2).symm.trans (by decide)⟩

/-! ## C24: the fallback handlers -/

/-- C24, as stated, fails: with `NODE_ENV` set to "test", which is not "production",
and with `NODE_ENV` not set at all, the response to a request that matches no route
carries no error detail. -/
theorem error_detail_omitted_outside_development :
    (unmatchedRoute (some "test")).error = none ∧ (unmatchedRoute none).error = none ∧
      (globalErrorHandler (some "test")
        { message := "boom", status := JVal.undefined }).error = none := by
  decide

/-- C24, amended: a request that matches no route is answered 404 with the message
"Not Found"; an error without a status is answered 500 with the message of the error;
and the body carries the error as detail exactly when `NODE_ENV` is "development": not
when it is "production", nor for any other value, nor when it is not set. -/
theorem fallback_handlers (NODE_ENV : Option String) (err : HttpError) (message : String) :
    (unmatchedRoute NODE_ENV).status = JVal.num 404 ∧
      (unmatchedRoute NODE_ENV).message = "Not Found" ∧
      (globalErrorHandler NODE_ENV { message := message, status := JVal.undefined }).status
        = JVal.num 500 ∧
      (globalErrorHandler NODE_ENV { message := message, status := JVal.undefined }).message
        = message ∧
      ((globalErrorHandler NODE_ENV err).error = some err ↔ NODE_ENV = some "development") ∧
      ((globalErrorHandler NODE_ENV err).error = none ↔ NODE_ENV ≠ some "development") ∧
      (globalErrorHandler (some "production") err).error = none := by
  have h404 : orElse (JVal.num 404) (JVal.num 500) = JVal.num 404 := by decide
  have h500 : orElse JVal.undefined (JVal.num 500) = JVal.num 500 := by decide
  refine ⟨h404, rfl, h500, rfl, ?_, ?_, by simp [globalErrorHandler]⟩
  · by_cases h : NODE_ENV = some "development" <;> simp [globalErrorHandler, h]
  · by_cases h : NODE_ENV = some "development" <;> simp [globalErrorHandler, h]

/-! ## C25: the token middleware -/

/-- The ways in which the middleware refuses: each is a response, without `next`. -/
theorem AuthCheck.denied_not_next (status : Nat) (message : String) :
    (AuthCheck.denied status message).nextCalled = false ∧
      (AuthCheck.denied status message).status = some status := ⟨rfl, rfl⟩

/-- C25: the middleware (1) answers 401 without calling `next` when there is no
`Authorization` header; (2) answers 401 without calling `next` when the header has no
second segment between single spaces, or an empty one; (3) answers 401 without calling
`next` when the verification of the second segment throws a `TokenExpiredError` or a
`JsonWebTokenError`; (4) calls `next` exactly when the header has a non-empty second
segment whose verification succeeds, and then it sends no response and `req.user` is
the decoded payload. -/
theorem authenticate_contract (verify : String → Except JsError JsObject)
    (authHeader : Option String) :
    (authHeader = none →
        (authenticate verify authHeader).status = some 401 ∧
          (authenticate verify authHeader).nextCalled = false) ∧
      (∀ header, authHeader = some header →
        (secondSegment header = none ∨ secondSegment header = some "") →
        (authenticate verify authHeader).status = some 401 ∧
          (authenticate verify authHeader).nextCalled = false) ∧
      (∀ header token error, authHeader = some header →
        secondSegment header = some token → token ≠ "" →
        verify token = Except.error error →
        (error.name = "TokenExpiredError" ∨ error.name = "JsonWebTokenError") →
        (authenticate verify authHeader).status = some 401 ∧
          (authenticate verify authHeader).nextCalled = false) ∧
      ((authenticate verify authHeader).nextCalled = true ↔
        ∃ header token decoded, authHeader = some header ∧
          secondSegment header = some token ∧ token ≠ "" ∧
          verify token = Except.ok decoded) ∧
      (∀ header token decoded, authHeader = some header →
        secondSegment header = some token → token ≠ "" →
        verify token = Except.ok decoded →
        (authenticate verify authHeader).user = some decoded ∧
          (authenticate verify authHeader).status = none) := by
  have hdata : ∀ s : String, s.data = [] ↔ s = "" := by
    intro s
    constructor
    · intro h
      exact String.ext h
    · intro h
      rw [h]
  have hheader : ∀ header token, secondSegment header = some token → token ≠ "" →
      header.data ≠ [] := by
    intro header token hseg _ hnil
    have hempty : header = "" := (hdata header).1 hnil
    have hnone : secondSegment "" = none := by decide
    rw [hempty, hnone] at hseg
    cases hseg
  have hpass : ∀ header token, secondSegment header = some token → token ≠ "" →
      authenticate verify (some header) =
        match verify token with
        | Except.ok decoded =>
          { status := none, message := none, nextCalled := true, user := some decoded }
        | Except.error error =>
          if error.name = "TokenExpiredError" then AuthCheck.denied 401 "Token expired."
          else if error.name = "JsonWebTokenError" then
            AuthCheck.denied 401 "Token is not valid."
          else AuthCheck.denied 500 "Server error during token verification." := by
    intro header token hseg htoken
    have h1 := hheader header token hseg htoken
    have h2 : token.data ≠ [] := fun h => htoken ((hdata token).1 h)
    simp only [authenticate, h1, hseg, h2, if_false]
  refine ⟨?_, ?_, ?_, ?_, ?_⟩
  · intro h
    rw [h]
    exact ⟨rfl, rfl⟩
  · intro header h hseg
    rw [h]
    have hnil : ("" : String).data = [] := rfl
    by_cases hempty : header.data = []
    · simp only [authenticate, hempty, if_true]
      exact ⟨rfl, rfl⟩
    · rcases hseg with hseg | hseg
      · simp only [authenticate, hempty, hseg, if_false]
        exact ⟨rfl, rfl⟩
      · simp only [authenticate, hempty, hseg, hnil, if_false, if_true]
        exact ⟨rfl, rfl⟩
  · intro header token error h hseg htoken hverify hname
    rw [h, hpass header token hseg htoken, hverify]
    rcases hname with hname | hname
    · simp only [hname, if_true]
      exact ⟨rfl, rfl⟩
    · simp only [hname]
      exact ⟨rfl, rfl⟩
  · constructor
    · intro hnext
      unfold authenticate at hnext
      split at hnext
      · cases hnext
      · rename_i header
        split at hnext
        · cases hnext
        · split at hnext
          · cases hnext
          · rename_i token hseg
            split at hnext
            · cases hnext
            · rename_i htoken
              split at hnext
              · rename_i decoded hverify
                exact ⟨header, token, decoded, rfl, hseg,
                  fun h => htoken ((hdata token).2 h), hverify⟩
              · split at hnext
                · cases hnext
                · split at hnext <;> cases hnext
    · rintro ⟨header, token, decoded, h, hseg, htoken, hverify⟩
      rw [h, hpass header token hseg htoken, hverify]
  · intro header token decoded h hseg htoken hverify
    rw [h, hpass header token hseg htoken, hverify]
    exact ⟨rfl, rfl⟩

/-- C25 at three requests: "Bearer good" is let through with the decoded payload as
`req.user`, "Bearer old" is answered 401, and "Bearer" alone is answered 401. -/
theorem authenticate_contract_witness :
    (authenticate sampleVerify (some "Bearer good")).nextCalled = true ∧
      (authenticate sampleVerify (some "Bearer good")).user
        = some [("userId", JVal.num 1), ("email", JVal.str "ann@example.com"),
                ("role", JVal.str "customer")] ∧
      (authenticate sampleVerify (some "Bearer old")).status = some 401 ∧
      (authenticate sampleVerify (some "Bearer")).status = some 401 :=
  ⟨(authenticate_contract sampleVerify (some "Bearer good")).2.2.2.1.2
      ⟨"Bearer good", "good", _, rfl, by decide, by decide, rfl⟩,
    ((authenticate_contract sampleVerify (some "Bearer good")).2.2.2.2
      "Bearer good" "good" _ rfl (by decide) (by decide) rfl).1,
    ((authenticate_contract sampleVerify (some "Bearer old")).2.2.1
      "Bearer old" "old" _ rfl (by decide) (by decide) rfl (Or.inl rfl)).1,
    ((authenticate_contract sampleVerify (some "Bearer")).2.1
      "Bearer" rfl (Or.inl (by decide))).1⟩

/-! ## C26: the email format of `createCompany` -/

/-- The piece `[^\s@]+` followed by `rest` matches exactly the inputs that split into a
non-empty run of characters of the class and a remainder that `rest` matches. -/
theorem plusThen_iff (rest : List Char → Bool) (s : List Char) :
    plusThen rest s = true ↔
      ∃ run tail, run ≠ [] ∧ s = run ++ tail ∧ (∀ c ∈ run, isAddressChar c = true) ∧
        rest tail = true := by
  induction s with
  | nil =>
    simp only [plusThen, Bool.false_eq_true, false_iff]
    rintro ⟨run, tail, hne, hs, -, -⟩
    cases run with
    | nil => exact hne rfl
    | cons c cs => cases hs
  | cons c cs ih =>
    simp only [plusThen, Bool.and_eq_true, Bool.or_eq_true]
    constructor
    · rintro ⟨hc, h | h⟩
      · obtain ⟨run, tail, -, hs, hall, hrest⟩ := ih.1 h
        refine ⟨c :: run, tail, by simp, by simp [hs], ?_, hrest⟩
        intro d hd
        rcases List.mem_cons.1 hd with rfl | hd
        · exact hc
        · exact hall d hd
      · refine ⟨[c], cs, by simp, by simp, ?_, h⟩
        intro d hd
        rcases List.mem_cons.1 hd with rfl | hd
        · exact hc
        · cases hd
    · rintro ⟨run, tail, hne, hs, hall, hrest⟩
      cases run with
      | nil => exact absurd rfl hne
      | cons d ds =>
        simp only [List.cons_append, List.cons.injEq] at hs
        obtain ⟨rfl, rfl⟩ := hs
        refine ⟨hall c (List.mem_cons_self _ _), ?_⟩
        cases ds with
        | nil => exact Or.inr (by simpa using hrest)
        | cons e es =>
          exact Or.inl (ih.2 ⟨e :: es, tail, by simp, rfl,
            fun x hx => hall x (List.mem_cons_of_mem _ hx), hrest⟩)

/-- The pattern matches exactly the strings `local@name.ending` whose three parts are
non-empty runs of characters other than white space and `@`. -/
theorem emailPattern_iff (s : List Char) :
    emailPattern s = true ↔
      ∃ localPart name ending, localPart ≠ [] ∧ name ≠ [] ∧ ending ≠ [] ∧
        s = localPart ++ '@' :: (name ++ '.' :: ending) ∧
        (∀ c ∈ localPart, isAddressChar c = true) ∧ (∀ c ∈ name, isAddressChar c = true) ∧
        (∀ c ∈ ending, isAddressChar c = true) := by
  unfold emailPattern
  rw [plusThen_iff]
  constructor
  · rintro ⟨localPart, afterLocal, h1, hs, hall1, hrest⟩
    split at hrest
    · rename_i domain
      rw [plusThen_iff] at hrest
      obtain ⟨name, afterName, h2, hd, hall2, hrest2⟩ := hrest
      split at hrest2
      · rename_i ending
        rw [plusThen_iff] at hrest2
        obtain ⟨run, tail, h3, he, hall3, htail⟩ := hrest2
        have htail' : tail = [] := by simpa using htail
        subst htail'
        refine ⟨localPart, name, run, h1, h2, h3, ?_, hall1, hall2, hall3⟩
        rw [hs, hd, he]
        simp
      · cases hrest2
    · cases hrest
  · rintro ⟨localPart, name, ending, h1, h2, h3, hs, hall1, hall2, hall3⟩
    refine ⟨localPart, '@' :: (name ++ '.' :: ending), h1, hs, hall1, ?_⟩
    simp only
    rw [plusThen_iff]
    refine ⟨name, '.' :: ending, h2, rfl, hall2, ?_⟩
    simp only
    rw [plusThen_iff]
    exact ⟨ending, [], h3, by simp, hall3, rfl⟩

theorem isAddressChar_iff (c : Char) :
    isAddressChar c = true ↔ isWhiteSpace c = false ∧ c ≠ '@' := by
  simp [isAddressChar]

/-- The pattern of line 58 accepts exactly the format that C26 describes. -/
theorem emailPattern_iff_format (s : List Char) : emailPattern s = true ↔ EmailFormat s := by
  rw [emailPattern_iff]
  constructor
  · rintro ⟨localPart, name, ending, h1, h2, h3, hs, hall1, hall2, hall3⟩
    have hcount : ∀ run : List Char, (∀ c ∈ run, isAddressChar c = true) →
        run.count '@' = 0 := by
      intro run hall
      rw [List.count_eq_zero]
      intro hmem
      exact ((isAddressChar_iff _).1 (hall _ hmem)).2 rfl
    refine ⟨?_, ?_, localPart, name ++ '.' :: ending, hs, h1, name, ending, rfl, h2, h3⟩
    · intro c hc
      rw [hs] at hc
      simp only [List.mem_append, List.mem_cons] at hc
      rcases hc with hc | rfl | hc | rfl | hc
      · exact ((isAddressChar_iff _).1 (hall1 c hc)).1
      · decide
      · exact ((isAddressChar_iff _).1 (hall2 c hc)).1
      · decide
      · exact ((isAddressChar_iff _).1 (hall3 c hc)).1
    · rw [hs]
      simp [List.count_append, List.count_cons, hcount localPart hall1, hcount name hall2,
        hcount ending hall3]
  · rintro ⟨hws, hcount, localPart, domain, hs, h1, name, ending, hd, h2, h3⟩
    subst hd
    have hzero : localPart.count '@' = 0 ∧ name.count '@' = 0 ∧ ending.count '@' = 0 := by
      rw [hs] at hcount
      simp only [List.count_append, List.count_cons, beq_self_eq_true, if_true] at hcount
      have hdot : (('.' : Char) == '@') = false := by decide
      simp only [hdot, Bool.false_eq_true, if_false] at hcount
      omega
    have hall : ∀ run : List Char, run.count '@' = 0 → (∀ c ∈ run, c ∈ s) →
        ∀ c ∈ run, isAddressChar c = true := by
      intro run hrun hsub c hc
      refine (isAddressChar_iff c).2 ⟨hws c (hsub c hc), ?_⟩
      rintro rfl
      exact (List.count_eq_zero.1 hrun) hc
    refine ⟨localPart, name, ending, h1, h2, h3, hs, ?_, ?_, ?_⟩
    · exact hall _ hzero.1 (fun c hc => by rw [hs]; simp [hc])
    · exact hall _ hzero.2.1 (fun c hc => by rw [hs]; simp [hc])
    · exact hall _ hzero.2.2 (fun c hc => by rw [hs]; simp [hc])

/-- No response of a `catch` block of the Indian controller carries the message of the
email check. -/
theorem indianCompanyCatch_message (unexpected : String) (table : List JsObject)
    (error : JsError) (h : unexpected ≠ "Invalid email address format.") :
    (indianCompanyCatch unexpected table error).message
      ≠ some "Invalid email address format." := by
  unfold indianCompanyCatch
  split
  · simp [CompanyOutcome.message_only]
  · split
    · simp
    · simpa using h

/-- C26, as stated, fails: a request with `companyName` and `password` and an empty
`emailAddress`, which the pattern does not match, is answered 400 with the message of
the presence check, not with "Invalid email address format.". -/
theorem empty_email_other_message :
    emailPattern "".data = false ∧
      (indianCreateCompany indexIndianCompany sampleBcrypt []
        (companyBody (JVal.str ""))).status = 400 ∧
      (indianCreateCompany indexIndianCompany sampleBcrypt []
        (companyBody (JVal.str ""))).message
        = some "Company name, password, and email address are required." ∧
      (indianCreateCompany indexIndianCompany sampleBcrypt []
        (companyBody (JVal.str ""))).message ≠ some "Invalid email address format." := by
  decide

/-- C26, amended: for every request with `companyName` and `password` present and a
non-empty string as `emailAddress`, the email check of `createCompany` passes if and
only if the address is in the format of the claim; an address in any other format is
answered 400 "Invalid email address format." and the table is left as it was; an
address in the format never gets that message. -/
theorem email_format_checked (IndianCompany : Option CompanyModel) (bcrypt : Bcrypt)
    (table : List JsObject) (body : JsObject) (s : String)
    (hname : (getProperty body "companyName").truthy = true)
    (hpassword : (getProperty body "password").truthy = true)
    (hemail : getProperty body "emailAddress" = JVal.str s)
    (hpresent : s ≠ "") :
    (testEmail (getProperty body "emailAddress") = true ↔ EmailFormat s.data) ∧
      (¬ EmailFormat s.data →
        indianCreateCompany IndianCompany bcrypt table body
          = CompanyOutcome.message_only 400 "Invalid email address format." table) ∧
      (EmailFormat s.data →
        (indianCreateCompany IndianCompany bcrypt table body).message
          ≠ some "Invalid email address format.") := by
  have htruthy : (JVal.str s).truthy = true := by
    simp only [JVal.truthy, decide_eq_true_eq]
    intro hnil
    exact hpresent (String.ext hnil)
  have htest : testEmail (getProperty body "emailAddress") = true ↔ EmailFormat s.data := by
    rw [hemail]
    exact emailPattern_iff_format s.data
  refine ⟨htest, ?_, ?_⟩
  · intro hbad
    have hfalse : testEmail (JVal.str s) = false := by
      cases ht : testEmail (JVal.str s)
      · rfl
      · rw [hemail] at htest
        exact absurd (htest.1 ht) hbad
    simp [indianCreateCompany, hname, hpassword, hemail, htruthy, hfalse]
  · intro hgood
    have htrue : testEmail (JVal.str s) = true := by
      rw [hemail] at htest
      exact htest.2 hgood
    have hne : "Failed to register company. An unexpected error occurred."
        ≠ "Invalid email address format." := by decide
    simp only [indianCreateCompany, hname, hpassword, hemail, htruthy, htrue, Bool.not_true,
      Bool.or_self, Bool.false_eq_true, if_false]
    split
    · exact indianCompanyCatch_message _ _ _ hne
    · split
      · exact indianCompanyCatch_message _ _ _ hne
      · split
        · exact indianCompanyCatch_message _ _ _ hne
        · simp

/-- C26, amended, at two addresses: "ann@example.com" passes the check, and
"ann@example", without a dot after the `@`, is answered 400 "Invalid email address
format." with the table left empty. -/
theorem email_format_checked_witness :
    testEmail (JVal.str "ann@example.com") = true ∧
      indianCreateCompany indexIndianCompany sampleBcrypt []
          (companyBody (JVal.str "ann@example"))
        = CompanyOutcome.message_only 400 "Invalid email address format." [] :=
  ⟨by decide,
    (email_format_checked indexIndianCompany sampleBcrypt []
      (companyBody (JVal.str "ann@example")) "ann@example" (by decide) (by decide) rfl
      (by decide)).2.1
      (fun h => absurd ((emailPattern_iff_format "ann@example".data).2 h) (by decide))⟩

/-! ## C22: the password of a company update -/

/-- The logic of the Indian `updateCompany` on an `IndianCompany` that is a model and an
id that is stored: a truthy password is replaced by its hash before the instance is
updated, and a falsy one (the empty string, 0, `null`) is handed to `update` as it was
submitted. -/
theorem indianUpdateCompany_bound (model : CompanyModel) (bcrypt : Bcrypt)
    (table : List JsObject) (id : JVal) (companyData company : JsObject)
    (hfound : model.findByPk table id = Except.ok (some company)) :
    (∀ hashed, (getProperty companyData "password").truthy = true →
        bcrypt.hash (getProperty companyData "password") = Except.ok hashed →
        indianUpdateCompany (some model) bcrypt table id companyData
          = indianSaveUpdate model table company
              (setProperty companyData "password" hashed)) ∧
      ((getProperty companyData "password").truthy = false →
        indianUpdateCompany (some model) bcrypt table id companyData
          = indianSaveUpdate model table company companyData) := by
  refine ⟨?_, ?_⟩
  · intro hashed htruthy hhash
    simp [indianUpdateCompany, hfound, htruthy, hhash]
  · intro hfalsy
    simp [indianUpdateCompany, hfound, hfalsy]

/-- The Indian `updateCompany` on an `IndianCompany` that is a model and an id that is
not stored: 404, and the table is left as it was. -/
theorem indianUpdateCompany_missing (model : CompanyModel) (bcrypt : Bcrypt)
    (table : List JsObject) (id : JVal) (companyData : JsObject)
    (hmissing : model.findByPk table id = Except.ok none) :
    indianUpdateCompany (some model) bcrypt table id companyData
      = CompanyOutcome.message_only 404 "Company not found." table := by
  simp [indianUpdateCompany, hmissing]

/-- As `models/index.js` leaves `db.internationalCompany`, every international update
with an id and a non-empty body ends in 500 and leaves the table as it was. -/
theorem internationalUpdateCompany_unbound (bcrypt : Bcrypt) (table : List JsObject)
    (id : JVal) (updates : JsObject) (hid : id.truthy = true) (hbody : updates ≠ []) :
    (internationalUpdateCompany indexInternationalCompany bcrypt table id updates).status
        = 500 ∧
      (internationalUpdateCompany indexInternationalCompany bcrypt table id updates).table
        = table := by
  have hlen : ¬ updates.length = 0 := by
    intro h
    exact hbody (List.length_eq_zero.1 h)
  unfold internationalUpdateCompany
  simp only [hid, Bool.not_true, Bool.false_eq_true, if_false, hlen]
  split
  · split
    · exact ⟨rfl, rfl⟩
    · exact ⟨rfl, rfl⟩
  · exact ⟨rfl, rfl⟩

/-- C22 at its failing requests. (1) As `models/index.js` leaves `db.IndianCompany`,
every Indian update is answered 500, whatever the id, and so is the international
update of the id 99, which is not stored: not 404. (2) On a model bound to the company
table, the update of the stored company 1 with the body `password: ""` is answered 200
by both controllers, and the password stored afterwards is the empty string that was
submitted, not its hash; the password "new" is stored as its hash. -/
theorem empty_password_stored_unhashed :
    (∀ (bcrypt : Bcrypt) (table : List JsObject) (id : JVal) (companyData : JsObject),
      (indianUpdateCompany indexIndianCompany bcrypt table id companyData).status = 500 ∧
        (indianUpdateCompany indexIndianCompany bcrypt table id companyData).table = table) ∧
      (internationalUpdateCompany indexInternationalCompany sampleBcrypt sampleCompanies
        (JVal.num 99) [("companyName", JVal.str "Apex")]).status = 500 ∧
      sampleBcrypt.hash (JVal.str "") = Except.ok (JVal.str "$2b$10$") ∧
      (indianUpdateCompany (some sampleCompanyModel) sampleBcrypt sampleCompanies
        (JVal.num 1) [("password", JVal.str "")]).status = 200 ∧
      (indianUpdateCompany (some sampleCompanyModel) sampleBcrypt sampleCompanies
        (JVal.num 1) [("password", JVal.str "")]).table.map
          (fun row => getProperty row "password") = [JVal.str ""] ∧
      (internationalUpdateCompany (some sampleCompanyModel) sampleBcrypt sampleCompanies
        (JVal.num 1) [("password", JVal.str "")]).status = 200 ∧
      (internationalUpdateCompany (some sampleCompanyModel) sampleBcrypt sampleCompanies
        (JVal.num 1) [("password", JVal.str "")]).table.map
          (fun row => getProperty row "password") = [JVal.str ""] ∧
      (indianUpdateCompany (some sampleCompanyModel) sampleBcrypt sampleCompanies
        (JVal.num 1) [("password", JVal.str "new")]).table.map
          (fun row => getProperty row "password") = [JVal.str "$2b$10$new"] :=
  ⟨fun _ _ _ _ => ⟨rfl, rfl⟩, by decide, rfl, by decide, by decide, by decide, by decide,
    by decide⟩

/-- On the bound sample model an update of an id that is not stored is answered 404 by
both controllers and changes nothing, and no response carries a password. -/
theorem company_update_sample :
    (indianUpdateCompany (some sampleCompanyModel) sampleBcrypt sampleCompanies
        (JVal.num 99) [("companyName", JVal.str "Apex")]).status = 404 ∧
      (indianUpdateCompany (some sampleCompanyModel) sampleBcrypt sampleCompanies
        (JVal.num 99) [("companyName", JVal.str "Apex")]).table = sampleCompanies ∧
      (internationalUpdateCompany (some sampleCompanyModel) sampleBcrypt sampleCompanies
        (JVal.num 99) [("companyName", JVal.str "Apex")]).status = 404 ∧
      (internationalUpdateCompany (some sampleCompanyModel) sampleBcrypt sampleCompanies
        (JVal.num 99) [("companyName", JVal.str "Apex")]).table = sampleCompanies ∧
      (indianUpdateCompany (some sampleCompanyModel) sampleBcrypt sampleCompanies
        (JVal.num 1) [("password", JVal.str "new")]).company
        = some [("id", JVal.num 1), ("companyName", JVal.str "Acme"),
                ("emailAddress", JVal.str "ann@example.com")] := by
  decide

/-! ## C23: `createInspector` -/

/-- Every response of the `catch` block of `createInspector` is a failure that leaves
the table as it was, after a rollback. -/
theorem createInspectorCatch_rolls_back (table : List JsObject) (error : CustomerError) :
    (createInspectorCatch table error).status ≠ 201 ∧
      (createInspectorCatch table error).table = table ∧
      (createInspectorCatch table error).transaction = TxEnd.rolledBack := by
  unfold createInspectorCatch
  split
  · exact ⟨by simp, rfl, rfl⟩
  · split
    · exact ⟨by simp, rfl, rfl⟩
    · exact ⟨by simp, rfl, rfl⟩

/-- The logic of lines 53-177, which run once the transaction is open: (1) a missing
required field gives 400; (2) with the six fields there, an inspector found with the
email address or the code gives 409; (3) every response other than 201 leaves the table
as it was, after a rollback; (4) a 201 follows a commit and carries `id`, `fullName`,
`emailAddress` and `internationalInspectorCode` and no other key. -/
theorem createInspectorBody_contract (InternationalInspector : InspectorModel)
    (bcrypt : Bcrypt) (table : List JsObject) (body : JsObject) :
    (((getProperty body "countryCode").truthy = false ∨
        (getProperty body "fullName").truthy = false ∨
        (getProperty body "emailAddress").truthy = false ∨
        (getProperty body "mobileNumber").truthy = false ∨
        (getProperty body "password").truthy = false ∨
        (getProperty body "internationalInspectorCode").truthy = false) →
        (createInspectorBody InternationalInspector bcrypt table body).status = 400) ∧
      ((getProperty body "countryCode").truthy = true →
        (getProperty body "fullName").truthy = true →
        (getProperty body "emailAddress").truthy = true →
        (getProperty body "mobileNumber").truthy = true →
        (getProperty body "password").truthy = true →
        (getProperty body "internationalInspectorCode").truthy = true →
        ∀ existing,
          InternationalInspector.findOne table (getProperty body "emailAddress")
              (getProperty body "internationalInspectorCode")
            = Except.ok (some existing) →
          (createInspectorBody InternationalInspector bcrypt table body).status = 409) ∧
      ((createInspectorBody InternationalInspector bcrypt table body).status ≠ 201 →
        (createInspectorBody InternationalInspector bcrypt table body).table = table ∧
          (createInspectorBody InternationalInspector bcrypt table body).transaction
            = TxEnd.rolledBack) ∧
      ((createInspectorBody InternationalInspector bcrypt table body).status = 201 →
        (createInspectorBody InternationalInspector bcrypt table body).transaction
            = TxEnd.committed ∧
          ∃ inspector,
            (createInspectorBody InternationalInspector bcrypt table body).inspector
              = some inspector ∧
            ∀ entry ∈ inspector,
              entry.1 ∈ ["id", "fullName", "emailAddress", "internationalInspectorCode"]) := by
  have hcases :
      ((createInspectorBody InternationalInspector bcrypt table body).status ≠ 201 ∧
        (createInspectorBody InternationalInspector bcrypt table body).table = table ∧
        (createInspectorBody InternationalInspector bcrypt table body).transaction
          = TxEnd.rolledBack) ∨
      ((createInspectorBody InternationalInspector bcrypt table body).status = 201 ∧
        (createInspectorBody InternationalInspector bcrypt table body).transaction
          = TxEnd.committed ∧
        ∃ inspector,
          (createInspectorBody InternationalInspector bcrypt table body).inspector
            = some inspector ∧
          ∀ entry ∈ inspector,
            entry.1 ∈ ["id", "fullName", "emailAddress", "internationalInspectorCode"]) := by
    unfold createInspectorBody
    split
    · left
      exact ⟨by simp, rfl, rfl⟩
    · split
      · left
        exact createInspectorCatch_rolls_back table _
      · left
        exact ⟨by simp, rfl, rfl⟩
      · split
        · left
          exact createInspectorCatch_rolls_back table _
        · split
          · left
            exact createInspectorCatch_rolls_back table _
          · right
            refine ⟨rfl, rfl, _, rfl, ?_⟩
            intro entry hentry
            exact jsonObject_keys _ entry hentry
  refine ⟨?_, ?_, ?_, ?_⟩
  · intro hmissing
    have hcond : (!(getProperty body "countryCode").truthy
        || !(getProperty body "fullName").truthy
        || !(getProperty body "emailAddress").truthy
        || !(getProperty body "mobileNumber").truthy
        || !(getProperty body "password").truthy
        || !(getProperty body "internationalInspectorCode").truthy) = true := by
      rcases hmissing with h | h | h | h | h | h <;> simp [h]
    simp [createInspectorBody, hcond]
  · intro h1 h2 h3 h4 h5 h6 existing hfind
    simp [createInspectorBody, h1, h2, h3, h4, h5, h6, hfind]
  · intro hne
    rcases hcases with h | h
    · exact h.2
    · exact absurd h.1 hne
  · intro h201
    rcases hcases with h | h
    · exact absurd h201 h.1
    · exact h.2

/-- C23 fails for every request: `createInspector` reads the name `sequelize`, which
its module does not declare, before it looks at the request; the ReferenceError leaves
the handler without any response, so there is no 400 for a request without its
required fields (the empty body here), no 409 and no 201. -/
theorem createInspector_throws (InternationalInspector : InspectorModel) (bcrypt : Bcrypt)
    (table : List JsObject) (body : JsObject) :
    createInspector inspectorSequelize InternationalInspector bcrypt table body
        = Except.error sequelizeNotDefined ∧
      (∀ outcome : InspectorOutcome,
        createInspector inspectorSequelize InternationalInspector bcrypt table body
          ≠ Except.ok outcome) ∧
      createInspector inspectorSequelize sampleInspectorModel sampleBcrypt [] []
        = Except.error sequelizeNotDefined ∧
      (createInspectorBody sampleInspectorModel sampleBcrypt [] []).status = 400 := by
  refine ⟨rfl, ?_, rfl, by decide⟩
  intro outcome h
  cases h

/-- With the name `sequelize` declared, the sample request is answered 201 with the
four keys of the claim and one row is stored; a second request with the same email
address is answered 409 and the table is left as it was. -/
theorem createInspector_declared_sample :
    (createInspectorBody sampleInspectorModel sampleBcrypt [] sampleInspectorBody).status
        = 201 ∧
      (createInspectorBody sampleInspectorModel sampleBcrypt [] sampleInspectorBody).inspector
        = some [("id", JVal.num 1), ("fullName", JVal.str "Ann Lee"),
                ("emailAddress", JVal.str "ann@example.com"),
                ("internationalInspectorCode", JVal.str "INT-1")] ∧
      (createInspectorBody sampleInspectorModel sampleBcrypt
        (createInspectorBody sampleInspectorModel sampleBcrypt [] sampleInspectorBody).table
        sampleInspectorBody).status = 409 ∧
      (createInspectorBody sampleInspectorModel sampleBcrypt
        (createInspectorBody sampleInspectorModel sampleBcrypt [] sampleInspectorBody).table
        sampleInspectorBody).table
        = (createInspectorBody sampleInspectorModel sampleBcrypt []
            sampleInspectorBody).table := by
  decide

end QualtyAI
